import Mathlib

/-!
UkrytaPrawda: the SSL/TLS certificate validator (`src/backend/ssl-validator.js`).

A shallow embedding of the validator module.  JavaScript strings are Lean
strings, handled through their character lists so that every operation is
structurally recursive and evaluates in the kernel.  Case conversion is the
ASCII one (it agrees with `toLowerCase` / `toUpperCase` on ASCII text such as
host names, cipher names and algorithm names).  Everything the module reads
from its environment (the URL parser, the TLS socket, the clock, the date
parser) is an explicit input, gathered in `Env`.
-/

namespace UkrytaPrawda

/-! ## JavaScript string primitives -/

/-- Search of a character list for a contiguous sublist. -/
def includesAux (needle : List Char) : List Char → Bool
  | [] => needle.isEmpty
  | c :: cs => needle.isPrefixOf (c :: cs) || includesAux needle cs

/-- JavaScript `s.includes(needle)`. -/
def jsIncludes (s needle : String) : Bool := includesAux needle.data s.data

/-- JavaScript `s.startsWith(p)`. -/
def jsStartsWith (s p : String) : Bool := p.data.isPrefixOf s.data

/-- JavaScript `s.endsWith(p)`. -/
def jsEndsWith (s p : String) : Bool := p.data.isSuffixOf s.data

/-- JavaScript `s.toLowerCase()` (ASCII letters). -/
def jsToLowerCase (s : String) : String := ⟨s.data.map Char.toLower⟩

/-- JavaScript `s.toUpperCase()` (ASCII letters). -/
def jsToUpperCase (s : String) : String := ⟨s.data.map Char.toUpper⟩

/-- JavaScript `s.slice(n)` for a non-negative `n`. -/
def jsSlice (s : String) (n : Nat) : String := ⟨s.data.drop n⟩

/-- JavaScript `s.split(sep).length` for a one-character separator: one more
than the number of separators in `s`. -/
def jsSplitLength (s : String) (sep : Char) : Nat := s.data.count sep + 1

/-- JavaScript `s.replace(/:/g, '')`. -/
def jsRemoveColons (s : String) : String := ⟨s.data.filter (fun c => c != ':')⟩

/-- Truthiness of an optional string: defined and non-empty. -/
def truthy : Option String → Bool
  | none => false
  | some s => s != ""

/-- JavaScript `a || b` on optional strings: `a` when truthy, else `b`. -/
def orElseStr (a b : Option String) : Option String :=
  if truthy a then a else b

/-- JavaScript `a || d` with a string default `d`. -/
def orDefault (a : Option String) (d : String) : String :=
  match a with
  | some s => if s != "" then s else d
  | none => d

/-- Hexadecimal digit of a number below sixteen. -/
def hexDigit (n : Nat) : Char :=
  if n < 10 then Char.ofNat (48 + n) else Char.ofNat (87 + n)

/-- `JSON.stringify` escaping of one character inside a string literal. -/
def jsonEscapeChar (c : Char) : List Char :=
  if c = Char.ofNat 34 then [Char.ofNat 92, Char.ofNat 34]
  else if c = Char.ofNat 92 then [Char.ofNat 92, Char.ofNat 92]
  else if c = Char.ofNat 8 then [Char.ofNat 92, 'b']
  else if c = Char.ofNat 12 then [Char.ofNat 92, 'f']
  else if c = Char.ofNat 10 then [Char.ofNat 92, 'n']
  else if c = Char.ofNat 13 then [Char.ofNat 92, 'r']
  else if c = Char.ofNat 9 then [Char.ofNat 92, 't']
  else if c.toNat < 32 then
    [Char.ofNat 92, 'u', '0', '0', hexDigit (c.toNat / 16), hexDigit (c.toNat % 16)]
  else [c]

/-- `JSON.stringify` of a string: the quoted, escaped literal. -/
def jsonString (s : String) : List Char :=
  [Char.ofNat 34] ++ (s.data.map jsonEscapeChar).flatten ++ [Char.ofNat 34]

/-- Comma-separated `"key":"value"` members of an object. -/
def jsonMembers : List (String × String) → List Char
  | [] => []
  | [(k, v)] => jsonString k ++ [':'] ++ jsonString v
  | (k, v) :: rest => jsonString k ++ [':'] ++ jsonString v ++ [','] ++ jsonMembers rest

/-- `JSON.stringify` of an object whose values are strings, keys in insertion
order. -/
def jsonStringify (o : List (String × String)) : String :=
  ⟨[Char.ofNat 123] ++ jsonMembers o ++ [Char.ofNat 125]⟩

/-! ## Data model -/

/-- Issue record: one catalog entry, possibly with `technicalDesc` overridden. -/
structure Issue where
  code : String
  severity : String
  technicalDesc : String
  userMessage : String
  icon : String
  deriving DecidableEq, Repr

/-- Catalog entry `SSL_ERROR_CODES.CERT_EXPIRED`. -/
def SSL_ERROR_CODES.CERT_EXPIRED : Issue :=
  ⟨"CERT_EXPIRED", "CRITICAL", "Certyfikat SSL wygasł",
   "UWAGA! Zabezpieczenia tej strony wygasły. Nie wprowadzaj żadnych danych osobowych. Zamknij stronę.",
   "🔴"⟩

/-- Catalog entry `SSL_ERROR_CODES.CERT_NOT_YET_VALID`. -/
def SSL_ERROR_CODES.CERT_NOT_YET_VALID : Issue :=
  ⟨"CERT_NOT_YET_VALID", "CRITICAL", "Certyfikat jeszcze nie jest ważny",
   "Certyfikat tej strony jest nieprawidłowy. Strona może być fałszywa.",
   "🔴"⟩

/-- Catalog entry `SSL_ERROR_CODES.CERT_CN_MISMATCH`. -/
def SSL_ERROR_CODES.CERT_CN_MISMATCH : Issue :=
  ⟨"CERT_CN_MISMATCH", "CRITICAL", "Nazwa w certyfikacie nie pasuje do domeny",
   "UWAGA! Ta strona podszywa się pod inną stronę. To może być oszustwo!",
   "🔴"⟩

/-- Catalog entry `SSL_ERROR_CODES.CERT_SELF_SIGNED`. -/
def SSL_ERROR_CODES.CERT_SELF_SIGNED : Issue :=
  ⟨"CERT_SELF_SIGNED", "CRITICAL", "Certyfikat samopodpisany",
   "Ta strona nie ma wiarygodnego certyfikatu. Prawdziwe strony urzędowe mają oficjalne certyfikaty.",
   "🔴"⟩

/-- Catalog entry `SSL_ERROR_CODES.CERT_UNTRUSTED_ROOT`. -/
def SSL_ERROR_CODES.CERT_UNTRUSTED_ROOT : Issue :=
  ⟨"CERT_UNTRUSTED_ROOT", "CRITICAL", "Nieznany/niezaufany główny urząd certyfikacji",
   "Nie można potwierdzić tożsamości tej strony. Certyfikat pochodzi z nieznanego źródła.",
   "🔴"⟩

/-- Catalog entry `SSL_ERROR_CODES.CERT_REVOKED`. -/
def SSL_ERROR_CODES.CERT_REVOKED : Issue :=
  ⟨"CERT_REVOKED", "CRITICAL", "Certyfikat został odwołany (OCSP/CRL)",
   "NIEBEZPIECZEŃSTWO! Certyfikat tej strony został unieważniony. Strona może być zagrożona!",
   "🔴"⟩

/-- Catalog entry `SSL_ERROR_CODES.CERT_CHAIN_INCOMPLETE`. -/
def SSL_ERROR_CODES.CERT_CHAIN_INCOMPLETE : Issue :=
  ⟨"CERT_CHAIN_INCOMPLETE", "HIGH", "Niepełny łańcuch certyfikacji",
   "Nie można w pełni zweryfikować strony. Brakuje części certyfikatu.",
   "🟠"⟩

/-- Catalog entry `SSL_ERROR_CODES.CERT_INVALID`. -/
def SSL_ERROR_CODES.CERT_INVALID : Issue :=
  ⟨"CERT_INVALID", "CRITICAL", "Certyfikat jest uszkodzony lub nieprawidłowy",
   "Certyfikat strony jest uszkodzony lub nieprawidłowy.",
   "🔴"⟩

/-- Catalog entry `SSL_ERROR_CODES.NO_ENCRYPTION`. -/
def SSL_ERROR_CODES.NO_ENCRYPTION : Issue :=
  ⟨"NO_ENCRYPTION", "CRITICAL", "Brak szyfrowania HTTPS (plaintext HTTP)",
   "NIEBEZPIECZNE! Ta strona nie jest szyfrowana. Twoje dane mogą być przechwycone!",
   "🔴"⟩

/-- Catalog entry `SSL_ERROR_CODES.NULL_CIPHER`. -/
def SSL_ERROR_CODES.NULL_CIPHER : Issue :=
  ⟨"NULL_CIPHER", "CRITICAL", "Cipher suite bez szyfrowania (NULL)",
   "BŁĄD KRYTYCZNY! Ta strona w ogóle nie szyfruje połączenia!",
   "🔴"⟩

/-- Catalog entry `SSL_ERROR_CODES.WEAK_CIPHER_RC4`. -/
def SSL_ERROR_CODES.WEAK_CIPHER_RC4 : Issue :=
  ⟨"WEAK_CIPHER_RC4", "HIGH", "Użyto złamanego szyfru RC4",
   "Ta strona używa przestarzałego szyfrowania. Zalecamy ostrożność.",
   "🟠"⟩

/-- Catalog entry `SSL_ERROR_CODES.WEAK_CIPHER_3DES`. -/
def SSL_ERROR_CODES.WEAK_CIPHER_3DES : Issue :=
  ⟨"WEAK_CIPHER_3DES", "HIGH", "Użyto słabego szyfru 3DES",
   "Szyfrowanie tej strony jest przestarzałe. Unikaj wrażliwych operacji.",
   "🟠"⟩

/-- Catalog entry `SSL_ERROR_CODES.WEAK_CIPHER_CBC`. -/
def SSL_ERROR_CODES.WEAK_CIPHER_CBC : Issue :=
  ⟨"WEAK_CIPHER_CBC", "MEDIUM", "Użyto trybu CBC (podatny na BEAST)",
   "Szyfrowanie strony może mieć słabe punkty. Zachowaj ostrożność.",
   "🟡"⟩

/-- Catalog entry `SSL_ERROR_CODES.OLD_TLS_VERSION`. -/
def SSL_ERROR_CODES.OLD_TLS_VERSION : Issue :=
  ⟨"OLD_TLS_VERSION", "MEDIUM", "Przestarzały protokół TLS (< 1.2)",
   "Ta strona używa przestarzałej wersji zabezpieczeń. Nowoczesne strony używają nowszych.",
   "🟠"⟩

/-- Catalog entry `SSL_ERROR_CODES.WEAK_KEY_SIZE`. -/
def SSL_ERROR_CODES.WEAK_KEY_SIZE : Issue :=
  ⟨"WEAK_KEY_SIZE", "HIGH", "Za krótki klucz kryptograficzny (< 2048 bit)",
   "Zabezpieczenia tej strony są za słabe dla ochrony Twoich danych.",
   "🟠"⟩

/-- Catalog entry `SSL_ERROR_CODES.WEAK_SIGNATURE_SHA1`. -/
def SSL_ERROR_CODES.WEAK_SIGNATURE_SHA1 : Issue :=
  ⟨"WEAK_SIGNATURE_SHA1", "MEDIUM", "Certyfikat podpisany słabym algorytmem SHA1",
   "Certyfikat strony używa przestarzałego podpisu. Zachowaj ostrożność.",
   "🟠"⟩

/-- Catalog entry `SSL_ERROR_CODES.WEAK_SIGNATURE_MD5`. -/
def SSL_ERROR_CODES.WEAK_SIGNATURE_MD5 : Issue :=
  ⟨"WEAK_SIGNATURE_MD5", "HIGH", "Certyfikat podpisany złamanym algorytmem MD5",
   "UWAGA! Certyfikat używa niebezpiecznego podpisu. Strona może być fałszywa.",
   "🟠"⟩

/-- Catalog entry `SSL_ERROR_CODES.MIXED_CONTENT_SCRIPT`. -/
def SSL_ERROR_CODES.MIXED_CONTENT_SCRIPT : Issue :=
  ⟨"MIXED_CONTENT_SCRIPT", "HIGH", "Skrypt ładowany przez HTTP na stronie HTTPS",
   "UWAGA! Część tej strony nie jest bezpieczna i może być podmieniona przez oszustów.",
   "🔴"⟩

/-- Catalog entry `SSL_ERROR_CODES.MIXED_CONTENT`. -/
def SSL_ERROR_CODES.MIXED_CONTENT : Issue :=
  ⟨"MIXED_CONTENT", "MEDIUM", "Elementy strony ładowane przez HTTP",
   "Niektóre elementy strony nie są szyfrowane.",
   "🟠"⟩

/-- Catalog entry `SSL_ERROR_CODES.KNOWN_MALWARE_CERT`. -/
def SSL_ERROR_CODES.KNOWN_MALWARE_CERT : Issue :=
  ⟨"KNOWN_MALWARE_CERT", "CRITICAL", "Certyfikat powiązany ze znanym malware",
   "WYKRYTO ZŁOŚLIWE OPROGRAMOWANIE! Ta strona używa certyfikatu powiązanego z wirusem.",
   "🔴"⟩

/-- Catalog entry `SSL_ERROR_CODES.SSL_CONNECTION_FAILED`. -/
def SSL_ERROR_CODES.SSL_CONNECTION_FAILED : Issue :=
  ⟨"SSL_CONNECTION_FAILED", "CRITICAL", "Nie można nawiązać połączenia SSL",
   "Nie można nawiązać bezpiecznego połączenia ze stroną.",
   "🔴"⟩

/-- Catalog entry `SSL_ERROR_CODES.CONNECTION_TIMEOUT`. -/
def SSL_ERROR_CODES.CONNECTION_TIMEOUT : Issue :=
  ⟨"CONNECTION_TIMEOUT", "MEDIUM", "Timeout podczas sprawdzania certyfikatu",
   "Weryfikacja trwa zbyt długo. Sprawdź połączenie internetowe.",
   "🟡"⟩

/-- Catalog entry `SSL_ERROR_CODES.GOV_UNTRUSTED_CA`. -/
def SSL_ERROR_CODES.GOV_UNTRUSTED_CA : Issue :=
  ⟨"GOV_UNTRUSTED_CA", "CRITICAL", "Certyfikat nie pochodzi od zaufanego CA dla gov.pl",
   "UWAGA! Ta strona gov.pl używa podejrzanego certyfikatu! Prawdziwe strony rządowe mają certyfikaty od polskich urzędów certyfikacji.",
   "🔴"⟩

/-- Catalog entry `SSL_ERROR_CODES.GOV_CERT_VALID`. -/
def SSL_ERROR_CODES.GOV_CERT_VALID : Issue :=
  ⟨"GOV_CERT_VALID", "OK", "Certyfikat pochodzi od zaufanego CA dla gov.pl (Certum)",
   "Certyfikat tej strony rządowej jest prawidłowy i pochodzi od zaufanego polskiego urzędu certyfikacji.",
   "🟢"⟩

/-- Catalog entry `SSL_ERROR_CODES.SSL_VALID`. -/
def SSL_ERROR_CODES.SSL_VALID : Issue :=
  ⟨"SSL_VALID", "OK", "Certyfikat SSL jest prawidłowy",
   "Połączenie jest bezpieczne i szyfrowane.",
   "🟢"⟩

/-- Table `SSL_ERROR_CODES`, in the order of the source. -/
def SSL_ERROR_CODES.all : List Issue :=
  [SSL_ERROR_CODES.CERT_EXPIRED, SSL_ERROR_CODES.CERT_NOT_YET_VALID,
   SSL_ERROR_CODES.CERT_CN_MISMATCH, SSL_ERROR_CODES.CERT_SELF_SIGNED,
   SSL_ERROR_CODES.CERT_UNTRUSTED_ROOT, SSL_ERROR_CODES.CERT_REVOKED,
   SSL_ERROR_CODES.CERT_CHAIN_INCOMPLETE, SSL_ERROR_CODES.CERT_INVALID,
   SSL_ERROR_CODES.NO_ENCRYPTION, SSL_ERROR_CODES.NULL_CIPHER,
   SSL_ERROR_CODES.WEAK_CIPHER_RC4, SSL_ERROR_CODES.WEAK_CIPHER_3DES,
   SSL_ERROR_CODES.WEAK_CIPHER_CBC, SSL_ERROR_CODES.OLD_TLS_VERSION,
   SSL_ERROR_CODES.WEAK_KEY_SIZE, SSL_ERROR_CODES.WEAK_SIGNATURE_SHA1,
   SSL_ERROR_CODES.WEAK_SIGNATURE_MD5, SSL_ERROR_CODES.MIXED_CONTENT_SCRIPT,
   SSL_ERROR_CODES.MIXED_CONTENT, SSL_ERROR_CODES.KNOWN_MALWARE_CERT,
   SSL_ERROR_CODES.SSL_CONNECTION_FAILED, SSL_ERROR_CODES.CONNECTION_TIMEOUT,
   SSL_ERROR_CODES.GOV_UNTRUSTED_CA, SSL_ERROR_CODES.GOV_CERT_VALID,
   SSL_ERROR_CODES.SSL_VALID]

/-- Constant `MIN_KEY_SIZE`. -/
def MIN_KEY_SIZE : Int := 2048

/-- Constant `TRUSTED_GOV_CERTIFICATE_AUTHORITIES`. -/
def TRUSTED_GOV_CERTIFICATE_AUTHORITIES : List String :=
  ["Certum Domain Validation CA SHA2", "Certum Trusted Network CA",
   "Certum Trusted Network CA 2", "Certum", "Unizeto Technologies S.A.",
   "COPE SZAFIR - Pair A", "Centrum Certyfikacji COPE", "Sigillum",
   "DigiCert", "GlobalSign", "Comodo", "Sectigo", "Let\x27s Encrypt", "ISRG Root"]

/-- Constant `KNOWN_BAD_CERTS` (SHA1 fingerprints: Superfish, eDellRoot). -/
def KNOWN_BAD_CERTS : List String :=
  ["c864484869d41d2b0d32319c5a62f9315aaf2cbd",
   "98a04e4163357790c4a79e6d713ff0af51fe6927"]

/-- Distinguished name (`subject`, `issuer`): attribute names with their
values, in insertion order. -/
abbrev RDN := List (String × String)

/-- Property read `o.k` on a distinguished name (`undefined` is `none`). -/
def RDN.get (o : RDN) (k : String) : Option String := o.lookup k

/-- Optional chaining `o?.k` on a distinguished name that may be `null`. -/
def RDN.get? (o : Option RDN) (k : String) : Option String :=
  match o with
  | none => none
  | some r => r.get k

/-- Field `publicKey` of the certificate snapshot. -/
structure PublicKey where
  type : String
  bits : Int
  deriving DecidableEq, Repr

/-- Certificate snapshot (`safeCertData` of `getCertificateInfo`).  A field
that may be `undefined` or `null` is an `Option`; an absent `subjectAltNames`
behaves as the empty list in every reader. -/
structure Certificate where
  subject : Option RDN
  issuer : Option RDN
  validFrom : Option String
  validTo : Option String
  fingerprint : Option String
  fingerprint256 : Option String
  serialNumber : Option String
  subjectAltNames : List String
  signatureAlgorithm : Option String
  publicKey : Option PublicKey
  deriving DecidableEq, Repr

/-- Negotiated connection parameters (`connection` of `getCertificateInfo`). -/
structure Connection where
  protocol : Option String
  cipher : Option String
  cipherVersion : Option String
  authorized : Bool
  authorizationError : Option String
  deriving DecidableEq, Repr

/-- Value the promise of `getCertificateInfo` resolves with: either
`{ error }` or `{ certificate, connection }`. -/
structure CertInfo where
  error : Option String
  certificate : Option Certificate
  connection : Option Connection
  deriving DecidableEq, Repr

/-- What happens to the TLS socket opened by `getCertificateInfo`: the first
of these events settles the promise. -/
inductive SocketEvent where
  /-- The handshake completed and the snapshot was extracted. -/
  | secureConnect (certificate : Certificate) (connection : Connection)
  /-- The handshake completed but the extraction threw (`catch (err)`). -/
  | extractionThrew (message : String)
  /-- The socket emitted `error`. -/
  | error (message : String)
  /-- The timer set by `socket.setTimeout(SSL_CHECK_TIMEOUT, ...)` fired. -/
  | timeout
  /-- The call `tls.connect` itself threw: the promise rejects. -/
  | connectThrew (message : String)
  deriving DecidableEq, Repr

/-- Parsed URL: the three fields of `new URL(url)` that are read. -/
structure URLObj where
  hostname : String
  port : String
  protocol : String
  deriving DecidableEq, Repr

/-- Value of `port`: the string of the URL, or the number 443 or 80. -/
inductive PortValue where
  | str (s : String)
  | num (n : Nat)
  deriving DecidableEq, Repr

/-- Environment of one call of `validateSSL`. -/
structure Env where
  /-- Constructor `new URL(url)`: the parsed URL, or the message of the
  `TypeError` it throws. -/
  parseURL : String → Except String URLObj
  /-- Fate of the socket opened to a host and port. -/
  socket : String → PortValue → SocketEvent
  /-- Clock `new Date()` read by `checkCertificateValidity`, in milliseconds. -/
  now : Int
  /-- Text `new Date().toISOString()` taken when the result is created. -/
  timestamp : String
  /-- Time value of `new Date(s)`; `none` is an invalid date (NaN). -/
  parseDate : String → Option Int

/-- Field `details` of a validation result. -/
structure Details where
  hostname : Option String := none
  port : Option PortValue := none
  protocol : Option String := none
  certificate : Option Certificate := none
  connection : Option Connection := none
  isGovPl : Option Bool := none
  issuerCA : Option String := none
  isTrustedGovCA : Option Bool := none
  deriving DecidableEq, Repr

/-- Result object of `validateSSL`. -/
structure ValidationResult where
  valid : Bool
  issues : List Issue
  details : Details
  overallSeverity : String
  timestamp : String
  deriving DecidableEq, Repr

/-! ## Rule evaluators -/

/-- Function `checkCertificateValidity`: the validity window against the
clock.  A comparison with an invalid date is false. -/
def checkCertificateValidity (env : Env) (cert : Certificate) : List Issue :=
  let issues : List Issue := []
  let issues :=
    match cert.validTo with
    | some s =>
      if s != "" then
        match env.parseDate s with
        | some validTo => if env.now > validTo then issues ++ [SSL_ERROR_CODES.CERT_EXPIRED] else issues
        | none => issues
      else issues
    | none => issues
  let issues :=
    match cert.validFrom with
    | some s =>
      if s != "" then
        match env.parseDate s with
        | some validFrom =>
          if env.now < validFrom then issues ++ [SSL_ERROR_CODES.CERT_NOT_YET_VALID] else issues
        | none => issues
      else issues
    | none => issues
  issues

/-- Callback of `subjectAltNames.some(...)` in `checkCertificateIdentity`. -/
def sanMatches (hostname san : String) : Bool :=
  if jsStartsWith san "*." then
    let domain := jsSlice san 2
    jsEndsWith hostname domain && jsSplitLength hostname '.' == jsSplitLength san '.'
  else
    jsToLowerCase san == jsToLowerCase hostname

/-- Function `checkCertificateIdentity`: SAN list first, `subject.CN` as the
fallback. -/
def checkCertificateIdentity (cert : Certificate) (hostname : String) : List Issue :=
  if cert.subjectAltNames.length > 0 then
    let matchesSAN := cert.subjectAltNames.any (sanMatches hostname)
    if !matchesSAN then [SSL_ERROR_CODES.CERT_CN_MISMATCH] else []
  else
    match RDN.get? cert.subject "CN" with
    | some cnRaw =>
      if cnRaw != "" then
        let cn := jsToLowerCase cnRaw
        if jsStartsWith cn "*." then
          let domain := jsSlice cn 2
          if !jsEndsWith hostname domain then [SSL_ERROR_CODES.CERT_CN_MISMATCH] else []
        else if cn != jsToLowerCase hostname then [SSL_ERROR_CODES.CERT_CN_MISMATCH]
        else []
      else []
    | none => []

/-- Function `checkChainOfTrust`: reads the verdict of the platform verifier. -/
def checkChainOfTrust (certInfo : CertInfo) : List Issue :=
  match certInfo.connection with
  | none => []
  | some connection =>
    if !connection.authorized then
      match connection.authorizationError with
      | none => []
      | some error =>
        if jsIncludes error "SELF_SIGNED" || jsIncludes error "self signed" then
          [SSL_ERROR_CODES.CERT_SELF_SIGNED]
        else if jsIncludes error "UNABLE_TO_GET_ISSUER" || jsIncludes error "UNABLE_TO_VERIFY" then
          [SSL_ERROR_CODES.CERT_UNTRUSTED_ROOT]
        else if jsIncludes error "CERT_CHAIN" then
          [SSL_ERROR_CODES.CERT_CHAIN_INCOMPLETE]
        else if jsIncludes error "CERT_REVOKED" then
          [SSL_ERROR_CODES.CERT_REVOKED]
        else []
    else []

/-- Function `checkSignatureAlgorithm`. -/
def checkSignatureAlgorithm (cert : Certificate) : List Issue :=
  let sigAlg := jsToLowerCase (orDefault cert.signatureAlgorithm "")
  if jsIncludes sigAlg "md5" then [SSL_ERROR_CODES.WEAK_SIGNATURE_MD5]
  else if jsIncludes sigAlg "sha1" && !jsIncludes sigAlg "sha1with" then
    [SSL_ERROR_CODES.WEAK_SIGNATURE_SHA1]
  else []

/-- Function `checkKeyStrength`: `bits` must be truthy (non-zero) and below
`MIN_KEY_SIZE`. -/
def checkKeyStrength (cert : Certificate) : List Issue :=
  match cert.publicKey with
  | some pk => if pk.bits != 0 && pk.bits < MIN_KEY_SIZE then [SSL_ERROR_CODES.WEAK_KEY_SIZE] else []
  | none => []

/-- Function `checkTLSVersion`. -/
def checkTLSVersion (connection : Option Connection) : List Issue :=
  match connection with
  | none => []
  | some c =>
    match c.protocol with
    | none => []
    | some protocol =>
      if protocol != "" then
        if protocol == "TLSv1" || protocol == "TLSv1.1" ||
            protocol == "SSLv3" || protocol == "SSLv2" then
          [SSL_ERROR_CODES.OLD_TLS_VERSION]
        else []
      else []

/-- Function `checkCipherSuite`. -/
def checkCipherSuite (connection : Option Connection) : List Issue :=
  match connection with
  | none => []
  | some c =>
    match c.cipher with
    | none => []
    | some name =>
      if name != "" then
        let cipher := jsToUpperCase name
        if jsIncludes cipher "NULL" then [SSL_ERROR_CODES.NULL_CIPHER]
        else if jsIncludes cipher "RC4" then [SSL_ERROR_CODES.WEAK_CIPHER_RC4]
        else if jsIncludes cipher "3DES" || jsIncludes cipher "DES-CBC3" then
          [SSL_ERROR_CODES.WEAK_CIPHER_3DES]
        else if jsIncludes cipher "-CBC-" || jsIncludes cipher "_CBC_" then
          [SSL_ERROR_CODES.WEAK_CIPHER_CBC]
        else []
      else []

/-- Function `checkKnownBadCerts`: the fingerprint test, then the issuer test. -/
def checkKnownBadCerts (cert : Certificate) : List Issue :=
  let issues : List Issue := []
  let issues :=
    match cert.fingerprint with
    | some f =>
      if f != "" then
        let fp := jsToLowerCase (jsRemoveColons f)
        if KNOWN_BAD_CERTS.contains fp then issues ++ [SSL_ERROR_CODES.KNOWN_MALWARE_CERT]
        else issues
      else issues
    | none => issues
  let issues :=
    match cert.issuer with
    | some issuer =>
      let issuerStr := jsToLowerCase (jsonStringify issuer)
      if jsIncludes issuerStr "superfish" || jsIncludes issuerStr "edellroot" then
        issues ++ [SSL_ERROR_CODES.KNOWN_MALWARE_CERT]
      else issues
    | none => issues
  issues

/-- Function `isFromTrustedGovCA`; the argument is `none` for a missing
certificate. -/
def isFromTrustedGovCA (cert : Option Certificate) : Bool :=
  match cert with
  | none => false
  | some cert =>
    match cert.issuer with
    | none => false
    | some issuer =>
      let issuerCN := orDefault (issuer.get "CN") ""
      let issuerO := orDefault (issuer.get "O") ""
      let issuerOU := orDefault (issuer.get "OU") ""
      if TRUSTED_GOV_CERTIFICATE_AUTHORITIES.any (fun trustedCA =>
          jsIncludes issuerCN trustedCA || jsIncludes issuerO trustedCA ||
          jsIncludes issuerOU trustedCA) then true
      else if jsIncludes (jsToLowerCase issuerCN) "certum" ||
          jsIncludes (jsToLowerCase issuerO) "certum" ||
          jsIncludes (jsToLowerCase issuerO) "unizeto" then true
      else false

/-- Expression `cert.issuer?.CN || cert.issuer?.O || fallback`. -/
def issuerDisplay (cert : Certificate) (fallback : String) : String :=
  orDefault (orElseStr (RDN.get? cert.issuer "CN") (RDN.get? cert.issuer "O")) fallback

/-- Function `checkGovPlCertificate`. -/
def checkGovPlCertificate (cert : Certificate) (hostname : String) : List Issue :=
  if !jsEndsWith hostname ".gov.pl" then []
  else
    let isTrusted := isFromTrustedGovCA (some cert)
    if isTrusted then
      [{ SSL_ERROR_CODES.GOV_CERT_VALID with
          technicalDesc := "Certyfikat wydany przez: " ++ issuerDisplay cert "Zaufany CA" }]
    else
      [{ SSL_ERROR_CODES.GOV_UNTRUSTED_CA with
          technicalDesc := "Certyfikat wydany przez niezaufanego CA: " ++
            issuerDisplay cert "Nieznany" }]

/-! ## Aggregation -/

/-- Loop of `calculateOverallSeverity` over the remaining severities. -/
def calculateOverallSeverity.loop (issues : List Issue) : List String → String
  | [] => "OK"
  | severity :: rest =>
    if issues.any (fun issue => issue.severity == severity) then severity
    else calculateOverallSeverity.loop issues rest

/-- The list `severityOrder` of `calculateOverallSeverity`. -/
def severityOrder : List String := ["CRITICAL", "HIGH", "MEDIUM", "LOW", "OK"]

/-- Function `calculateOverallSeverity`. -/
def calculateOverallSeverity (issues : List Issue) : String :=
  calculateOverallSeverity.loop issues severityOrder

/-- Function `getCertificateInfo`, by the event that settles its promise:
`Except.ok` is the value it resolves with, `Except.error` a rejection. -/
def getCertificateInfo (event : SocketEvent) : Except String CertInfo :=
  match event with
  | .secureConnect certificate connection =>
    .ok { error := none, certificate := some certificate, connection := some connection }
  | .extractionThrew message =>
    .ok { error := some message, certificate := none, connection := none }
  | .error message =>
    .ok { error := some message, certificate := none, connection := none }
  | .timeout =>
    .ok { error := some "Connection timeout", certificate := none, connection := none }
  | .connectThrew message => .error message

/-- Message of the `TypeError` raised by `cert.validTo` when `cert` is
`undefined` (the first property read of `checkCertificateValidity`). -/
def undefinedCertificateMessage : String :=
  "Cannot read properties of undefined (reading \x27validTo\x27)"

/-- The `catch (error)` block of `validateSSL`. -/
def validateSSL.catchBlock (result : ValidationResult) (message : String) : ValidationResult :=
  { result with
    issues := result.issues ++
      [{ SSL_ERROR_CODES.SSL_CONNECTION_FAILED with technicalDesc := message }]
    overallSeverity := "CRITICAL" }

/-- The nine evaluators of `validateSSL` in the order they run, their outputs
pushed one after the other. -/
def validateSSL.evaluate (env : Env) (certInfo : CertInfo) (cert : Certificate)
    (hostname : String) : List Issue :=
  checkCertificateValidity env cert ++
  checkCertificateIdentity cert hostname ++
  checkChainOfTrust certInfo ++
  checkSignatureAlgorithm cert ++
  checkKeyStrength cert ++
  checkTLSVersion certInfo.connection ++
  checkCipherSuite certInfo.connection ++
  checkKnownBadCerts cert ++
  checkGovPlCertificate cert hostname

/-- Lines 335 to 386 of `validateSSL`: what follows a fetch that reported no
error.  Reading `validTo` of an `undefined` certificate throws before any
issue is pushed, and the `catch` block takes over. -/
def validateSSL.inspect (env : Env) (result : ValidationResult) (certInfo : CertInfo)
    (hostname : String) : ValidationResult :=
  let result :=
    { result with
      details := { result.details with
        certificate := certInfo.certificate, connection := certInfo.connection } }
  match certInfo.certificate with
  | none => validateSSL.catchBlock result undefinedCertificateMessage
  | some cert =>
    let result :=
      { result with issues := result.issues ++ validateSSL.evaluate env certInfo cert hostname }
    let result :=
      { result with
        details := { result.details with
          isGovPl := some (jsEndsWith hostname ".gov.pl")
          issuerCA := some (issuerDisplay cert "unknown")
          isTrustedGovCA := some (isFromTrustedGovCA certInfo.certificate) } }
    let result :=
      { result with overallSeverity := calculateOverallSeverity result.issues }
    let result :=
      { result with
        valid := result.overallSeverity == "OK" || result.overallSeverity == "LOW" }
    if result.issues.length == 0 then
      { result with issues := result.issues ++ [SSL_ERROR_CODES.SSL_VALID] }
    else result

/-- The branch `if (certInfo.error)` of `validateSSL`. -/
def validateSSL.connectionFailed (result : ValidationResult) (error : String) :
    ValidationResult :=
  { result with
    issues := result.issues ++
      [{ SSL_ERROR_CODES.SSL_CONNECTION_FAILED with technicalDesc := error }]
    overallSeverity := "CRITICAL" }

/-- The result object `validateSSL` starts from. -/
def validateSSL.initial (env : Env) : ValidationResult :=
  { valid := false, issues := [], details := {}, overallSeverity := "OK",
    timestamp := env.timestamp }

/-- Expression `urlObj.port || (urlObj.protocol === 'https:' ? 443 : 80)`. -/
def validateSSL.port (urlObj : URLObj) : PortValue :=
  if urlObj.port != "" then .str urlObj.port
  else if urlObj.protocol == "https:" then .num 443 else .num 80

/-- Lines 312 to 314 of `validateSSL`: the result once host name, port and
scheme are recorded in `details`. -/
def validateSSL.located (env : Env) (urlObj : URLObj) : ValidationResult :=
  let result := validateSSL.initial env
  { result with
    details := { result.details with
      hostname := some urlObj.hostname
      port := some (validateSSL.port urlObj)
      protocol := some urlObj.protocol } }

/-- Function `validateSSL`. -/
def validateSSL (env : Env) (url : String) : ValidationResult :=
  let result := validateSSL.initial env
  match env.parseURL url with
  | .error message => validateSSL.catchBlock result message
  | .ok urlObj =>
    let hostname := urlObj.hostname
    let port := validateSSL.port urlObj
    let result := validateSSL.located env urlObj
    if urlObj.protocol != "https:" then
      { result with
        issues := result.issues ++ [SSL_ERROR_CODES.NO_ENCRYPTION]
        overallSeverity := "CRITICAL" }
    else
      match getCertificateInfo (env.socket hostname port) with
      | .error message => validateSSL.catchBlock result message
      | .ok certInfo =>
        match certInfo.error with
        | some error =>
          if error != "" then validateSSL.connectionFailed result error
          else validateSSL.inspect env result certInfo hostname
        | none => validateSSL.inspect env result certInfo hostname

/-- Function `estimateKeyBits`: four bits for each hexadecimal digit of the
modulus, 0 when the modulus is missing or empty. -/
def estimateKeyBits (modulus : Option String) : Int :=
  match modulus with
  | none => 0
  | some m => if m != "" then (m.data.length : Int) * 4 else 0

/-! ## Catalog lookup -/

/-- Object `SSL_ERROR_CODES`: each own key with the record stored under it. -/
def SSL_ERROR_CODES.table : List (String × Issue) :=
  [("CERT_EXPIRED", SSL_ERROR_CODES.CERT_EXPIRED),
   ("CERT_NOT_YET_VALID", SSL_ERROR_CODES.CERT_NOT_YET_VALID),
   ("CERT_CN_MISMATCH", SSL_ERROR_CODES.CERT_CN_MISMATCH),
   ("CERT_SELF_SIGNED", SSL_ERROR_CODES.CERT_SELF_SIGNED),
   ("CERT_UNTRUSTED_ROOT", SSL_ERROR_CODES.CERT_UNTRUSTED_ROOT),
   ("CERT_REVOKED", SSL_ERROR_CODES.CERT_REVOKED),
   ("CERT_CHAIN_INCOMPLETE", SSL_ERROR_CODES.CERT_CHAIN_INCOMPLETE),
   ("CERT_INVALID", SSL_ERROR_CODES.CERT_INVALID),
   ("NO_ENCRYPTION", SSL_ERROR_CODES.NO_ENCRYPTION),
   ("NULL_CIPHER", SSL_ERROR_CODES.NULL_CIPHER),
   ("WEAK_CIPHER_RC4", SSL_ERROR_CODES.WEAK_CIPHER_RC4),
   ("WEAK_CIPHER_3DES", SSL_ERROR_CODES.WEAK_CIPHER_3DES),
   ("WEAK_CIPHER_CBC", SSL_ERROR_CODES.WEAK_CIPHER_CBC),
   ("OLD_TLS_VERSION", SSL_ERROR_CODES.OLD_TLS_VERSION),
   ("WEAK_KEY_SIZE", SSL_ERROR_CODES.WEAK_KEY_SIZE),
   ("WEAK_SIGNATURE_SHA1", SSL_ERROR_CODES.WEAK_SIGNATURE_SHA1),
   ("WEAK_SIGNATURE_MD5", SSL_ERROR_CODES.WEAK_SIGNATURE_MD5),
   ("MIXED_CONTENT_SCRIPT", SSL_ERROR_CODES.MIXED_CONTENT_SCRIPT),
   ("MIXED_CONTENT", SSL_ERROR_CODES.MIXED_CONTENT),
   ("KNOWN_MALWARE_CERT", SSL_ERROR_CODES.KNOWN_MALWARE_CERT),
   ("SSL_CONNECTION_FAILED", SSL_ERROR_CODES.SSL_CONNECTION_FAILED),
   ("CONNECTION_TIMEOUT", SSL_ERROR_CODES.CONNECTION_TIMEOUT),
   ("GOV_UNTRUSTED_CA", SSL_ERROR_CODES.GOV_UNTRUSTED_CA),
   ("GOV_CERT_VALID", SSL_ERROR_CODES.GOV_CERT_VALID),
   ("SSL_VALID", SSL_ERROR_CODES.SSL_VALID)]

/-- Own property names of `Object.prototype`, which every object literal
inherits; the value found under each is a function (under `__proto__`, the
prototype object), hence truthy. -/
def objectPrototypeKeys : List String :=
  ["constructor", "__defineGetter__", "__defineSetter__", "hasOwnProperty",
   "__lookupGetter__", "__lookupSetter__", "isPrototypeOf", "propertyIsEnumerable",
   "toString", "valueOf", "__proto__", "toLocaleString"]

/-- Value returned by `getErrorByCode`. -/
inductive LookupResult where
  /-- A record of the catalog. -/
  | record (entry : Issue)
  /-- The value inherited from `Object.prototype` under the given name. -/
  | inherited (key : String)
  /-- The value `null`. -/
  | null
  deriving DecidableEq, Repr

/-- Function `getErrorByCode`: the property read `SSL_ERROR_CODES[code] || null`.
An own key gives its record; a name of `Object.prototype` gives the inherited
value, which is truthy; any other name gives `undefined`, hence `null`. -/
def getErrorByCode (code : String) : LookupResult :=
  match SSL_ERROR_CODES.table.lookup code with
  | some entry => .record entry
  | none => if objectPrototypeKeys.contains code then .inherited code else .null

/-! ## Test harness (`src/backend/ssl-tests.js`) -/

/-- One entry of a `tests` array. -/
structure TestCase where
  url : String
  expectedCode : String
  description : String
  deriving DecidableEq, Repr

/-- One entry of `TEST_CASES`. -/
structure TestCategory where
  category : String
  tests : List TestCase
  deriving DecidableEq, Repr

/-- Table `TEST_CASES` of the harness. -/
def TEST_CASES : List TestCategory :=
  [⟨"CERTYFIKATY",
     [⟨"https://expired.badssl.com/", "CERT_EXPIRED", "Wygasły certyfikat"⟩,
      ⟨"https://wrong.host.badssl.com/", "CERT_CN_MISMATCH", "Błędna nazwa hosta"⟩,
      ⟨"https://self-signed.badssl.com/", "CERT_SELF_SIGNED", "Samopodpisany"⟩,
      ⟨"https://untrusted-root.badssl.com/", "CERT_UNTRUSTED_ROOT", "Niezaufany root CA"⟩,
      ⟨"https://revoked.badssl.com/", "CERT_REVOKED", "Odwołany certyfikat"⟩,
      ⟨"https://no-common-name.badssl.com/", "CERT_INVALID", "Brak Common Name"⟩,
      ⟨"https://incomplete-chain.badssl.com/", "CERT_CHAIN_INCOMPLETE", "Niepełny łańcuch"⟩]⟩,
   ⟨"HTTP (BRAK SZYFROWANIA)",
     [⟨"http://http.badssl.com/", "NO_ENCRYPTION", "Czyste HTTP"⟩,
      ⟨"http://http-password.badssl.com/", "NO_ENCRYPTION", "Hasło przez HTTP"⟩,
      ⟨"http://http-login.badssl.com/", "NO_ENCRYPTION", "Logowanie przez HTTP"⟩]⟩,
   ⟨"SŁABE ALGORYTMY SZYFROWANIA",
     [⟨"https://rc4.badssl.com/", "WEAK_CIPHER_RC4", "Szyfr RC4"⟩,
      ⟨"https://3des.badssl.com/", "WEAK_CIPHER_3DES", "Szyfr 3DES"⟩,
      ⟨"https://null.badssl.com/", "NULL_CIPHER", "Brak szyfrowania (NULL)"⟩,
      ⟨"https://cbc.badssl.com/", "WEAK_CIPHER_CBC", "Tryb CBC"⟩]⟩,
   ⟨"PROTOKOŁY TLS",
     [⟨"https://tls-v1-0.badssl.com:1010/", "OLD_TLS_VERSION", "TLS 1.0 (przestarzały)"⟩,
      ⟨"https://tls-v1-1.badssl.com:1011/", "OLD_TLS_VERSION", "TLS 1.1 (przestarzały)"⟩,
      ⟨"https://tls-v1-2.badssl.com:1012/", "SSL_VALID", "TLS 1.2 (OK)"⟩]⟩,
   ⟨"ZNANE ZAGROŻENIA",
     [⟨"https://superfish.badssl.com/", "KNOWN_MALWARE_CERT", "Superfish"⟩,
      ⟨"https://edellroot.badssl.com/", "KNOWN_MALWARE_CERT", "eDellRoot"⟩,
      ⟨"https://sha1-2017.badssl.com/", "WEAK_SIGNATURE_SHA1", "SHA1 (słaby)"⟩]⟩,
   ⟨"PRAWIDŁOWE CERTYFIKATY",
     [⟨"https://badssl.com/", "SSL_VALID", "Prawidłowy certyfikat"⟩,
      ⟨"https://gov.pl/", "SSL_VALID", "gov.pl (powinien być OK)"⟩,
      ⟨"https://google.com/", "SSL_VALID", "Google (kontrolny)"⟩]⟩]

/-- Entry pushed on `results` by `runTests`. -/
structure TestRecord where
  test : TestCase
  result : Option ValidationResult
  error : Option String
  passed : Bool
  deriving DecidableEq, Repr

/-- Counters and `results` of `runTests`. -/
structure TestSummary where
  total : Nat
  passed : Nat
  failed : Nat
  skipped : Nat
  results : List TestRecord
  deriving DecidableEq, Repr

/-- Body of the inner loop of `runTests` for one test.  The argument
`validate n url` is the outcome of the call `sslValidator.validateSSL(url)`
made after `n` earlier calls: its result, or the message of what it threw. -/
def runTests.test (validate : Nat → String → Except String ValidationResult)
    (s : TestSummary) (test : TestCase) : TestSummary :=
  let totalTests := s.total + 1
  match validate s.total test.url with
  | .ok result =>
    let foundExpectedError := result.issues.any (fun issue => issue.code == test.expectedCode)
    let isValid := test.expectedCode == "SSL_VALID" && result.overallSeverity == "OK"
    if foundExpectedError || isValid then
      { s with
        total := totalTests
        passed := s.passed + 1
        results := s.results ++ [⟨test, some result, none, foundExpectedError || isValid⟩] }
    else
      { s with
        total := totalTests
        failed := s.failed + 1
        results := s.results ++ [⟨test, some result, none, foundExpectedError || isValid⟩] }
  | .error message =>
    { s with
      total := totalTests
      skipped := s.skipped + 1
      results := s.results ++ [⟨test, none, some message, false⟩] }

/-- Function `runTests` over a table of categories: every category in order,
every test of a category in order. -/
def runTests (validate : Nat → String → Except String ValidationResult)
    (cases : List TestCategory) : TestSummary :=
  cases.foldl (fun s category => category.tests.foldl (runTests.test validate) s)
    ⟨0, 0, 0, 0, []⟩

/-- How the harness counts one test. -/
inductive Verdict where
  | passed
  | failed
  | skipped
  deriving DecidableEq, Repr

/-- Verdict of one test as the specification words it (batch harness, section 4.5): a call
that returns passes when the expected code appears among the codes of the
issues, or the expected code is `SSL_VALID` and the overall severity is `OK`,
and fails otherwise; a call that throws is skipped. -/
def specVerdict (outcome : Except String ValidationResult) (test : TestCase) : Verdict :=
  match outcome with
  | .ok result =>
    if (∃ i ∈ result.issues, i.code = test.expectedCode) ∨
        (test.expectedCode = "SSL_VALID" ∧ result.overallSeverity = "OK") then .passed
    else .failed
  | .error _ => .skipped

/-- The catalog entries the first eight evaluators of `validateSSL` push. -/
def certificateRuleEntries : List Issue :=
  [SSL_ERROR_CODES.CERT_EXPIRED, SSL_ERROR_CODES.CERT_NOT_YET_VALID,
   SSL_ERROR_CODES.CERT_CN_MISMATCH, SSL_ERROR_CODES.CERT_SELF_SIGNED,
   SSL_ERROR_CODES.CERT_UNTRUSTED_ROOT, SSL_ERROR_CODES.CERT_CHAIN_INCOMPLETE,
   SSL_ERROR_CODES.CERT_REVOKED, SSL_ERROR_CODES.WEAK_SIGNATURE_MD5,
   SSL_ERROR_CODES.WEAK_SIGNATURE_SHA1, SSL_ERROR_CODES.WEAK_KEY_SIZE,
   SSL_ERROR_CODES.OLD_TLS_VERSION, SSL_ERROR_CODES.NULL_CIPHER,
   SSL_ERROR_CODES.WEAK_CIPHER_RC4, SSL_ERROR_CODES.WEAK_CIPHER_3DES,
   SSL_ERROR_CODES.WEAK_CIPHER_CBC, SSL_ERROR_CODES.KNOWN_MALWARE_CERT]

/-! ## Sample inputs -/

/-- A parser that accepts two sample URLs and rejects everything else. -/
def sampleParse (url : String) : Except String URLObj :=
  if url = "https://example.com/" then .ok ⟨"example.com", "", "https:"⟩
  else if url = "http://http.badssl.com/" then .ok ⟨"http.badssl.com", "", "http:"⟩
  else .error "Invalid URL"

/-- A certificate snapshot on which no evaluator fires for `example.com`. -/
def sampleCertificate : Certificate :=
  { subject := some [("CN", "example.com")]
    issuer := some [("C", "US"), ("O", "DigiCert Inc"), ("CN", "DigiCert TLS RSA SHA256 2020 CA1")]
    validFrom := some "Jan  1 00:00:00 2026 GMT"
    validTo := some "Jan  1 00:00:00 2027 GMT"
    fingerprint := some "AB:CD:EF:01:23:45:67:89:AB:CD:EF:01:23:45:67:89:AB:CD:EF:01"
    fingerprint256 := none
    serialNumber := some "0A"
    subjectAltNames := ["example.com", "*.example.com"]
    signatureAlgorithm := some "unknown"
    publicKey := some ⟨"RSA", 2048⟩ }

/-- The negotiated parameters of a sound TLS 1.3 connection. -/
def sampleConnection : Connection :=
  { protocol := some "TLSv1.3"
    cipher := some "TLS_AES_256_GCM_SHA384"
    cipherVersion := some "TLSv1.3"
    authorized := true
    authorizationError := none }

/-- Date parser of the samples: the two dates of `sampleCertificate`, in
milliseconds since the epoch; any other text is an invalid date. -/
def sampleParseDate (s : String) : Option Int :=
  if s = "Jan  1 00:00:00 2026 GMT" then some 1767225600000
  else if s = "Jan  1 00:00:00 2027 GMT" then some 1798761600000
  else none

/-- Sample environment: the socket meets the given event, the clock reads the
given time. -/
def sampleEnv (event : SocketEvent) (now : Int) : Env :=
  { parseURL := sampleParse
    socket := fun _ _ => event
    now := now
    timestamp := "2026-06-01T00:00:00.000Z"
    parseDate := sampleParseDate }

/-- Clock reading inside the validity window of `sampleCertificate`
(1 June 2026). -/
def midYear : Int := 1780272000000

/-- Clock reading after the validity window of `sampleCertificate`
(1 June 2027). -/
def nextYear : Int := 1811808000000

/-- A certificate snapshot with every optional field absent. -/
def emptyCertificate : Certificate :=
  { subject := none, issuer := none, validFrom := none, validTo := none,
    fingerprint := none, fingerprint256 := none, serialNumber := none,
    subjectAltNames := [], signatureAlgorithm := none, publicKey := none }

/-- A snapshot that carries only a SAN list. -/
def certWithSAN (sans : List String) : Certificate :=
  { emptyCertificate with subjectAltNames := sans }

/-- A snapshot without SAN entries whose subject has the given CN. -/
def certWithCN (cn : String) : Certificate :=
  { emptyCertificate with subject := some [("CN", cn)] }

/-- A snapshot that carries only a signature algorithm. -/
def certWithSignature (algorithm : String) : Certificate :=
  { emptyCertificate with signatureAlgorithm := some algorithm }

/-- A snapshot that carries only an RSA key of the given size. -/
def certWithBits (bits : Int) : Certificate :=
  { emptyCertificate with publicKey := some ⟨"RSA", bits⟩ }

/-- A snapshot that carries only a fingerprint and an issuer. -/
def certWithIssuer (fingerprint : Option String) (issuer : RDN) : Certificate :=
  { emptyCertificate with fingerprint := fingerprint, issuer := some issuer }

/-- A TLS 1.3 connection the platform verifier rejected with the given error. -/
def connectionRejected (error : Option String) : Connection :=
  { sampleConnection with authorized := false, authorizationError := error }

/-- A connection that negotiated the named cipher. -/
def connectionWithCipher (name : String) : Connection :=
  { sampleConnection with cipher := some name }

/-- The certificate of the Superfish adware. -/
def superfishCertificate : Certificate :=
  certWithIssuer (some "C8:64:48:48:69:D4:1D:2B:0D:32:31:9C:5A:62:F9:31:5A:AF:2C:BD")
    [("C", "US"), ("O", "Superfish, Inc."), ("CN", "Superfish, Inc.")]

/-- A text without control characters (every code is at least 32). -/
def printable (s : String) : Bool := s.data.all (fun c => decide (32 ≤ c.toNat))

/-- A certificate for `www.gov.pl` issued by Certum. -/
def govCertificate : Certificate :=
  { sampleCertificate with
    subject := some [("CN", "www.gov.pl")]
    issuer := some [("C", "PL"), ("O", "Asseco Data Systems S.A."),
      ("CN", "Certum Domain Validation CA SHA2")]
    subjectAltNames := ["www.gov.pl", "gov.pl"] }

/-- A parser that accepts the two government URLs and rejects everything
else. -/
def govParse (url : String) : Except String URLObj :=
  if url = "https://www.gov.pl/" then .ok ⟨"www.gov.pl", "", "https:"⟩
  else if url = "https://gov.pl/" then .ok ⟨"gov.pl", "", "https:"⟩
  else .error "Invalid URL"

/-- Environment in which the government hosts present `govCertificate` inside
its validity window. -/
def govEnv : Env :=
  { parseURL := govParse
    socket := fun _ _ => .secureConnect govCertificate sampleConnection
    now := midYear
    timestamp := "2026-06-01T00:00:00.000Z"
    parseDate := sampleParseDate }

/-- Text of a string as `JSON.stringify` writes it between the quotes: the
double quote, the backslash and the control characters escaped. -/
def jsonEscaped (s : String) : String := ⟨(s.data.map jsonEscapeChar).flatten⟩

/-- A snapshot whose issuer `O` is the control character U+000E followed by
`dellroot`. -/
def controlCharCertificate : Certificate :=
  certWithIssuer none [("O", "\x0edellroot")]

/-- A snapshot whose issuer has an attribute named `superfish`. -/
def namedAttributeCertificate : Certificate :=
  certWithIssuer none [("superfish", "Acme CA")]

/-- Outcomes of the calls of `validateSSL` in a sample run: the third call
throws, every other call returns the result for the sample certificate after
its expiry. -/
def sampleOutcomes (n : Nat) (url : String) : Except String ValidationResult :=
  if n = 2 then .error "socket hang up"
  else .ok (validateSSL (sampleEnv (.secureConnect sampleCertificate sampleConnection) nextYear)
    url)

/-- A sample table of two categories and three tests. -/
def sampleTests : List TestCategory :=
  [⟨"CERTYFIKATY",
     [⟨"https://example.com/", "CERT_EXPIRED", "Wygasły certyfikat"⟩,
      ⟨"https://example.com/", "CERT_REVOKED", "Odwołany certyfikat"⟩]⟩,
   ⟨"PRAWIDŁOWE CERTYFIKATY",
     [⟨"https://example.com/", "SSL_VALID", "Prawidłowy certyfikat"⟩]⟩]

/-! ## Overall severity -/

/-- The loop returns the severity it meets first among those carried by an
issue. -/
theorem loop_first_match (issues : List Issue) (pre : List String) (s : String)
    (post : List String) (hs : ∃ x ∈ issues, x.severity = s)
    (hpre : ∀ t ∈ pre, ∀ x ∈ issues, x.severity ≠ t) :
    calculateOverallSeverity.loop issues (pre ++ s :: post) = s := by
  induction pre with
  | nil =>
    obtain ⟨x, hx, hxs⟩ := hs
    have hany : issues.any (fun issue => issue.severity == s) = true :=
      List.any_eq_true.mpr ⟨x, hx, by simp [hxs]⟩
    simp [calculateOverallSeverity.loop, hany]
  | cons t pre ih =>
    have hnone : issues.any (fun issue => issue.severity == t) = false := by
      rw [Bool.eq_false_iff]
      intro h
      obtain ⟨x, hx, hxt⟩ := List.any_eq_true.mp h
      exact hpre t (List.mem_cons_self _ _) x hx (by simpa using hxt)
    have ih2 := ih (fun u hu => hpre u (List.mem_cons_of_mem _ hu))
    simp [calculateOverallSeverity.loop, hnone, ih2]

/-- The loop falls through to `OK` when no severity of its list is carried by
an issue. -/
theorem loop_no_match (issues : List Issue) (order : List String)
    (h : ∀ t ∈ order, ∀ x ∈ issues, x.severity ≠ t) :
    calculateOverallSeverity.loop issues order = "OK" := by
  induction order with
  | nil => rfl
  | cons t order ih =>
    have hnone : issues.any (fun issue => issue.severity == t) = false := by
      rw [Bool.eq_false_iff]
      intro hany
      obtain ⟨x, hx, hxt⟩ := List.any_eq_true.mp hany
      exact h t (List.mem_cons_self _ _) x hx (by simpa using hxt)
    have ih2 := ih (fun u hu => h u (List.mem_cons_of_mem _ hu))
    simp [calculateOverallSeverity.loop, hnone, ih2]

/-- An issue of severity `CRITICAL` makes the overall severity `CRITICAL`. -/
theorem calculateOverallSeverity_critical (issues : List Issue)
    (h : ∃ x ∈ issues, x.severity = "CRITICAL") :
    calculateOverallSeverity issues = "CRITICAL" :=
  loop_first_match issues [] "CRITICAL" ["HIGH", "MEDIUM", "LOW", "OK"] h
    (fun _ ht => absurd ht (List.not_mem_nil _))

/-- C1: `calculateOverallSeverity` returns `OK` on the empty list; on any list
it returns the first severity of `[CRITICAL, HIGH, MEDIUM, LOW, OK]` carried by
at least one issue (every earlier severity being carried by none), and
`OK` when no severity of that list is carried; a list whose severities are
exactly `MEDIUM` and `LOW` yields `MEDIUM`. -/
theorem calculateOverallSeverity_first_in_order :
    calculateOverallSeverity [] = "OK" ∧
    (∀ (issues : List Issue) (pre : List String) (s : String) (post : List String),
      severityOrder = pre ++ s :: post →
      (∃ x ∈ issues, x.severity = s) →
      (∀ t ∈ pre, ∀ x ∈ issues, x.severity ≠ t) →
      calculateOverallSeverity issues = s) ∧
    (∀ issues : List Issue,
      (∀ t ∈ severityOrder, ∀ x ∈ issues, x.severity ≠ t) →
      calculateOverallSeverity issues = "OK") ∧
    (∀ issues : List Issue,
      (∀ x ∈ issues, x.severity = "MEDIUM" ∨ x.severity = "LOW") →
      (∃ x ∈ issues, x.severity = "MEDIUM") →
      (∃ x ∈ issues, x.severity = "LOW") →
      calculateOverallSeverity issues = "MEDIUM") := by
  refine ⟨rfl, ?_, ?_, ?_⟩
  · intro issues pre s post hsplit hs hpre
    unfold calculateOverallSeverity
    rw [hsplit]
    exact loop_first_match issues pre s post hs hpre
  · intro issues h
    exact loop_no_match issues severityOrder h
  · intro issues hall hmed _
    refine loop_first_match issues ["CRITICAL", "HIGH"] "MEDIUM" ["LOW", "OK"] hmed ?_
    intro t ht x hx
    have hx2 := hall x hx
    simp only [List.mem_cons, List.mem_singleton, List.not_mem_nil, or_false] at ht
    rcases ht with rfl | rfl <;> rcases hx2 with h | h <;> rw [h] <;> decide

/-- Witness of C1: an issue list with the severities `MEDIUM` and `LOW`
(`WEAK_CIPHER_CBC` and a `LOW` issue) has overall severity `MEDIUM`. -/
theorem calculateOverallSeverity_first_in_order_witness :
    calculateOverallSeverity
      [⟨"INFO", "LOW", "", "", ""⟩, SSL_ERROR_CODES.WEAK_CIPHER_CBC] = "MEDIUM" :=
  calculateOverallSeverity_first_in_order.2.2.2
    [⟨"INFO", "LOW", "", "", ""⟩, SSL_ERROR_CODES.WEAK_CIPHER_CBC]
    (by decide) (by decide) (by decide)

/-! ## The paths of `validateSSL` -/

/-- Path of an unparseable URL: the `catch` block on the initial result. -/
theorem validateSSL_of_parse_error (env : Env) (url message : String)
    (h : env.parseURL url = .error message) :
    validateSSL env url = validateSSL.catchBlock (validateSSL.initial env) message := by
  simp [validateSSL, h]

/-- Path of a scheme other than https. -/
theorem validateSSL_of_not_https (env : Env) (url : String) (u : URLObj)
    (h : env.parseURL url = .ok u) (hp : u.protocol ≠ "https:") :
    validateSSL env url =
      { validateSSL.located env u with
        issues := [SSL_ERROR_CODES.NO_ENCRYPTION], overallSeverity := "CRITICAL" } := by
  simp [validateSSL, h, hp, validateSSL.located, validateSSL.initial]

/-- Path of an https URL whose fetch resolves with a truthy `error`. -/
theorem validateSSL_of_fetch_error (env : Env) (url : String) (u : URLObj)
    (certInfo : CertInfo) (e : String)
    (h : env.parseURL url = .ok u) (hp : u.protocol = "https:")
    (hf : getCertificateInfo (env.socket u.hostname (validateSSL.port u)) = .ok certInfo)
    (he : certInfo.error = some e) (hne : e ≠ "") :
    validateSSL env url = validateSSL.connectionFailed (validateSSL.located env u) e := by
  simp [validateSSL, h, hp, hf, he, hne]

/-- Path of an https URL whose fetch delivers a snapshot. -/
theorem validateSSL_of_snapshot (env : Env) (url : String) (u : URLObj)
    (cert : Certificate) (conn : Connection)
    (h : env.parseURL url = .ok u) (hp : u.protocol = "https:")
    (hf : env.socket u.hostname (validateSSL.port u) = .secureConnect cert conn) :
    validateSSL env url =
      validateSSL.inspect env (validateSSL.located env u)
        { error := none, certificate := some cert, connection := some conn } u.hostname := by
  simp [validateSSL, h, hp, hf, getCertificateInfo]

/-- The issues, severity and verdict after the evaluators ran on a snapshot. -/
theorem inspect_of_snapshot (env : Env) (u : URLObj) (certInfo : CertInfo)
    (cert : Certificate) (hc : certInfo.certificate = some cert) :
    let r := validateSSL.inspect env (validateSSL.located env u) certInfo u.hostname
    let out := validateSSL.evaluate env certInfo cert u.hostname
    r.issues = (if out = [] then [SSL_ERROR_CODES.SSL_VALID] else out) ∧
    r.overallSeverity = calculateOverallSeverity out ∧
    r.valid = (calculateOverallSeverity out == "OK" || calculateOverallSeverity out == "LOW") := by
  simp only [validateSSL.inspect, hc, validateSSL.located, validateSSL.initial, List.nil_append]
  by_cases hout : validateSSL.evaluate env certInfo cert u.hostname = []
  · simp [hout]
  · have hlen : (validateSSL.evaluate env certInfo cert u.hostname).length ≠ 0 := by
      intro h0
      exact hout (List.length_eq_zero.mp h0)
    simp [hout, hlen]

/-- Path of an https URL whose fetch rejects: the `catch` block. -/
theorem validateSSL_of_fetch_rejected (env : Env) (url : String) (u : URLObj)
    (message : String)
    (h : env.parseURL url = .ok u) (hp : u.protocol = "https:")
    (hf : getCertificateInfo (env.socket u.hostname (validateSSL.port u)) = .error message) :
    validateSSL env url = validateSSL.catchBlock (validateSSL.located env u) message := by
  simp [validateSSL, h, hp, hf]

/-- Path of an https URL whose fetch resolves with a falsy `error`. -/
theorem validateSSL_of_no_error (env : Env) (url : String) (u : URLObj)
    (certInfo : CertInfo)
    (h : env.parseURL url = .ok u) (hp : u.protocol = "https:")
    (hf : getCertificateInfo (env.socket u.hostname (validateSSL.port u)) = .ok certInfo)
    (he : truthy certInfo.error = false) :
    validateSSL env url =
      validateSSL.inspect env (validateSSL.located env u) certInfo u.hostname := by
  cases hce : certInfo.error with
  | none => simp [validateSSL, h, hp, hf, hce]
  | some e =>
    have he2 : e = "" := by simpa [truthy, hce] using he
    simp [validateSSL, h, hp, hf, hce, he2]

/-- The verdict agrees with the severity after `validateSSL.inspect`. -/
theorem inspect_valid_iff (env : Env) (u : URLObj) (certInfo : CertInfo) :
    (validateSSL.inspect env (validateSSL.located env u) certInfo u.hostname).valid = true ↔
      ((validateSSL.inspect env (validateSSL.located env u) certInfo
          u.hostname).overallSeverity = "OK" ∨
       (validateSSL.inspect env (validateSSL.located env u) certInfo
          u.hostname).overallSeverity = "LOW") := by
  cases hc : certInfo.certificate with
  | none =>
    simp [validateSSL.inspect, hc, validateSSL.catchBlock, validateSSL.located,
      validateSSL.initial]
  | some cert =>
    obtain ⟨_, hsev, hval⟩ := inspect_of_snapshot env u certInfo cert hc
    rw [hsev, hval]
    simp

/-- C2: on every path of `validateSSL` (unparseable URL, scheme other than
https, connection error, rejected fetch, snapshot evaluated) the result has
`valid = true` exactly when `overallSeverity` is `OK` or `LOW`. -/
theorem validateSSL_valid_iff (env : Env) (url : String) :
    (validateSSL env url).valid = true ↔
      ((validateSSL env url).overallSeverity = "OK" ∨
       (validateSSL env url).overallSeverity = "LOW") := by
  cases hparse : env.parseURL url with
  | error message =>
    rw [validateSSL_of_parse_error env url message hparse]
    simp [validateSSL.catchBlock, validateSSL.initial]
  | ok u =>
    by_cases hp : u.protocol = "https:"
    · cases hf : getCertificateInfo (env.socket u.hostname (validateSSL.port u)) with
      | error message =>
        rw [validateSSL_of_fetch_rejected env url u message hparse hp hf]
        simp [validateSSL.catchBlock, validateSSL.located, validateSSL.initial]
      | ok certInfo =>
        cases ht : truthy certInfo.error with
        | false =>
          rw [validateSSL_of_no_error env url u certInfo hparse hp hf ht]
          exact inspect_valid_iff env u certInfo
        | true =>
          cases hce : certInfo.error with
          | none => simp [truthy, hce] at ht
          | some e =>
            have hne : e ≠ "" := by simpa [truthy, hce] using ht
            rw [validateSSL_of_fetch_error env url u certInfo e hparse hp hf hce hne]
            simp [validateSSL.connectionFailed, validateSSL.located, validateSSL.initial]
    · rw [validateSSL_of_not_https env url u hparse hp]
      simp [validateSSL.located, validateSSL.initial]

/-- C3: for a well-formed URL whose scheme is not https, `validateSSL` returns
the single issue `NO_ENCRYPTION` of the catalog, overall severity `CRITICAL`
and `valid = false`; `details` holds host name, port and scheme only (no
certificate, connection or CA field), and the fetch is not invoked: the result
is the same whatever the socket, the clock and the date parser are. -/
theorem validateSSL_no_encryption (env : Env) (url : String) (u : URLObj)
    (h : env.parseURL url = .ok u) (hp : u.protocol ≠ "https:") :
    (validateSSL env url).issues = [SSL_ERROR_CODES.NO_ENCRYPTION] ∧
    SSL_ERROR_CODES.NO_ENCRYPTION.code = "NO_ENCRYPTION" ∧
    (validateSSL env url).overallSeverity = "CRITICAL" ∧
    (validateSSL env url).valid = false ∧
    (validateSSL env url).details =
      ⟨some u.hostname, some (validateSSL.port u), some u.protocol,
        none, none, none, none, none⟩ ∧
    (∀ other : Env, other.parseURL = env.parseURL → other.timestamp = env.timestamp →
      validateSSL other url = validateSSL env url) := by
  have hr := validateSSL_of_not_https env url u h hp
  refine ⟨?_, rfl, ?_, ?_, ?_, ?_⟩
  · rw [hr]
  · rw [hr]
  · rw [hr]; rfl
  · rw [hr]; rfl
  · intro other hparse htime
    rw [hr, validateSSL_of_not_https other url u (by rw [hparse]; exact h) hp]
    simp [validateSSL.located, validateSSL.initial, htime]

/-- Witness of C3: `http://http.badssl.com/` of the test table. -/
theorem validateSSL_no_encryption_witness :
    (validateSSL (sampleEnv .timeout midYear) "http://http.badssl.com/").issues =
      [SSL_ERROR_CODES.NO_ENCRYPTION] :=
  (validateSSL_no_encryption (sampleEnv .timeout midYear) "http://http.badssl.com/"
    ⟨"http.badssl.com", "", "http:"⟩ rfl (by decide)).1

/-- C4: for an https URL whose fetch delivers a snapshot on which each of the
nine evaluators returns no issue, `validateSSL` returns exactly the synthetic
catalog entry `SSL_VALID` (severity `OK`), overall severity `OK` and
`valid = true`. -/
theorem validateSSL_all_clear (env : Env) (url : String) (u : URLObj)
    (cert : Certificate) (conn : Connection)
    (h : env.parseURL url = .ok u) (hp : u.protocol = "https:")
    (hf : env.socket u.hostname (validateSSL.port u) = .secureConnect cert conn)
    (h1 : checkCertificateValidity env cert = [])
    (h2 : checkCertificateIdentity cert u.hostname = [])
    (h3 : checkChainOfTrust ⟨none, some cert, some conn⟩ = [])
    (h4 : checkSignatureAlgorithm cert = [])
    (h5 : checkKeyStrength cert = [])
    (h6 : checkTLSVersion (some conn) = [])
    (h7 : checkCipherSuite (some conn) = [])
    (h8 : checkKnownBadCerts cert = [])
    (h9 : checkGovPlCertificate cert u.hostname = []) :
    (validateSSL env url).issues = [SSL_ERROR_CODES.SSL_VALID] ∧
    SSL_ERROR_CODES.SSL_VALID.code = "SSL_VALID" ∧
    SSL_ERROR_CODES.SSL_VALID.severity = "OK" ∧
    (validateSSL env url).overallSeverity = "OK" ∧
    (validateSSL env url).valid = true := by
  have hout : validateSSL.evaluate env ⟨none, some cert, some conn⟩ cert u.hostname = [] := by
    simp [validateSSL.evaluate, h1, h2, h3, h4, h5, h6, h7, h8, h9]
  obtain ⟨hi, hs, hv⟩ := inspect_of_snapshot env u ⟨none, some cert, some conn⟩ cert rfl
  rw [hout] at hi hs hv
  rw [validateSSL_of_snapshot env url u cert conn h hp hf]
  refine ⟨?_, rfl, rfl, ?_, ?_⟩
  · rw [hi]; rfl
  · rw [hs]; rfl
  · rw [hv]; rfl

/-- Witness of C4: a sound certificate for `example.com` inside its validity
window, over TLS 1.3. -/
theorem validateSSL_all_clear_witness :
    (validateSSL (sampleEnv (.secureConnect sampleCertificate sampleConnection) midYear)
      "https://example.com/").issues = [SSL_ERROR_CODES.SSL_VALID] :=
  (validateSSL_all_clear (sampleEnv (.secureConnect sampleCertificate sampleConnection) midYear)
    "https://example.com/" ⟨"example.com", "", "https:"⟩ sampleCertificate sampleConnection
    rfl (by decide) rfl (by decide) (by decide) (by decide) (by decide) (by decide)
    (by decide) (by decide) (by decide) (by decide)).1

/-- C5: for an https URL whose fetch resolves with the connection error `e`
(the `error` field is a non-empty string, which is what `if (certInfo.error)`
tests), `validateSSL` returns exactly one issue, with code
`SSL_CONNECTION_FAILED`, severity `CRITICAL` and `technicalDesc = e`, overall
severity `CRITICAL` and `valid = false`; no evaluator ran: `details` carries
neither certificate nor connection. -/
theorem validateSSL_connection_error (env : Env) (url : String) (u : URLObj)
    (certInfo : CertInfo) (e : String)
    (h : env.parseURL url = .ok u) (hp : u.protocol = "https:")
    (hf : getCertificateInfo (env.socket u.hostname (validateSSL.port u)) = .ok certInfo)
    (he : certInfo.error = some e) (hne : e ≠ "") :
    (∃ i : Issue, (validateSSL env url).issues = [i] ∧
      i.code = "SSL_CONNECTION_FAILED" ∧ i.severity = "CRITICAL" ∧ i.technicalDesc = e ∧
      i.userMessage = SSL_ERROR_CODES.SSL_CONNECTION_FAILED.userMessage ∧
      i.icon = SSL_ERROR_CODES.SSL_CONNECTION_FAILED.icon) ∧
    (validateSSL env url).overallSeverity = "CRITICAL" ∧
    (validateSSL env url).valid = false ∧
    (validateSSL env url).details.certificate = none ∧
    (validateSSL env url).details.connection = none := by
  rw [validateSSL_of_fetch_error env url u certInfo e h hp hf he hne]
  refine ⟨⟨{ SSL_ERROR_CODES.SSL_CONNECTION_FAILED with technicalDesc := e }, ?_, rfl, rfl, rfl,
    rfl, rfl⟩, rfl, rfl, rfl, rfl⟩
  simp [validateSSL.connectionFailed, validateSSL.located, validateSSL.initial]

/-- Witness of C5: the socket reports `connect ECONNREFUSED 127.0.0.1:443`. -/
theorem validateSSL_connection_error_witness :
    (validateSSL (sampleEnv (.error "connect ECONNREFUSED 127.0.0.1:443") midYear)
      "https://example.com/").overallSeverity = "CRITICAL" :=
  (validateSSL_connection_error
    (sampleEnv (.error "connect ECONNREFUSED 127.0.0.1:443") midYear) "https://example.com/"
    ⟨"example.com", "", "https:"⟩
    ⟨some "connect ECONNREFUSED 127.0.0.1:443", none, none⟩
    "connect ECONNREFUSED 127.0.0.1:443" rfl (by decide) rfl rfl (by decide)).2.1

/-- C6, as the code has it: when the timer of the fetch fires, the promise
resolves with the error `Connection timeout`, and an https request ends with
exactly one issue, of code `SSL_CONNECTION_FAILED` (severity `CRITICAL`) and
`technicalDesc = "Connection timeout"`; no issue has the code
`CONNECTION_TIMEOUT`. -/
theorem validateSSL_timeout (env : Env) (url : String) (u : URLObj)
    (h : env.parseURL url = .ok u) (hp : u.protocol = "https:")
    (hf : env.socket u.hostname (validateSSL.port u) = .timeout) :
    (∃ i : Issue, (validateSSL env url).issues = [i] ∧
      i.code = "SSL_CONNECTION_FAILED" ∧ i.severity = "CRITICAL" ∧
      i.technicalDesc = "Connection timeout") ∧
    (validateSSL env url).overallSeverity = "CRITICAL" ∧
    (validateSSL env url).valid = false ∧
    (∀ i ∈ (validateSSL env url).issues, i.code ≠ "CONNECTION_TIMEOUT") := by
  have hr := validateSSL_of_fetch_error env url u
    ⟨some "Connection timeout", none, none⟩ "Connection timeout" h hp
    (by rw [hf]; rfl) rfl (by decide)
  rw [hr]
  refine ⟨⟨{ SSL_ERROR_CODES.SSL_CONNECTION_FAILED with technicalDesc := "Connection timeout" },
    ?_, rfl, rfl, rfl⟩, rfl, rfl, ?_⟩
  · simp [validateSSL.connectionFailed, validateSSL.located, validateSSL.initial]
  · intro i hi
    have hi2 : i = { SSL_ERROR_CODES.SSL_CONNECTION_FAILED with
        technicalDesc := "Connection timeout" } := by
      simpa [validateSSL.connectionFailed, validateSSL.located, validateSSL.initial] using hi
    rw [hi2]
    decide

/-- Witness of `validateSSL_timeout`: `https://example.com/` with a socket that
never answers. -/
theorem validateSSL_timeout_witness :
    (validateSSL (sampleEnv .timeout midYear) "https://example.com/").overallSeverity =
      "CRITICAL" :=
  (validateSSL_timeout (sampleEnv .timeout midYear) "https://example.com/"
    ⟨"example.com", "", "https:"⟩ rfl (by decide) rfl).2.1

/-- Counterexample to C6 as stated: for `https://example.com/` with a fetch
that times out, the only issue has code `SSL_CONNECTION_FAILED`, and no issue
has code `CONNECTION_TIMEOUT`. -/
theorem validateSSL_timeout_code_counterexample :
    getCertificateInfo .timeout = .ok ⟨some "Connection timeout", none, none⟩ ∧
    ((validateSSL (sampleEnv .timeout midYear) "https://example.com/").issues.map
      (fun i => i.code)) = ["SSL_CONNECTION_FAILED"] ∧
    ¬ (∃ i ∈ (validateSSL (sampleEnv .timeout midYear) "https://example.com/").issues,
        i.code = "CONNECTION_TIMEOUT") := by
  refine ⟨rfl, by decide, by decide⟩

/-- C7: for an input that `new URL` rejects with message `m`, `validateSSL`
still returns a result: exactly one issue, of code `SSL_CONNECTION_FAILED`,
severity `CRITICAL` and `technicalDesc = m`, overall severity `CRITICAL` and
`valid = false`. -/
theorem validateSSL_unparseable (env : Env) (url m : String)
    (h : env.parseURL url = .error m) :
    (∃ i : Issue, (validateSSL env url).issues = [i] ∧
      i.code = "SSL_CONNECTION_FAILED" ∧ i.severity = "CRITICAL" ∧ i.technicalDesc = m ∧
      i.userMessage = SSL_ERROR_CODES.SSL_CONNECTION_FAILED.userMessage ∧
      i.icon = SSL_ERROR_CODES.SSL_CONNECTION_FAILED.icon) ∧
    (validateSSL env url).overallSeverity = "CRITICAL" ∧
    (validateSSL env url).valid = false := by
  rw [validateSSL_of_parse_error env url m h]
  refine ⟨⟨{ SSL_ERROR_CODES.SSL_CONNECTION_FAILED with technicalDesc := m }, ?_, rfl, rfl, rfl,
    rfl, rfl⟩, rfl, rfl⟩
  simp [validateSSL.catchBlock, validateSSL.initial]

/-- Witness of C7: the input `not a url`. -/
theorem validateSSL_unparseable_witness :
    (validateSSL (sampleEnv .timeout midYear) "not a url").valid = false :=
  (validateSSL_unparseable (sampleEnv .timeout midYear) "not a url" "Invalid URL" rfl).2.2

/-- C8: for an https URL whose fetch delivers a snapshot on which the
evaluators produce at least one issue, the issues of `validateSSL` are the
outputs of `checkCertificateValidity`, `checkCertificateIdentity`,
`checkChainOfTrust`, `checkSignatureAlgorithm`, `checkKeyStrength`,
`checkTLSVersion`, `checkCipherSuite`, `checkKnownBadCerts` and
`checkGovPlCertificate`, concatenated in that order. -/
theorem validateSSL_issues_concat (env : Env) (url : String) (u : URLObj)
    (cert : Certificate) (conn : Connection)
    (h : env.parseURL url = .ok u) (hp : u.protocol = "https:")
    (hf : env.socket u.hostname (validateSSL.port u) = .secureConnect cert conn)
    (hsome :
      checkCertificateValidity env cert ++ checkCertificateIdentity cert u.hostname ++
      checkChainOfTrust ⟨none, some cert, some conn⟩ ++ checkSignatureAlgorithm cert ++
      checkKeyStrength cert ++ checkTLSVersion (some conn) ++ checkCipherSuite (some conn) ++
      checkKnownBadCerts cert ++ checkGovPlCertificate cert u.hostname ≠ []) :
    (validateSSL env url).issues =
      checkCertificateValidity env cert ++ checkCertificateIdentity cert u.hostname ++
      checkChainOfTrust ⟨none, some cert, some conn⟩ ++ checkSignatureAlgorithm cert ++
      checkKeyStrength cert ++ checkTLSVersion (some conn) ++ checkCipherSuite (some conn) ++
      checkKnownBadCerts cert ++ checkGovPlCertificate cert u.hostname := by
  obtain ⟨hi, _, _⟩ := inspect_of_snapshot env u ⟨none, some cert, some conn⟩ cert rfl
  rw [validateSSL_of_snapshot env url u cert conn h hp hf, hi]
  have hout : validateSSL.evaluate env ⟨none, some cert, some conn⟩ cert u.hostname ≠ [] := hsome
  rw [if_neg hout]
  rfl

/-- Witness of C8: the sample certificate read a year later, after it expired. -/
theorem validateSSL_issues_concat_witness :
    (validateSSL (sampleEnv (.secureConnect sampleCertificate sampleConnection) nextYear)
      "https://example.com/").issues =
      checkCertificateValidity
          (sampleEnv (.secureConnect sampleCertificate sampleConnection) nextYear)
          sampleCertificate ++
        checkCertificateIdentity sampleCertificate "example.com" ++
        checkChainOfTrust ⟨none, some sampleCertificate, some sampleConnection⟩ ++
        checkSignatureAlgorithm sampleCertificate ++
        checkKeyStrength sampleCertificate ++ checkTLSVersion (some sampleConnection) ++
        checkCipherSuite (some sampleConnection) ++
        checkKnownBadCerts sampleCertificate ++
        checkGovPlCertificate sampleCertificate "example.com" :=
  validateSSL_issues_concat
    (sampleEnv (.secureConnect sampleCertificate sampleConnection) nextYear)
    "https://example.com/" ⟨"example.com", "", "https:"⟩ sampleCertificate sampleConnection
    rfl (by decide) rfl (by decide)

/-- A certificate whose `validTo` parses to a time before the clock makes
`checkCertificateValidity` emit `CERT_EXPIRED`. -/
theorem expired_mem_checkCertificateValidity (env : Env) (cert : Certificate)
    (s : String) (t : Int) (hto : cert.validTo = some s) (hs : s ≠ "")
    (hparse : env.parseDate s = some t) (hlt : t < env.now) :
    SSL_ERROR_CODES.CERT_EXPIRED ∈ checkCertificateValidity env cert := by
  unfold checkCertificateValidity
  simp only [hto, hparse, bne_iff_ne, ne_eq, hs, not_false_eq_true, if_true, gt_iff_lt, hlt,
    List.nil_append]
  split
  · split
    · split
      · split <;> simp
      · simp
    · simp
  · simp

/-- C9: for an https URL whose fetch delivers a snapshot whose `validTo` lies
strictly before the clock, the result of `validateSSL` contains an issue of
code `CERT_EXPIRED`, has overall severity `CRITICAL` and `valid = false`,
whatever the other evaluators emit. -/
theorem validateSSL_expired (env : Env) (url : String) (u : URLObj)
    (cert : Certificate) (conn : Connection) (s : String) (t : Int)
    (h : env.parseURL url = .ok u) (hp : u.protocol = "https:")
    (hf : env.socket u.hostname (validateSSL.port u) = .secureConnect cert conn)
    (hto : cert.validTo = some s) (hs : s ≠ "")
    (hparse : env.parseDate s = some t) (hlt : t < env.now) :
    (∃ i ∈ (validateSSL env url).issues, i.code = "CERT_EXPIRED") ∧
    (validateSSL env url).overallSeverity = "CRITICAL" ∧
    (validateSSL env url).valid = false := by
  have hmem : SSL_ERROR_CODES.CERT_EXPIRED ∈
      validateSSL.evaluate env ⟨none, some cert, some conn⟩ cert u.hostname := by
    unfold validateSSL.evaluate
    simp only [List.mem_append]
    exact Or.inl (Or.inl (Or.inl (Or.inl (Or.inl (Or.inl (Or.inl (Or.inl
      (expired_mem_checkCertificateValidity env cert s t hto hs hparse hlt))))))))
  have hne : validateSSL.evaluate env ⟨none, some cert, some conn⟩ cert u.hostname ≠ [] :=
    List.ne_nil_of_mem hmem
  have hcrit : calculateOverallSeverity
      (validateSSL.evaluate env ⟨none, some cert, some conn⟩ cert u.hostname) = "CRITICAL" :=
    calculateOverallSeverity_critical _ ⟨SSL_ERROR_CODES.CERT_EXPIRED, hmem, rfl⟩
  obtain ⟨hi, hsev, hv⟩ := inspect_of_snapshot env u ⟨none, some cert, some conn⟩ cert rfl
  rw [validateSSL_of_snapshot env url u cert conn h hp hf]
  refine ⟨⟨SSL_ERROR_CODES.CERT_EXPIRED, ?_, rfl⟩, ?_, ?_⟩
  · rw [hi, if_neg hne]; exact hmem
  · rw [hsev, hcrit]
  · rw [hv, hcrit]; rfl

/-- Witness of C9: the sample certificate, valid until 1 January 2027, read on
1 June 2027. -/
theorem validateSSL_expired_witness :
    (validateSSL (sampleEnv (.secureConnect sampleCertificate sampleConnection) nextYear)
      "https://example.com/").valid = false :=
  (validateSSL_expired
    (sampleEnv (.secureConnect sampleCertificate sampleConnection) nextYear)
    "https://example.com/" ⟨"example.com", "", "https:"⟩ sampleCertificate sampleConnection
    "Jan  1 00:00:00 2027 GMT" 1798761600000 rfl (by decide) rfl rfl (by decide) rfl
    (by decide)).2.2

/-- C10: for a snapshot whose `validFrom` and `validTo` are present (non-empty
date strings) and any clock reading, `checkCertificateValidity` emits
`CERT_EXPIRED` exactly when the clock is after the time `validTo` denotes,
emits `CERT_NOT_YET_VALID` exactly when the clock is before the time
`validFrom` denotes, and emits nothing else.  A text that denotes no time (an
invalid date) compares false both ways, as in JavaScript. -/
theorem checkCertificateValidity_window (env : Env) (cert : Certificate)
    (sFrom sTo : String)
    (hfrom : cert.validFrom = some sFrom) (hfromNe : sFrom ≠ "")
    (hto : cert.validTo = some sTo) (htoNe : sTo ≠ "") :
    (SSL_ERROR_CODES.CERT_EXPIRED ∈ checkCertificateValidity env cert ↔
      ∃ validTo, env.parseDate sTo = some validTo ∧ env.now > validTo) ∧
    (SSL_ERROR_CODES.CERT_NOT_YET_VALID ∈ checkCertificateValidity env cert ↔
      ∃ validFrom, env.parseDate sFrom = some validFrom ∧ env.now < validFrom) ∧
    (∀ i ∈ checkCertificateValidity env cert,
      i = SSL_ERROR_CODES.CERT_EXPIRED ∨ i = SSL_ERROR_CODES.CERT_NOT_YET_VALID) := by
  have hdiff : SSL_ERROR_CODES.CERT_EXPIRED ≠ SSL_ERROR_CODES.CERT_NOT_YET_VALID := by decide
  have hdiff2 : SSL_ERROR_CODES.CERT_NOT_YET_VALID ≠ SSL_ERROR_CODES.CERT_EXPIRED := by decide
  unfold checkCertificateValidity
  simp only [hfrom, hto, bne_iff_ne, ne_eq, hfromNe, htoNe, not_false_eq_true, if_true,
    List.nil_append]
  cases hpTo : env.parseDate sTo with
  | none =>
    cases hpFrom : env.parseDate sFrom with
    | none => simp
    | some tf =>
      by_cases h2 : env.now < tf
      · simp [h2, hdiff]
      · simp [h2]
  | some tt =>
    cases hpFrom : env.parseDate sFrom with
    | none =>
      by_cases h1 : env.now > tt
      · simp [h1, hdiff2]
      · simp [h1]
    | some tf =>
      by_cases h1 : env.now > tt <;> by_cases h2 : env.now < tf
      · simp [h1, h2, hdiff, hdiff2]
      · simp [h1, h2, hdiff2]
      · simp [h1, h2, hdiff]
      · simp [h1, h2]

/-- Witness of C10: the sample certificate read on 1 June 2027 is expired and
is not ahead of its validity window. -/
theorem checkCertificateValidity_window_witness :
    SSL_ERROR_CODES.CERT_EXPIRED ∈
      checkCertificateValidity
        (sampleEnv (.secureConnect sampleCertificate sampleConnection) nextYear)
        sampleCertificate :=
  (checkCertificateValidity_window
    (sampleEnv (.secureConnect sampleCertificate sampleConnection) nextYear)
    sampleCertificate "Jan  1 00:00:00 2026 GMT" "Jan  1 00:00:00 2027 GMT"
    rfl (by decide) rfl (by decide)).1.mpr ⟨1798761600000, rfl, by decide⟩

/-! ## Identity match -/

/-- The result of `checkCertificateIdentity` on a one-entry SAN list. -/
theorem checkCertificateIdentity_single_san (cert : Certificate) (san hostname : String)
    (h : cert.subjectAltNames = [san]) :
    checkCertificateIdentity cert hostname =
      if sanMatches hostname san then [] else [SSL_ERROR_CODES.CERT_CN_MISMATCH] := by
  unfold checkCertificateIdentity
  cases hm : sanMatches hostname san <;> simp [h, hm]

/-- The number of pieces of `"*." ++ D` split at dots is one more than that
of `D`. -/
theorem jsSplitLength_wildcard (D : String) :
    jsSplitLength ("*." ++ D) '.' = jsSplitLength D '.' + 1 := by
  have h2 : List.count '.' "*.".data = 1 := by decide
  simp only [jsSplitLength, String.data_append, List.count_append, h2]
  omega

/-- C11: with the SAN list `["*.example.com"]`, `checkCertificateIdentity`
emits nothing for `a.example.com` and emits `CERT_CN_MISMATCH` for
`b.a.example.com` and for `example.com`; in general a wildcard SAN `*.D` is
accepted only for a host name with exactly one more label than `D`. -/
theorem checkCertificateIdentity_wildcard_labels :
    (∀ cert : Certificate, cert.subjectAltNames = ["*.example.com"] →
      checkCertificateIdentity cert "a.example.com" = [] ∧
      checkCertificateIdentity cert "b.a.example.com" = [SSL_ERROR_CODES.CERT_CN_MISMATCH] ∧
      checkCertificateIdentity cert "example.com" = [SSL_ERROR_CODES.CERT_CN_MISMATCH]) ∧
    (∀ (cert : Certificate) (D hostname : String), cert.subjectAltNames = ["*." ++ D] →
      checkCertificateIdentity cert hostname = [] →
      jsSplitLength hostname '.' = jsSplitLength D '.' + 1) := by
  constructor
  · intro cert h
    refine ⟨?_, ?_, ?_⟩
    · rw [checkCertificateIdentity_single_san cert _ _ h]; decide
    · rw [checkCertificateIdentity_single_san cert _ _ h]; decide
    · rw [checkCertificateIdentity_single_san cert _ _ h]; decide
  · intro cert D hostname h hres
    rw [checkCertificateIdentity_single_san cert _ _ h] at hres
    have hm : sanMatches hostname ("*." ++ D) = true := by
      by_contra hne
      simp [hne] at hres
    have hstart : jsStartsWith ("*." ++ D) "*." = true := by
      simp [jsStartsWith, String.data_append]
    simp only [sanMatches, hstart, if_true, Bool.and_eq_true, beq_iff_eq] at hm
    rw [hm.2, jsSplitLength_wildcard]

/-- Witness of C11: the snapshot with SAN list `["*.example.com"]` accepts
`a.example.com`, which has three labels. -/
theorem checkCertificateIdentity_wildcard_labels_witness :
    jsSplitLength "a.example.com" '.' = jsSplitLength "example.com" '.' + 1 :=
  checkCertificateIdentity_wildcard_labels.2 (certWithSAN ["*.example.com"]) "example.com"
    "a.example.com" rfl (by decide)

/-- C12 at the failing input: the wildcard branch compares case-sensitively.
The SAN entry `*.EXAMPLE.COM` is a mismatch for `a.example.com`, and
`*.example.com` is a mismatch for `A.EXAMPLE.COM`, although `*.example.com`
accepts `a.example.com`; the branch of exact names beside it lower-cases both
sides (`EXAMPLE.COM` accepts `example.com`). -/
theorem checkCertificateIdentity_wildcard_case_sensitive :
    checkCertificateIdentity (certWithSAN ["*.EXAMPLE.COM"]) "a.example.com" =
      [SSL_ERROR_CODES.CERT_CN_MISMATCH] ∧
    checkCertificateIdentity (certWithSAN ["*.example.com"]) "A.EXAMPLE.COM" =
      [SSL_ERROR_CODES.CERT_CN_MISMATCH] ∧
    checkCertificateIdentity (certWithSAN ["*.example.com"]) "a.example.com" = [] ∧
    checkCertificateIdentity (certWithSAN ["EXAMPLE.COM"]) "example.com" = [] := by
  refine ⟨by decide, by decide, by decide, by decide⟩

/-- C13 at the failing input: the CN fallback tests the suffix only.  With an
empty SAN list and CN `*.example.com` nothing is emitted for `b.a.example.com`
nor for `example.com`, while the SAN list `["*.example.com"]` gives
`CERT_CN_MISMATCH` for both. -/
theorem checkCertificateIdentity_cn_fallback_suffix_only :
    checkCertificateIdentity (certWithCN "*.example.com") "b.a.example.com" = [] ∧
    checkCertificateIdentity (certWithSAN ["*.example.com"]) "b.a.example.com" =
      [SSL_ERROR_CODES.CERT_CN_MISMATCH] ∧
    checkCertificateIdentity (certWithCN "*.example.com") "example.com" = [] ∧
    checkCertificateIdentity (certWithSAN ["*.example.com"]) "example.com" =
      [SSL_ERROR_CODES.CERT_CN_MISMATCH] := by
  refine ⟨by decide, by decide, by decide, by decide⟩

/-! ## Chain of trust -/

/-- The result of `checkChainOfTrust` on a rejected connection that carries an
error string: the `if` / `else if` chain of the source. -/
theorem checkChainOfTrust_of_error (certInfo : CertInfo) (conn : Connection) (e : String)
    (hc : certInfo.connection = some conn) (ha : conn.authorized = false)
    (he : conn.authorizationError = some e) :
    checkChainOfTrust certInfo =
      if jsIncludes e "SELF_SIGNED" || jsIncludes e "self signed" then
        [SSL_ERROR_CODES.CERT_SELF_SIGNED]
      else if jsIncludes e "UNABLE_TO_GET_ISSUER" || jsIncludes e "UNABLE_TO_VERIFY" then
        [SSL_ERROR_CODES.CERT_UNTRUSTED_ROOT]
      else if jsIncludes e "CERT_CHAIN" then [SSL_ERROR_CODES.CERT_CHAIN_INCOMPLETE]
      else if jsIncludes e "CERT_REVOKED" then [SSL_ERROR_CODES.CERT_REVOKED]
      else [] := by
  simp [checkChainOfTrust, hc, ha, he]

/-- C14, as the code has it: on a connection with `authorized = false` and an
authorization error `e`, `checkChainOfTrust` classifies `e` by case-sensitive
substring, the first match winning: `SELF_SIGNED` or `self signed` gives
`CERT_SELF_SIGNED`; otherwise `UNABLE_TO_GET_ISSUER` or `UNABLE_TO_VERIFY`
gives `CERT_UNTRUSTED_ROOT`; otherwise `CERT_CHAIN` gives
`CERT_CHAIN_INCOMPLETE`; otherwise `CERT_REVOKED` gives `CERT_REVOKED`. -/
theorem checkChainOfTrust_classifies (certInfo : CertInfo) (conn : Connection) (e : String)
    (hc : certInfo.connection = some conn) (ha : conn.authorized = false)
    (he : conn.authorizationError = some e) :
    ((jsIncludes e "SELF_SIGNED" = true ∨ jsIncludes e "self signed" = true) →
      checkChainOfTrust certInfo = [SSL_ERROR_CODES.CERT_SELF_SIGNED]) ∧
    (jsIncludes e "SELF_SIGNED" = false → jsIncludes e "self signed" = false →
      (jsIncludes e "UNABLE_TO_GET_ISSUER" = true ∨ jsIncludes e "UNABLE_TO_VERIFY" = true) →
      checkChainOfTrust certInfo = [SSL_ERROR_CODES.CERT_UNTRUSTED_ROOT]) ∧
    (jsIncludes e "SELF_SIGNED" = false → jsIncludes e "self signed" = false →
      jsIncludes e "UNABLE_TO_GET_ISSUER" = false → jsIncludes e "UNABLE_TO_VERIFY" = false →
      jsIncludes e "CERT_CHAIN" = true →
      checkChainOfTrust certInfo = [SSL_ERROR_CODES.CERT_CHAIN_INCOMPLETE]) ∧
    (jsIncludes e "SELF_SIGNED" = false → jsIncludes e "self signed" = false →
      jsIncludes e "UNABLE_TO_GET_ISSUER" = false → jsIncludes e "UNABLE_TO_VERIFY" = false →
      jsIncludes e "CERT_CHAIN" = false → jsIncludes e "CERT_REVOKED" = true →
      checkChainOfTrust certInfo = [SSL_ERROR_CODES.CERT_REVOKED]) := by
  rw [checkChainOfTrust_of_error certInfo conn e hc ha he]
  refine ⟨?_, ?_, ?_, ?_⟩
  · intro h
    rcases h with h | h <;> simp [h]
  · intro h1 h2 h
    rcases h with h | h <;> simp [h1, h2, h]
  · intro h1 h2 h3 h4 h
    simp [h1, h2, h3, h4, h]
  · intro h1 h2 h3 h4 h5 h
    simp [h1, h2, h3, h4, h5, h]

/-- Witness of `checkChainOfTrust_classifies`: the native error
`DEPTH_ZERO_SELF_SIGNED_CERT` is classified as `CERT_SELF_SIGNED`. -/
theorem checkChainOfTrust_classifies_witness :
    checkChainOfTrust
      ⟨none, none, some (connectionRejected (some "DEPTH_ZERO_SELF_SIGNED_CERT"))⟩ =
      [SSL_ERROR_CODES.CERT_SELF_SIGNED] :=
  (checkChainOfTrust_classifies
    ⟨none, none, some (connectionRejected (some "DEPTH_ZERO_SELF_SIGNED_CERT"))⟩
    (connectionRejected (some "DEPTH_ZERO_SELF_SIGNED_CERT")) "DEPTH_ZERO_SELF_SIGNED_CERT"
    rfl rfl rfl).1 (Or.inl (by decide))

/-- Counterexample to C14 as stated: on a rejected connection the error texts
`unable to get issuer certificate`, `unable to verify the first certificate`,
`cert chain too long` and `certificate revoked` contain the substrings the
claim names, and `checkChainOfTrust` returns no issue for any of them. -/
theorem checkChainOfTrust_lowercase_counterexample :
    (jsIncludes "unable to get issuer certificate" "unable to get issuer" = true ∧
      checkChainOfTrust
        ⟨none, none, some (connectionRejected (some "unable to get issuer certificate"))⟩ =
        []) ∧
    (jsIncludes "unable to verify the first certificate" "unable to verify" = true ∧
      checkChainOfTrust
        ⟨none, none,
          some (connectionRejected (some "unable to verify the first certificate"))⟩ = []) ∧
    (jsIncludes "cert chain too long" "cert chain" = true ∧
      checkChainOfTrust ⟨none, none, some (connectionRejected (some "cert chain too long"))⟩ =
        []) ∧
    (jsIncludes "certificate revoked" "revoked" = true ∧
      checkChainOfTrust ⟨none, none, some (connectionRejected (some "certificate revoked"))⟩ =
        []) := by
  refine ⟨⟨by decide, by decide⟩, ⟨by decide, by decide⟩, ⟨by decide, by decide⟩,
    ⟨by decide, by decide⟩⟩

/-- C15: `checkChainOfTrust` returns no issue when the connection is
authorized, when it is rejected without an authorization error, and when the
error contains none of the substrings the function recognises (`SELF_SIGNED`,
`self signed`, `UNABLE_TO_GET_ISSUER`, `UNABLE_TO_VERIFY`, `CERT_CHAIN`,
`CERT_REVOKED`), as for the native error `CERT_HAS_EXPIRED`; it is total and
never returns more than one issue. -/
theorem checkChainOfTrust_silent :
    (∀ (certInfo : CertInfo) (conn : Connection), certInfo.connection = some conn →
      conn.authorized = true → checkChainOfTrust certInfo = []) ∧
    (∀ (certInfo : CertInfo) (conn : Connection), certInfo.connection = some conn →
      conn.authorized = false → conn.authorizationError = none →
      checkChainOfTrust certInfo = []) ∧
    (∀ (certInfo : CertInfo) (conn : Connection) (e : String),
      certInfo.connection = some conn → conn.authorized = false →
      conn.authorizationError = some e →
      jsIncludes e "SELF_SIGNED" = false → jsIncludes e "self signed" = false →
      jsIncludes e "UNABLE_TO_GET_ISSUER" = false → jsIncludes e "UNABLE_TO_VERIFY" = false →
      jsIncludes e "CERT_CHAIN" = false → jsIncludes e "CERT_REVOKED" = false →
      checkChainOfTrust certInfo = []) ∧
    checkChainOfTrust ⟨none, none, some (connectionRejected (some "CERT_HAS_EXPIRED"))⟩ = [] ∧
    (∀ certInfo : CertInfo, (checkChainOfTrust certInfo).length ≤ 1) := by
  refine ⟨?_, ?_, ?_, by decide, ?_⟩
  · intro certInfo conn hc ha
    simp [checkChainOfTrust, hc, ha]
  · intro certInfo conn hc ha he
    simp [checkChainOfTrust, hc, ha, he]
  · intro certInfo conn e hc ha he h1 h2 h3 h4 h5 h6
    rw [checkChainOfTrust_of_error certInfo conn e hc ha he]
    simp [h1, h2, h3, h4, h5, h6]
  · intro certInfo
    unfold checkChainOfTrust
    split
    · simp
    · split
      · split
        · simp
        · split
          · simp
          · split
            · simp
            · split
              · simp
              · split <;> simp
      · simp

/-- Witness of C15: a rejected connection whose error is `CERT_HAS_EXPIRED`
gives no issue. -/
theorem checkChainOfTrust_silent_witness :
    checkChainOfTrust ⟨none, none, some (connectionRejected (some "CERT_HAS_EXPIRED"))⟩ = [] :=
  checkChainOfTrust_silent.2.2.1
    ⟨none, none, some (connectionRejected (some "CERT_HAS_EXPIRED"))⟩
    (connectionRejected (some "CERT_HAS_EXPIRED")) "CERT_HAS_EXPIRED" rfl rfl rfl
    (by decide) (by decide) (by decide) (by decide) (by decide) (by decide)

/-! ## Signature algorithm, key strength, cipher suite -/

/-- C16, as the code has it: with `s` the lower-cased signature algorithm (the
empty string when it is missing), `checkSignatureAlgorithm` emits
`WEAK_SIGNATURE_MD5` exactly when `s` contains `md5`, and emits
`WEAK_SIGNATURE_SHA1` exactly when `s` contains `sha1`, does not contain
`sha1with` and does not contain `md5`; it emits nothing else, at most one
issue, and none for a missing algorithm. -/
theorem checkSignatureAlgorithm_rules (cert : Certificate) :
    (SSL_ERROR_CODES.WEAK_SIGNATURE_MD5 ∈ checkSignatureAlgorithm cert ↔
      jsIncludes (jsToLowerCase (orDefault cert.signatureAlgorithm "")) "md5" = true) ∧
    (SSL_ERROR_CODES.WEAK_SIGNATURE_SHA1 ∈ checkSignatureAlgorithm cert ↔
      (jsIncludes (jsToLowerCase (orDefault cert.signatureAlgorithm "")) "sha1" = true ∧
       jsIncludes (jsToLowerCase (orDefault cert.signatureAlgorithm "")) "sha1with" = false ∧
       jsIncludes (jsToLowerCase (orDefault cert.signatureAlgorithm "")) "md5" = false)) ∧
    (∀ i ∈ checkSignatureAlgorithm cert,
      i = SSL_ERROR_CODES.WEAK_SIGNATURE_MD5 ∨ i = SSL_ERROR_CODES.WEAK_SIGNATURE_SHA1) ∧
    (checkSignatureAlgorithm cert).length ≤ 1 ∧
    checkSignatureAlgorithm { cert with signatureAlgorithm := none } = [] := by
  have hdiff : SSL_ERROR_CODES.WEAK_SIGNATURE_MD5 ≠ SSL_ERROR_CODES.WEAK_SIGNATURE_SHA1 := by
    decide
  have hdiff2 : SSL_ERROR_CODES.WEAK_SIGNATURE_SHA1 ≠ SSL_ERROR_CODES.WEAK_SIGNATURE_MD5 := by
    decide
  have hempty : jsIncludes (jsToLowerCase "") "md5" = false ∧
      jsIncludes (jsToLowerCase "") "sha1" = false := by decide
  have hnone : checkSignatureAlgorithm { cert with signatureAlgorithm := none } = [] := by
    simp [checkSignatureAlgorithm, orDefault, hempty.1, hempty.2]
  refine ⟨?_, ?_, ?_, ?_, hnone⟩ <;>
  · unfold checkSignatureAlgorithm
    simp only []
    cases h1 : jsIncludes (jsToLowerCase (orDefault cert.signatureAlgorithm "")) "md5" <;>
    cases h2 : jsIncludes (jsToLowerCase (orDefault cert.signatureAlgorithm "")) "sha1" <;>
    cases h3 : jsIncludes (jsToLowerCase (orDefault cert.signatureAlgorithm "")) "sha1with" <;>
    simp [hdiff, hdiff2]

/-- Counterexample to C16 as stated: the lower-cased algorithm name `MD5-SHA1`
contains `sha1` and does not contain `sha1with`, yet `WEAK_SIGNATURE_SHA1` is
not emitted: the only issue is `WEAK_SIGNATURE_MD5`. -/
theorem checkSignatureAlgorithm_md5_sha1_counterexample :
    jsIncludes (jsToLowerCase "MD5-SHA1") "sha1" = true ∧
    jsIncludes (jsToLowerCase "MD5-SHA1") "sha1with" = false ∧
    checkSignatureAlgorithm (certWithSignature "MD5-SHA1") =
      [SSL_ERROR_CODES.WEAK_SIGNATURE_MD5] ∧
    SSL_ERROR_CODES.WEAK_SIGNATURE_SHA1 ∉ checkSignatureAlgorithm (certWithSignature "MD5-SHA1") := by
  refine ⟨by decide, by decide, by decide, by decide⟩

/-- C17: for a snapshot whose `publicKey.bits` is the bit count `b`,
`checkKeyStrength` emits `WEAK_KEY_SIZE` exactly when `0 < b < 2048` and emits
nothing else; `b = 0` and `b = 2048` give no issue.  The estimate
`estimateKeyBits` that fills `bits` is never negative and is 0 for a missing
modulus. -/
theorem checkKeyStrength_iff (cert : Certificate) (pk : PublicKey) (b : Nat)
    (hk : cert.publicKey = some pk) (hb : pk.bits = (b : Int)) :
    (SSL_ERROR_CODES.WEAK_KEY_SIZE ∈ checkKeyStrength cert ↔ 0 < b ∧ b < 2048) ∧
    (checkKeyStrength cert =
      if 0 < b ∧ b < 2048 then [SSL_ERROR_CODES.WEAK_KEY_SIZE] else []) ∧
    checkKeyStrength (certWithBits 0) = [] ∧
    checkKeyStrength (certWithBits 2048) = [] ∧
    checkKeyStrength (certWithBits 2047) = [SSL_ERROR_CODES.WEAK_KEY_SIZE] ∧
    (∀ modulus : Option String, 0 ≤ estimateKeyBits modulus) ∧
    estimateKeyBits none = 0 := by
  have hres : checkKeyStrength cert =
      if 0 < b ∧ b < 2048 then [SSL_ERROR_CODES.WEAK_KEY_SIZE] else [] := by
    unfold checkKeyStrength
    simp only [hk, hb, MIN_KEY_SIZE]
    by_cases h0 : b = 0
    · subst h0
      simp
    · by_cases h1 : b < 2048
      · have h2 : ((b : Int) < 2048) := by exact_mod_cast h1
        have h3 : (b : Int) ≠ 0 := by exact_mod_cast h0
        have h4 : 0 < b := Nat.pos_of_ne_zero h0
        simp [h2, h3, h4, h1]
      · have h2 : ¬ ((b : Int) < 2048) := by
          intro h; exact h1 (by exact_mod_cast h)
        simp [h2, h1]
  refine ⟨?_, hres, by decide, by decide, by decide, ?_, rfl⟩
  · rw [hres]
    by_cases h : 0 < b ∧ b < 2048 <;> simp [h]
  · intro modulus
    unfold estimateKeyBits
    split
    · exact le_refl _
    · split
      · exact Int.mul_nonneg (Int.ofNat_nonneg _) (by decide)
      · exact le_refl _

/-- Witness of C17: a 1024-bit key is reported. -/
theorem checkKeyStrength_iff_witness :
    SSL_ERROR_CODES.WEAK_KEY_SIZE ∈ checkKeyStrength (certWithBits 1024) :=
  (checkKeyStrength_iff (certWithBits 1024) ⟨"RSA", 1024⟩ 1024 rfl rfl).1.mpr
    ⟨by decide, by decide⟩

/-- The result of `checkCipherSuite` on a connection with a non-empty cipher
name: the `if` / `else if` chain on the upper-cased name. -/
theorem checkCipherSuite_of_name (conn : Connection) (name : String)
    (hc : conn.cipher = some name) (hne : name ≠ "") :
    checkCipherSuite (some conn) =
      if jsIncludes (jsToUpperCase name) "NULL" then [SSL_ERROR_CODES.NULL_CIPHER]
      else if jsIncludes (jsToUpperCase name) "RC4" then [SSL_ERROR_CODES.WEAK_CIPHER_RC4]
      else if jsIncludes (jsToUpperCase name) "3DES" ||
          jsIncludes (jsToUpperCase name) "DES-CBC3" then [SSL_ERROR_CODES.WEAK_CIPHER_3DES]
      else if jsIncludes (jsToUpperCase name) "-CBC-" ||
          jsIncludes (jsToUpperCase name) "_CBC_" then [SSL_ERROR_CODES.WEAK_CIPHER_CBC]
      else [] := by
  simp [checkCipherSuite, hc, hne]

/-- C18, as the code has it: for a connection with a cipher name, with `c` the
upper-cased name, `checkCipherSuite` emits `NULL_CIPHER` exactly when `c`
contains `NULL`; `WEAK_CIPHER_RC4` exactly when `c` contains `RC4` and not
`NULL`; `WEAK_CIPHER_3DES` exactly when `c` contains `3DES` or `DES-CBC3` and
neither `NULL` nor `RC4`; `WEAK_CIPHER_CBC` exactly when `c` contains `-CBC-`
or `_CBC_` and none of `NULL`, `RC4`, `3DES`, `DES-CBC3`. -/
theorem checkCipherSuite_rules (conn : Connection) (name : String)
    (hc : conn.cipher = some name) (hne : name ≠ "") :
    (SSL_ERROR_CODES.NULL_CIPHER ∈ checkCipherSuite (some conn) ↔
      jsIncludes (jsToUpperCase name) "NULL" = true) ∧
    (SSL_ERROR_CODES.WEAK_CIPHER_RC4 ∈ checkCipherSuite (some conn) ↔
      (jsIncludes (jsToUpperCase name) "RC4" = true ∧
       jsIncludes (jsToUpperCase name) "NULL" = false)) ∧
    (SSL_ERROR_CODES.WEAK_CIPHER_3DES ∈ checkCipherSuite (some conn) ↔
      ((jsIncludes (jsToUpperCase name) "3DES" = true ∨
        jsIncludes (jsToUpperCase name) "DES-CBC3" = true) ∧
       jsIncludes (jsToUpperCase name) "NULL" = false ∧
       jsIncludes (jsToUpperCase name) "RC4" = false)) ∧
    (SSL_ERROR_CODES.WEAK_CIPHER_CBC ∈ checkCipherSuite (some conn) ↔
      ((jsIncludes (jsToUpperCase name) "-CBC-" = true ∨
        jsIncludes (jsToUpperCase name) "_CBC_" = true) ∧
       jsIncludes (jsToUpperCase name) "NULL" = false ∧
       jsIncludes (jsToUpperCase name) "RC4" = false ∧
       jsIncludes (jsToUpperCase name) "3DES" = false ∧
       jsIncludes (jsToUpperCase name) "DES-CBC3" = false)) := by
  have d12 : SSL_ERROR_CODES.NULL_CIPHER ≠ SSL_ERROR_CODES.WEAK_CIPHER_RC4 := by decide
  have d13 : SSL_ERROR_CODES.NULL_CIPHER ≠ SSL_ERROR_CODES.WEAK_CIPHER_3DES := by decide
  have d14 : SSL_ERROR_CODES.NULL_CIPHER ≠ SSL_ERROR_CODES.WEAK_CIPHER_CBC := by decide
  have d21 : SSL_ERROR_CODES.WEAK_CIPHER_RC4 ≠ SSL_ERROR_CODES.NULL_CIPHER := by decide
  have d23 : SSL_ERROR_CODES.WEAK_CIPHER_RC4 ≠ SSL_ERROR_CODES.WEAK_CIPHER_3DES := by decide
  have d24 : SSL_ERROR_CODES.WEAK_CIPHER_RC4 ≠ SSL_ERROR_CODES.WEAK_CIPHER_CBC := by decide
  have d31 : SSL_ERROR_CODES.WEAK_CIPHER_3DES ≠ SSL_ERROR_CODES.NULL_CIPHER := by decide
  have d32 : SSL_ERROR_CODES.WEAK_CIPHER_3DES ≠ SSL_ERROR_CODES.WEAK_CIPHER_RC4 := by decide
  have d34 : SSL_ERROR_CODES.WEAK_CIPHER_3DES ≠ SSL_ERROR_CODES.WEAK_CIPHER_CBC := by decide
  have d41 : SSL_ERROR_CODES.WEAK_CIPHER_CBC ≠ SSL_ERROR_CODES.NULL_CIPHER := by decide
  have d42 : SSL_ERROR_CODES.WEAK_CIPHER_CBC ≠ SSL_ERROR_CODES.WEAK_CIPHER_RC4 := by decide
  have d43 : SSL_ERROR_CODES.WEAK_CIPHER_CBC ≠ SSL_ERROR_CODES.WEAK_CIPHER_3DES := by decide
  rw [checkCipherSuite_of_name conn name hc hne]
  cases h1 : jsIncludes (jsToUpperCase name) "NULL" <;>
  cases h2 : jsIncludes (jsToUpperCase name) "RC4" <;>
  cases h3 : jsIncludes (jsToUpperCase name) "3DES" <;>
  cases h4 : jsIncludes (jsToUpperCase name) "DES-CBC3" <;>
  cases h5 : jsIncludes (jsToUpperCase name) "-CBC-" <;>
  cases h6 : jsIncludes (jsToUpperCase name) "_CBC_" <;>
  simp [d12, d13, d14, d21, d23, d24, d31, d32, d34, d41, d42, d43]

/-- Witness of `checkCipherSuite_rules`: the cipher `RC4-MD5` is reported as
`WEAK_CIPHER_RC4`. -/
theorem checkCipherSuite_rules_witness :
    SSL_ERROR_CODES.WEAK_CIPHER_RC4 ∈ checkCipherSuite (some (connectionWithCipher "RC4-MD5")) :=
  (checkCipherSuite_rules (connectionWithCipher "RC4-MD5") "RC4-MD5" rfl (by decide)).2.1.mpr
    ⟨by decide, by decide⟩

/-- Counterexample to C18 as stated: the name `TLS_RSA_WITH_3DES_EDE_CBC_SHA`
contains `_CBC_` and `WEAK_CIPHER_CBC` is not emitted (the only issue is
`WEAK_CIPHER_3DES`); the name `rc4-md5` does not contain `RC4` and
`WEAK_CIPHER_RC4` is emitted. -/
theorem checkCipherSuite_exactly_counterexample :
    (jsIncludes "TLS_RSA_WITH_3DES_EDE_CBC_SHA" "_CBC_" = true ∧
      checkCipherSuite (some (connectionWithCipher "TLS_RSA_WITH_3DES_EDE_CBC_SHA")) =
        [SSL_ERROR_CODES.WEAK_CIPHER_3DES] ∧
      SSL_ERROR_CODES.WEAK_CIPHER_CBC ∉
        checkCipherSuite (some (connectionWithCipher "TLS_RSA_WITH_3DES_EDE_CBC_SHA"))) ∧
    (jsIncludes "rc4-md5" "RC4" = false ∧
      SSL_ERROR_CODES.WEAK_CIPHER_RC4 ∈
        checkCipherSuite (some (connectionWithCipher "rc4-md5"))) := by
  refine ⟨⟨by decide, by decide, by decide⟩, ⟨by decide, by decide⟩⟩

/-! ## Government CA allowlist -/

/-- The expression `x || ''` returns a defined string unchanged. -/
theorem orDefault_some_empty (o : String) : orDefault (some o) "" = o := by
  unfold orDefault
  by_cases h : o = ""
  · simp [h]
  · simp [h]

/-- An issuer whose `O` contains `Certum` is a trusted government CA. -/
theorem isFromTrustedGovCA_of_certum (cert : Certificate) (issuer : RDN) (o : String)
    (hi : cert.issuer = some issuer) (ho : issuer.get "O" = some o)
    (hc : jsIncludes o "Certum" = true) :
    isFromTrustedGovCA (some cert) = true := by
  have hany : TRUSTED_GOV_CERTIFICATE_AUTHORITIES.any (fun trustedCA =>
      jsIncludes (orDefault (issuer.get "CN") "") trustedCA ||
      jsIncludes (orDefault (issuer.get "O") "") trustedCA ||
      jsIncludes (orDefault (issuer.get "OU") "") trustedCA) = true := by
    rw [List.any_eq_true]
    refine ⟨"Certum", by decide, ?_⟩
    simp [ho, orDefault_some_empty, hc]
  simp only [isFromTrustedGovCA, hi, hany, if_true]

/-- C20: `checkGovPlCertificate` returns exactly one issue when the host name
ends with `.gov.pl`: `GOV_CERT_VALID` (severity `OK`) if `isFromTrustedGovCA`
holds of the snapshot, otherwise `GOV_UNTRUSTED_CA` (severity `CRITICAL`); it
returns no issue when the host name does not end with `.gov.pl`.  So
`x.gov.pl` with an issuer `O` containing `Certum` gives only `GOV_CERT_VALID`,
`x.gov.pl` with issuer `O = "Acme CA"` gives only `GOV_UNTRUSTED_CA`, and
`x.example.com` gives neither. -/
theorem checkGovPlCertificate_rules :
    (∀ (cert : Certificate) (hostname : String), jsEndsWith hostname ".gov.pl" = true →
      isFromTrustedGovCA (some cert) = true →
      ∃ i : Issue, checkGovPlCertificate cert hostname = [i] ∧
        i.code = "GOV_CERT_VALID" ∧ i.severity = "OK" ∧
        i.userMessage = SSL_ERROR_CODES.GOV_CERT_VALID.userMessage ∧
        i.icon = SSL_ERROR_CODES.GOV_CERT_VALID.icon) ∧
    (∀ (cert : Certificate) (hostname : String), jsEndsWith hostname ".gov.pl" = true →
      isFromTrustedGovCA (some cert) = false →
      ∃ i : Issue, checkGovPlCertificate cert hostname = [i] ∧
        i.code = "GOV_UNTRUSTED_CA" ∧ i.severity = "CRITICAL" ∧
        i.userMessage = SSL_ERROR_CODES.GOV_UNTRUSTED_CA.userMessage ∧
        i.icon = SSL_ERROR_CODES.GOV_UNTRUSTED_CA.icon) ∧
    (∀ (cert : Certificate) (hostname : String), jsEndsWith hostname ".gov.pl" = false →
      checkGovPlCertificate cert hostname = []) ∧
    (∀ (cert : Certificate) (issuer : RDN) (o : String), cert.issuer = some issuer →
      issuer.get "O" = some o → jsIncludes o "Certum" = true →
      ∃ i : Issue, checkGovPlCertificate cert "x.gov.pl" = [i] ∧ i.code = "GOV_CERT_VALID") ∧
    (∃ i : Issue, checkGovPlCertificate (certWithIssuer none [("O", "Acme CA")]) "x.gov.pl" = [i] ∧
      i.code = "GOV_UNTRUSTED_CA") ∧
    (∀ cert : Certificate, checkGovPlCertificate cert "x.example.com" = []) := by
  have hgov : jsEndsWith "x.gov.pl" ".gov.pl" = true := by decide
  have hother : jsEndsWith "x.example.com" ".gov.pl" = false := by decide
  have hvalid : ∀ (cert : Certificate) (hostname : String),
      jsEndsWith hostname ".gov.pl" = true → isFromTrustedGovCA (some cert) = true →
      ∃ i : Issue, checkGovPlCertificate cert hostname = [i] ∧
        i.code = "GOV_CERT_VALID" ∧ i.severity = "OK" ∧
        i.userMessage = SSL_ERROR_CODES.GOV_CERT_VALID.userMessage ∧
        i.icon = SSL_ERROR_CODES.GOV_CERT_VALID.icon := by
    intro cert hostname hs ht
    refine ⟨{ SSL_ERROR_CODES.GOV_CERT_VALID with
      technicalDesc := "Certyfikat wydany przez: " ++ issuerDisplay cert "Zaufany CA" },
      ?_, rfl, rfl, rfl, rfl⟩
    simp [checkGovPlCertificate, hs, ht]
  refine ⟨hvalid, ?_, ?_, ?_, ?_, ?_⟩
  · intro cert hostname hs ht
    refine ⟨{ SSL_ERROR_CODES.GOV_UNTRUSTED_CA with
      technicalDesc := "Certyfikat wydany przez niezaufanego CA: " ++
        issuerDisplay cert "Nieznany" }, ?_, rfl, rfl, rfl, rfl⟩
    simp [checkGovPlCertificate, hs, ht]
  · intro cert hostname hs
    simp [checkGovPlCertificate, hs]
  · intro cert issuer o hi ho hc
    obtain ⟨i, h1, h2, _⟩ := hvalid cert "x.gov.pl" hgov
      (isFromTrustedGovCA_of_certum cert issuer o hi ho hc)
    exact ⟨i, h1, h2⟩
  · exact ⟨{ SSL_ERROR_CODES.GOV_UNTRUSTED_CA with
      technicalDesc := "Certyfikat wydany przez niezaufanego CA: Acme CA" },
      by decide, rfl⟩
  · intro cert
    simp [checkGovPlCertificate, hother]

/-- Witness of C20: `x.gov.pl` with issuer `O = "Certum Trusted Network CA"`. -/
theorem checkGovPlCertificate_rules_witness :
    ∃ i : Issue,
      checkGovPlCertificate (certWithIssuer none [("O", "Certum Trusted Network CA")])
        "x.gov.pl" = [i] ∧ i.code = "GOV_CERT_VALID" :=
  checkGovPlCertificate_rules.2.2.2.1
    (certWithIssuer none [("O", "Certum Trusted Network CA")])
    [("O", "Certum Trusted Network CA")] "Certum Trusted Network CA" rfl (by decide)
    (by decide)

/-! ## Known-bad certificates -/

/-- The empty needle occurs in every text. -/
theorem includesAux_nil (s : List Char) : includesAux [] s = true := by
  cases s <;> simp [includesAux]

/-- A non-empty needle does not occur in the empty text. -/
theorem includesAux_cons_nil (a : Char) (w : List Char) : includesAux (a :: w) [] = false := by
  simp [includesAux]

/-- A needle that starts a text followed by a character foreign to the needle
starts the text alone. -/
theorem isPrefixOf_append_sep (c : Char) (C : List Char) :
    ∀ (w A : List Char), c ∉ w → w.isPrefixOf (A ++ c :: C) = w.isPrefixOf A := by
  intro w
  induction w with
  | nil => intro A _; cases A <;> simp [List.isPrefixOf]
  | cons a w ih =>
    intro A hc
    have hac : a ≠ c := fun h => hc (by simp [h])
    have hcw : c ∉ w := fun h => hc (List.mem_cons_of_mem _ h)
    cases A with
    | nil => simp [List.isPrefixOf, hac]
    | cons x A => simp [List.isPrefixOf, ih A hcw]

/-- A character foreign to the needle separates the text: the needle occurs in
`A ++ c :: C` exactly when it occurs in `A` or in `C`. -/
theorem includesAux_append_sep (w : List Char) (c : Char) (C : List Char) (hc : c ∉ w) :
    ∀ A : List Char, includesAux w (A ++ c :: C) = (includesAux w A || includesAux w C) := by
  intro A
  induction A with
  | nil =>
    cases w with
    | nil => simp [includesAux_nil]
    | cons a w =>
      have hac : a ≠ c := fun h => hc (by simp [h])
      simp [includesAux, List.isPrefixOf, hac]
  | cons x A ih =>
    have hp := isPrefixOf_append_sep c C w (x :: A) hc
    simp only [List.cons_append] at hp ⊢
    simp only [includesAux, hp, ih, Bool.or_assoc]

/-- Escaping of a character that is not a control character: only the double
quote and the backslash change. -/
theorem jsonEscapeChar_of_printable (c : Char) (h : 32 ≤ c.toNat) :
    jsonEscapeChar c =
      if c = Char.ofNat 34 then [Char.ofNat 92, Char.ofNat 34]
      else if c = Char.ofNat 92 then [Char.ofNat 92, Char.ofNat 92]
      else [c] := by
  have h8 : c ≠ Char.ofNat 8 := by rintro rfl; revert h; decide
  have h12 : c ≠ Char.ofNat 12 := by rintro rfl; revert h; decide
  have h10 : c ≠ Char.ofNat 10 := by rintro rfl; revert h; decide
  have h13 : c ≠ Char.ofNat 13 := by rintro rfl; revert h; decide
  have h9 : c ≠ Char.ofNat 9 := by rintro rfl; revert h; decide
  have hlt : ¬ c.toNat < 32 := by omega
  simp [jsonEscapeChar, h8, h12, h10, h13, h9, hlt]

/-- Lower-cased escaping of a text, one character at a time. -/
theorem lowerEscaped_cons (c : Char) (s : List Char) :
    ((c :: s).map jsonEscapeChar).flatten.map Char.toLower =
      (jsonEscapeChar c).map Char.toLower ++ (s.map jsonEscapeChar).flatten.map Char.toLower := by
  rw [List.map_cons, List.flatten_cons, List.map_append]

/-- Escaping does not change whether a needle free of quotes and backslashes
starts a lower-cased text without control characters. -/
theorem isPrefixOf_escaped (s : List Char) (hs : ∀ c ∈ s, 32 ≤ c.toNat) :
    ∀ w : List Char, Char.ofNat 34 ∉ w → Char.ofNat 92 ∉ w →
      w.isPrefixOf ((s.map jsonEscapeChar).flatten.map Char.toLower) =
        w.isPrefixOf (s.map Char.toLower) := by
  induction s with
  | nil => intro w _ _; rfl
  | cons c s ih =>
    intro w hq hb
    have hc : 32 ≤ c.toNat := hs c (List.mem_cons_self _ _)
    have hs2 : ∀ d ∈ s, 32 ≤ d.toNat := fun d hd => hs d (List.mem_cons_of_mem _ hd)
    cases w with
    | nil => simp [List.isPrefixOf]
    | cons a w =>
      have haq : (a == Char.ofNat 34) = false := by
        rw [beq_eq_false_iff_ne]; exact fun h => hq (by simp [h])
      have hab : (a == Char.ofNat 92) = false := by
        rw [beq_eq_false_iff_ne]; exact fun h => hb (by simp [h])
      have hq2 : Char.ofNat 34 ∉ w := fun h => hq (List.mem_cons_of_mem _ h)
      have hb2 : Char.ofNat 92 ∉ w := fun h => hb (List.mem_cons_of_mem _ h)
      have lq : Char.toLower (Char.ofNat 34) = Char.ofNat 34 := by decide
      have lb : Char.toLower (Char.ofNat 92) = Char.ofNat 92 := by decide
      have ihw := ih hs2 w hq2 hb2
      rw [lowerEscaped_cons, jsonEscapeChar_of_printable c hc, List.map_cons]
      generalize (s.map jsonEscapeChar).flatten.map Char.toLower = R at ihw ⊢
      generalize s.map Char.toLower = T at ihw ⊢
      by_cases h1 : c = Char.ofNat 34
      · subst h1
        simp only [if_true, List.map_cons, List.map_nil, lq, lb, List.cons_append,
          List.isPrefixOf, haq, hab, Bool.false_and]
      · by_cases h2 : c = Char.ofNat 92
        · subst h2
          simp only [h1, if_false, if_true, List.map_cons, List.map_nil, lb, List.cons_append,
            List.isPrefixOf, hab, Bool.false_and]
        · simp only [h1, h2, if_false, List.map_cons, List.map_nil, List.cons_append,
            List.nil_append, List.isPrefixOf, ihw]

/-- Escaping does not change whether a non-empty needle free of quotes and
backslashes occurs in a lower-cased text without control characters. -/
theorem includesAux_escaped (a : Char) (w : List Char)
    (hq : Char.ofNat 34 ∉ a :: w) (hb : Char.ofNat 92 ∉ a :: w) :
    ∀ s : List Char, (∀ c ∈ s, 32 ≤ c.toNat) →
      includesAux (a :: w) ((s.map jsonEscapeChar).flatten.map Char.toLower) =
        includesAux (a :: w) (s.map Char.toLower) := by
  intro s
  induction s with
  | nil => intro _; rfl
  | cons c s ih =>
    intro hs
    have hc : 32 ≤ c.toNat := hs c (List.mem_cons_self _ _)
    have hs2 : ∀ d ∈ s, 32 ≤ d.toNat := fun d hd => hs d (List.mem_cons_of_mem _ hd)
    have haq : (a == Char.ofNat 34) = false := by
      rw [beq_eq_false_iff_ne]; exact fun h => hq (by simp [h])
    have hab : (a == Char.ofNat 92) = false := by
      rw [beq_eq_false_iff_ne]; exact fun h => hb (by simp [h])
    have lq : Char.toLower (Char.ofNat 34) = Char.ofNat 34 := by decide
    have lb : Char.toLower (Char.ofNat 92) = Char.ofNat 92 := by decide
    have hq2 : Char.ofNat 34 ∉ w := fun h => hq (List.mem_cons_of_mem _ h)
    have hb2 : Char.ofNat 92 ∉ w := fun h => hb (List.mem_cons_of_mem _ h)
    have hpw := isPrefixOf_escaped s hs2 w hq2 hb2
    have ihs := ih hs2
    rw [lowerEscaped_cons, jsonEscapeChar_of_printable c hc, List.map_cons]
    generalize (s.map jsonEscapeChar).flatten.map Char.toLower = R at ihs hpw ⊢
    generalize s.map Char.toLower = T at ihs hpw ⊢
    by_cases h1 : c = Char.ofNat 34
    · subst h1
      simp only [if_true, List.map_cons, List.map_nil, lq, lb, List.cons_append,
        List.nil_append, includesAux, List.isPrefixOf, haq, hab, Bool.false_and,
        Bool.false_or]
      exact ihs
    · by_cases h2 : c = Char.ofNat 92
      · subst h2
        simp only [h1, if_false, if_true, List.map_cons, List.map_nil, lb, List.cons_append,
          List.nil_append, includesAux, List.isPrefixOf, hab, Bool.false_and, Bool.false_or]
        exact ihs
      · simp only [h1, h2, if_false, List.map_cons, List.map_nil, List.cons_append,
          List.nil_append, includesAux, List.isPrefixOf, hpw, ihs]

/-- A non-empty needle without a double quote occurs in the lower-cased JSON
literal of a text exactly when it occurs between the quotes. -/
theorem includesAux_jsonString (a : Char) (w : List Char) (hq : Char.ofNat 34 ∉ a :: w)
    (s : String) :
    includesAux (a :: w) ((jsonString s).map Char.toLower) =
      includesAux (a :: w) ((s.data.map jsonEscapeChar).flatten.map Char.toLower) := by
  have lq : Char.toLower (Char.ofNat 34) = Char.ofNat 34 := by decide
  have hshape : (jsonString s).map Char.toLower =
      [] ++ Char.ofNat 34 ::
        ((s.data.map jsonEscapeChar).flatten.map Char.toLower ++ Char.ofNat 34 :: []) := by
    simp only [jsonString, List.map_append, List.map_cons, List.map_nil, lq, List.nil_append,
      List.cons_append, List.singleton_append]
  rw [hshape, includesAux_append_sep _ _ _ hq, includesAux_append_sep _ _ _ hq]
  simp [includesAux]

/-- A non-empty needle free of quotes, colons and commas occurs in the
lower-cased member list of an object exactly when it occurs in the escaped
text of one of its names or values. -/
theorem includesAux_jsonMembers (a : Char) (w : List Char) (hq : Char.ofNat 34 ∉ a :: w)
    (hcolon : ':' ∉ a :: w) (hcomma : ',' ∉ a :: w) :
    ∀ o : List (String × String),
      includesAux (a :: w) ((jsonMembers o).map Char.toLower) =
        o.any (fun kv =>
          includesAux (a :: w) ((kv.1.data.map jsonEscapeChar).flatten.map Char.toLower) ||
          includesAux (a :: w) ((kv.2.data.map jsonEscapeChar).flatten.map Char.toLower)) := by
  have lcolon : Char.toLower ':' = ':' := by decide
  have lcomma : Char.toLower ',' = ',' := by decide
  intro o
  induction o with
  | nil => simp [jsonMembers, includesAux]
  | cons kv rest ih =>
    obtain ⟨k, v⟩ := kv
    cases rest with
    | nil =>
      have hshape : (jsonMembers [(k, v)]).map Char.toLower =
          (jsonString k).map Char.toLower ++ ':' :: (jsonString v).map Char.toLower := by
        simp only [jsonMembers, List.map_append, List.map_cons, List.map_nil, lcolon,
          List.append_assoc, List.singleton_append]
      rw [hshape, includesAux_append_sep _ _ _ hcolon, includesAux_jsonString a w hq,
        includesAux_jsonString a w hq]
      simp
    | cons kv2 rest2 =>
      have hshape : (jsonMembers ((k, v) :: kv2 :: rest2)).map Char.toLower =
          ((jsonString k).map Char.toLower ++ ':' :: (jsonString v).map Char.toLower) ++
            ',' :: (jsonMembers (kv2 :: rest2)).map Char.toLower := by
        simp only [jsonMembers, List.map_append, List.map_cons, List.map_nil, lcolon, lcomma,
          List.append_assoc, List.singleton_append, List.cons_append, List.nil_append]
      rw [hshape, includesAux_append_sep _ _ _ hcomma, includesAux_append_sep _ _ _ hcolon,
        includesAux_jsonString a w hq, includesAux_jsonString a w hq, ih]
      simp

/-- A non-empty needle free of the punctuation of JSON occurs in the
lower-cased `JSON.stringify` of an object exactly when it occurs in the escaped
text of one of its names or values. -/
theorem includesAux_jsonStringify (a : Char) (w : List Char) (hq : Char.ofNat 34 ∉ a :: w)
    (hcolon : ':' ∉ a :: w) (hcomma : ',' ∉ a :: w)
    (hopen : Char.ofNat 123 ∉ a :: w) (hclose : Char.ofNat 125 ∉ a :: w)
    (o : List (String × String)) :
    includesAux (a :: w) ((jsonStringify o).data.map Char.toLower) =
      o.any (fun kv =>
        includesAux (a :: w) ((kv.1.data.map jsonEscapeChar).flatten.map Char.toLower) ||
        includesAux (a :: w) ((kv.2.data.map jsonEscapeChar).flatten.map Char.toLower)) := by
  have lopen : Char.toLower (Char.ofNat 123) = Char.ofNat 123 := by decide
  have lclose : Char.toLower (Char.ofNat 125) = Char.ofNat 125 := by decide
  have hshape : (jsonStringify o).data.map Char.toLower =
      [] ++ Char.ofNat 123 :: ((jsonMembers o).map Char.toLower ++ Char.ofNat 125 :: []) := by
    simp only [jsonStringify, List.map_append, List.map_cons, List.map_nil, lopen, lclose,
      List.nil_append, List.cons_append, List.singleton_append]
  rw [hshape, includesAux_append_sep _ _ _ hopen, includesAux_append_sep _ _ _ hclose,
    includesAux_jsonMembers a w hq hcolon hcomma]
  simp [includesAux]

/-- For an issuer whose names and values are printable and whose names do not
contain the word, the word occurs in the lower-cased `JSON.stringify` of the
issuer exactly when it occurs in a lower-cased value. -/
theorem jsIncludes_issuer (word : String) (a : Char) (w : List Char)
    (hw : word.data = a :: w)
    (hq : Char.ofNat 34 ∉ a :: w) (hb : Char.ofNat 92 ∉ a :: w)
    (hcolon : ':' ∉ a :: w) (hcomma : ',' ∉ a :: w)
    (hopen : Char.ofNat 123 ∉ a :: w) (hclose : Char.ofNat 125 ∉ a :: w)
    (issuer : RDN)
    (hprint : ∀ kv ∈ issuer, printable kv.1 = true ∧ printable kv.2 = true)
    (hnames : ∀ kv ∈ issuer, jsIncludes (jsToLowerCase kv.1) word = false) :
    jsIncludes (jsToLowerCase (jsonStringify issuer)) word =
      issuer.any (fun kv => jsIncludes (jsToLowerCase kv.2) word) := by
  have hmain := includesAux_jsonStringify a w hq hcolon hcomma hopen hclose issuer
  have hleft : jsIncludes (jsToLowerCase (jsonStringify issuer)) word =
      includesAux (a :: w) ((jsonStringify issuer).data.map Char.toLower) := by
    simp only [jsIncludes, jsToLowerCase, hw]
  rw [hleft, hmain, Bool.eq_iff_iff, List.any_eq_true, List.any_eq_true]
  have hpr : ∀ t : String, printable t = true → ∀ c ∈ t.data, 32 ≤ c.toNat := by
    intro t ht c hc
    have := List.all_eq_true.mp ht c hc
    simpa using this
  constructor
  · rintro ⟨kv, hkv, hhit⟩
    refine ⟨kv, hkv, ?_⟩
    have hk := includesAux_escaped a w hq hb kv.1.data (hpr kv.1 (hprint kv hkv).1)
    have hv := includesAux_escaped a w hq hb kv.2.data (hpr kv.2 (hprint kv hkv).2)
    have hn := hnames kv hkv
    simp only [jsIncludes, jsToLowerCase, hw] at hn ⊢
    rw [hk, hv, hn, Bool.false_or] at hhit
    exact hhit
  · rintro ⟨kv, hkv, hhit⟩
    refine ⟨kv, hkv, ?_⟩
    have hv := includesAux_escaped a w hq hb kv.2.data (hpr kv.2 (hprint kv hkv).2)
    simp only [jsIncludes, jsToLowerCase, hw] at hhit
    rw [hv, hhit, Bool.or_true]

/-- Membership of `KNOWN_MALWARE_CERT` in the result of `checkKnownBadCerts`,
read off the two tests of the source. -/
theorem mem_checkKnownBadCerts (cert : Certificate) :
    SSL_ERROR_CODES.KNOWN_MALWARE_CERT ∈ checkKnownBadCerts cert ↔
      ((∃ f, cert.fingerprint = some f ∧ f ≠ "" ∧
          KNOWN_BAD_CERTS.contains (jsToLowerCase (jsRemoveColons f)) = true) ∨
       (∃ issuer, cert.issuer = some issuer ∧
          (jsIncludes (jsToLowerCase (jsonStringify issuer)) "superfish" ||
           jsIncludes (jsToLowerCase (jsonStringify issuer)) "edellroot") = true)) := by
  unfold checkKnownBadCerts
  cases hf : cert.fingerprint <;> cases hi : cert.issuer <;> simp only [] <;>
    (try split_ifs) <;> simp_all

/-- Every issue `checkKnownBadCerts` returns is `KNOWN_MALWARE_CERT`. -/
theorem eq_of_mem_checkKnownBadCerts (cert : Certificate) :
    ∀ i ∈ checkKnownBadCerts cert, i = SSL_ERROR_CODES.KNOWN_MALWARE_CERT := by
  unfold checkKnownBadCerts
  cases hf : cert.fingerprint <;> cases hi : cert.issuer <;> simp only [] <;>
    (try split_ifs) <;> simp_all

/-- The issuer test of `checkKnownBadCerts` on ordinary certificates: for a
snapshot whose issuer attributes are printable text and whose attribute names
contain neither word, `KNOWN_MALWARE_CERT` is emitted exactly when the
fingerprint, colons removed and lower-cased, is in `KNOWN_BAD_CERTS`, or some
issuer value contains `superfish` or `edellroot` case-insensitively; no other
issue is emitted, and none at all otherwise. -/
theorem checkKnownBadCerts_of_printable (cert : Certificate)
    (hprint : ∀ issuer, cert.issuer = some issuer →
      ∀ kv ∈ issuer, printable kv.1 = true ∧ printable kv.2 = true)
    (hnames : ∀ issuer, cert.issuer = some issuer →
      ∀ kv ∈ issuer, jsIncludes (jsToLowerCase kv.1) "superfish" = false ∧
        jsIncludes (jsToLowerCase kv.1) "edellroot" = false) :
    (SSL_ERROR_CODES.KNOWN_MALWARE_CERT ∈ checkKnownBadCerts cert ↔
      ((∃ f, cert.fingerprint = some f ∧
          jsToLowerCase (jsRemoveColons f) ∈ KNOWN_BAD_CERTS) ∨
       (∃ issuer, cert.issuer = some issuer ∧ ∃ kv ∈ issuer,
          jsIncludes (jsToLowerCase kv.2) "superfish" = true ∨
          jsIncludes (jsToLowerCase kv.2) "edellroot" = true))) ∧
    (∀ i ∈ checkKnownBadCerts cert, i = SSL_ERROR_CODES.KNOWN_MALWARE_CERT) ∧
    (¬ ((∃ f, cert.fingerprint = some f ∧
          jsToLowerCase (jsRemoveColons f) ∈ KNOWN_BAD_CERTS) ∨
        (∃ issuer, cert.issuer = some issuer ∧ ∃ kv ∈ issuer,
          jsIncludes (jsToLowerCase kv.2) "superfish" = true ∨
          jsIncludes (jsToLowerCase kv.2) "edellroot" = true)) →
      checkKnownBadCerts cert = []) := by
  have hall := eq_of_mem_checkKnownBadCerts cert
  have hempty : jsToLowerCase (jsRemoveColons "") ∉ KNOWN_BAD_CERTS := by decide
  have hfp : (∃ f, cert.fingerprint = some f ∧ f ≠ "" ∧
        KNOWN_BAD_CERTS.contains (jsToLowerCase (jsRemoveColons f)) = true) ↔
      (∃ f, cert.fingerprint = some f ∧
        jsToLowerCase (jsRemoveColons f) ∈ KNOWN_BAD_CERTS) := by
    constructor
    · rintro ⟨f, hf, _, hc⟩
      exact ⟨f, hf, by simpa using hc⟩
    · rintro ⟨f, hf, hmem⟩
      refine ⟨f, hf, ?_, by simpa using hmem⟩
      rintro rfl
      exact hempty hmem
  have hissuer : (∃ issuer, cert.issuer = some issuer ∧
        (jsIncludes (jsToLowerCase (jsonStringify issuer)) "superfish" ||
         jsIncludes (jsToLowerCase (jsonStringify issuer)) "edellroot") = true) ↔
      (∃ issuer, cert.issuer = some issuer ∧ ∃ kv ∈ issuer,
          jsIncludes (jsToLowerCase kv.2) "superfish" = true ∨
          jsIncludes (jsToLowerCase kv.2) "edellroot" = true) := by
    have key : ∀ issuer, cert.issuer = some issuer →
        ((jsIncludes (jsToLowerCase (jsonStringify issuer)) "superfish" ||
          jsIncludes (jsToLowerCase (jsonStringify issuer)) "edellroot") = true ↔
        ∃ kv ∈ issuer, jsIncludes (jsToLowerCase kv.2) "superfish" = true ∨
          jsIncludes (jsToLowerCase kv.2) "edellroot" = true) := by
      intro issuer hi
      rw [jsIncludes_issuer "superfish" 's' "uperfish".data rfl (by decide) (by decide)
          (by decide) (by decide) (by decide) (by decide) issuer (hprint issuer hi)
          (fun kv hkv => (hnames issuer hi kv hkv).1),
        jsIncludes_issuer "edellroot" 'e' "dellroot".data rfl (by decide) (by decide)
          (by decide) (by decide) (by decide) (by decide) issuer (hprint issuer hi)
          (fun kv hkv => (hnames issuer hi kv hkv).2),
        Bool.or_eq_true, List.any_eq_true, List.any_eq_true]
      constructor
      · rintro (⟨kv, hkv, h⟩ | ⟨kv, hkv, h⟩)
        · exact ⟨kv, hkv, Or.inl h⟩
        · exact ⟨kv, hkv, Or.inr h⟩
      · rintro ⟨kv, hkv, h | h⟩
        · exact Or.inl ⟨kv, hkv, h⟩
        · exact Or.inr ⟨kv, hkv, h⟩
    constructor
    · rintro ⟨issuer, hi, h⟩
      exact ⟨issuer, hi, (key issuer hi).mp h⟩
    · rintro ⟨issuer, hi, h⟩
      exact ⟨issuer, hi, (key issuer hi).mpr h⟩
  have hiff : SSL_ERROR_CODES.KNOWN_MALWARE_CERT ∈ checkKnownBadCerts cert ↔
      ((∃ f, cert.fingerprint = some f ∧
          jsToLowerCase (jsRemoveColons f) ∈ KNOWN_BAD_CERTS) ∨
       (∃ issuer, cert.issuer = some issuer ∧ ∃ kv ∈ issuer,
          jsIncludes (jsToLowerCase kv.2) "superfish" = true ∨
          jsIncludes (jsToLowerCase kv.2) "edellroot" = true)) := by
    rw [mem_checkKnownBadCerts, hfp, hissuer]
  refine ⟨hiff, hall, ?_⟩
  intro hnot
  have hK : SSL_ERROR_CODES.KNOWN_MALWARE_CERT ∉ checkKnownBadCerts cert :=
    fun h => hnot (hiff.mp h)
  cases hres : checkKnownBadCerts cert with
  | nil => rfl
  | cons i rest =>
    exfalso
    apply hK
    rw [hres]
    have := hall i (by rw [hres]; exact List.mem_cons_self _ _)
    rw [this]
    exact List.mem_cons_self _ _

/-- The word test on the serialised issuer, attribute by attribute: a word free
of the punctuation of JSON occurs in the lower-cased `JSON.stringify` of the
issuer exactly when it occurs in the lower-cased escaped text of an attribute
name or of an attribute value. -/
theorem jsIncludes_serialised (word : String) (a : Char) (w : List Char)
    (hw : word.data = a :: w)
    (hq : Char.ofNat 34 ∉ a :: w) (hcolon : ':' ∉ a :: w) (hcomma : ',' ∉ a :: w)
    (hopen : Char.ofNat 123 ∉ a :: w) (hclose : Char.ofNat 125 ∉ a :: w)
    (issuer : RDN) :
    jsIncludes (jsToLowerCase (jsonStringify issuer)) word = true ↔
      ∃ kv ∈ issuer, jsIncludes (jsToLowerCase (jsonEscaped kv.1)) word = true ∨
        jsIncludes (jsToLowerCase (jsonEscaped kv.2)) word = true := by
  have hmain := includesAux_jsonStringify a w hq hcolon hcomma hopen hclose issuer
  have hleft : jsIncludes (jsToLowerCase (jsonStringify issuer)) word =
      includesAux (a :: w) ((jsonStringify issuer).data.map Char.toLower) := by
    simp only [jsIncludes, jsToLowerCase, hw]
  have hpiece : ∀ t : String, jsIncludes (jsToLowerCase (jsonEscaped t)) word =
      includesAux (a :: w) ((t.data.map jsonEscapeChar).flatten.map Char.toLower) := by
    intro t
    simp only [jsIncludes, jsToLowerCase, jsonEscaped, hw]
  rw [hleft, hmain, List.any_eq_true]
  constructor
  · rintro ⟨kv, hkv, h⟩
    refine ⟨kv, hkv, ?_⟩
    rw [hpiece, hpiece]
    simpa [Bool.or_eq_true] using h
  · rintro ⟨kv, hkv, h⟩
    refine ⟨kv, hkv, ?_⟩
    rw [hpiece, hpiece] at h
    simpa [Bool.or_eq_true] using h

/-- C19, as the code has it: `checkKnownBadCerts` emits `KNOWN_MALWARE_CERT`
exactly when the fingerprint, colons removed and lower-cased, is in
`KNOWN_BAD_CERTS`, or some issuer attribute name or attribute value, in the
text `JSON.stringify` writes for it, contains `superfish` or `edellroot`
case-insensitively; it emits no other issue, and none at all otherwise.  For
an issuer whose attributes are printable text and whose attribute names
contain neither word, the issuer condition is that some issuer value contains
`superfish` or `edellroot` case-insensitively. -/
theorem checkKnownBadCerts_serialised (cert : Certificate) :
    (SSL_ERROR_CODES.KNOWN_MALWARE_CERT ∈ checkKnownBadCerts cert ↔
      ((∃ f, cert.fingerprint = some f ∧
          jsToLowerCase (jsRemoveColons f) ∈ KNOWN_BAD_CERTS) ∨
       (∃ issuer, cert.issuer = some issuer ∧ ∃ kv ∈ issuer,
          jsIncludes (jsToLowerCase (jsonEscaped kv.1)) "superfish" = true ∨
          jsIncludes (jsToLowerCase (jsonEscaped kv.2)) "superfish" = true ∨
          jsIncludes (jsToLowerCase (jsonEscaped kv.1)) "edellroot" = true ∨
          jsIncludes (jsToLowerCase (jsonEscaped kv.2)) "edellroot" = true))) ∧
    (∀ i ∈ checkKnownBadCerts cert, i = SSL_ERROR_CODES.KNOWN_MALWARE_CERT) ∧
    (¬ ((∃ f, cert.fingerprint = some f ∧
          jsToLowerCase (jsRemoveColons f) ∈ KNOWN_BAD_CERTS) ∨
        (∃ issuer, cert.issuer = some issuer ∧ ∃ kv ∈ issuer,
          jsIncludes (jsToLowerCase (jsonEscaped kv.1)) "superfish" = true ∨
          jsIncludes (jsToLowerCase (jsonEscaped kv.2)) "superfish" = true ∨
          jsIncludes (jsToLowerCase (jsonEscaped kv.1)) "edellroot" = true ∨
          jsIncludes (jsToLowerCase (jsonEscaped kv.2)) "edellroot" = true)) →
      checkKnownBadCerts cert = []) ∧
    ((∀ issuer, cert.issuer = some issuer → ∀ kv ∈ issuer,
        (printable kv.1 = true ∧ printable kv.2 = true) ∧
        jsIncludes (jsToLowerCase kv.1) "superfish" = false ∧
        jsIncludes (jsToLowerCase kv.1) "edellroot" = false) →
      (SSL_ERROR_CODES.KNOWN_MALWARE_CERT ∈ checkKnownBadCerts cert ↔
        ((∃ f, cert.fingerprint = some f ∧
            jsToLowerCase (jsRemoveColons f) ∈ KNOWN_BAD_CERTS) ∨
         (∃ issuer, cert.issuer = some issuer ∧ ∃ kv ∈ issuer,
            jsIncludes (jsToLowerCase kv.2) "superfish" = true ∨
            jsIncludes (jsToLowerCase kv.2) "edellroot" = true)))) := by
  have hall := eq_of_mem_checkKnownBadCerts cert
  have hempty : jsToLowerCase (jsRemoveColons "") ∉ KNOWN_BAD_CERTS := by decide
  have hfp : (∃ f, cert.fingerprint = some f ∧ f ≠ "" ∧
        KNOWN_BAD_CERTS.contains (jsToLowerCase (jsRemoveColons f)) = true) ↔
      (∃ f, cert.fingerprint = some f ∧
        jsToLowerCase (jsRemoveColons f) ∈ KNOWN_BAD_CERTS) := by
    constructor
    · rintro ⟨f, hf, _, hc⟩
      exact ⟨f, hf, by simpa using hc⟩
    · rintro ⟨f, hf, hmem⟩
      refine ⟨f, hf, ?_, by simpa using hmem⟩
      rintro rfl
      exact hempty hmem
  have hsuper := jsIncludes_serialised "superfish" 's' "uperfish".data rfl (by decide)
    (by decide) (by decide) (by decide) (by decide)
  have hedell := jsIncludes_serialised "edellroot" 'e' "dellroot".data rfl (by decide)
    (by decide) (by decide) (by decide) (by decide)
  have hissuer : (∃ issuer, cert.issuer = some issuer ∧
        (jsIncludes (jsToLowerCase (jsonStringify issuer)) "superfish" ||
         jsIncludes (jsToLowerCase (jsonStringify issuer)) "edellroot") = true) ↔
      (∃ issuer, cert.issuer = some issuer ∧ ∃ kv ∈ issuer,
          jsIncludes (jsToLowerCase (jsonEscaped kv.1)) "superfish" = true ∨
          jsIncludes (jsToLowerCase (jsonEscaped kv.2)) "superfish" = true ∨
          jsIncludes (jsToLowerCase (jsonEscaped kv.1)) "edellroot" = true ∨
          jsIncludes (jsToLowerCase (jsonEscaped kv.2)) "edellroot" = true) := by
    constructor
    · rintro ⟨issuer, hi, h⟩
      refine ⟨issuer, hi, ?_⟩
      rw [Bool.or_eq_true] at h
      rcases h with h | h
      · obtain ⟨kv, hkv, h2⟩ := (hsuper issuer).mp h
        rcases h2 with h2 | h2
        · exact ⟨kv, hkv, Or.inl h2⟩
        · exact ⟨kv, hkv, Or.inr (Or.inl h2)⟩
      · obtain ⟨kv, hkv, h2⟩ := (hedell issuer).mp h
        rcases h2 with h2 | h2
        · exact ⟨kv, hkv, Or.inr (Or.inr (Or.inl h2))⟩
        · exact ⟨kv, hkv, Or.inr (Or.inr (Or.inr h2))⟩
    · rintro ⟨issuer, hi, kv, hkv, h⟩
      refine ⟨issuer, hi, ?_⟩
      rw [Bool.or_eq_true]
      rcases h with h | h | h | h
      · exact Or.inl ((hsuper issuer).mpr ⟨kv, hkv, Or.inl h⟩)
      · exact Or.inl ((hsuper issuer).mpr ⟨kv, hkv, Or.inr h⟩)
      · exact Or.inr ((hedell issuer).mpr ⟨kv, hkv, Or.inl h⟩)
      · exact Or.inr ((hedell issuer).mpr ⟨kv, hkv, Or.inr h⟩)
  have hiff : SSL_ERROR_CODES.KNOWN_MALWARE_CERT ∈ checkKnownBadCerts cert ↔
      ((∃ f, cert.fingerprint = some f ∧
          jsToLowerCase (jsRemoveColons f) ∈ KNOWN_BAD_CERTS) ∨
       (∃ issuer, cert.issuer = some issuer ∧ ∃ kv ∈ issuer,
          jsIncludes (jsToLowerCase (jsonEscaped kv.1)) "superfish" = true ∨
          jsIncludes (jsToLowerCase (jsonEscaped kv.2)) "superfish" = true ∨
          jsIncludes (jsToLowerCase (jsonEscaped kv.1)) "edellroot" = true ∨
          jsIncludes (jsToLowerCase (jsonEscaped kv.2)) "edellroot" = true)) := by
    rw [mem_checkKnownBadCerts, hfp, hissuer]
  refine ⟨hiff, hall, ?_, ?_⟩
  · intro hnot
    have hK : SSL_ERROR_CODES.KNOWN_MALWARE_CERT ∉ checkKnownBadCerts cert :=
      fun h => hnot (hiff.mp h)
    cases hres : checkKnownBadCerts cert with
    | nil => rfl
    | cons i rest =>
      exfalso
      apply hK
      rw [hres]
      have := hall i (by rw [hres]; exact List.mem_cons_self _ _)
      rw [this]
      exact List.mem_cons_self _ _
  · intro hordinary
    exact (checkKnownBadCerts_of_printable cert
      (fun issuer hi kv hkv => (hordinary issuer hi kv hkv).1)
      (fun issuer hi kv hkv => (hordinary issuer hi kv hkv).2)).1

/-- Witness of `checkKnownBadCerts_serialised`: the Superfish certificate is
reported, its issuer `O` being `Superfish, Inc.`. -/
theorem checkKnownBadCerts_serialised_witness :
    SSL_ERROR_CODES.KNOWN_MALWARE_CERT ∈ checkKnownBadCerts superfishCertificate :=
  ((checkKnownBadCerts_serialised superfishCertificate).2.2.2
    (fun issuer h => by cases h; decide)).mpr
    (Or.inr ⟨[("C", "US"), ("O", "Superfish, Inc."), ("CN", "Superfish, Inc.")], rfl,
      ("O", "Superfish, Inc."), by decide, Or.inl (by decide)⟩)

/-- Counterexample to C19 as stated: a certificate without fingerprint whose
issuer `O` is the control character U+000E followed by `dellroot` is reported,
although no issuer value contains `superfish` or `edellroot`
case-insensitively: `JSON.stringify` writes the control character as
`\u000e`, whose last digit completes the word.  An issuer with an attribute
named `superfish` is reported as well. -/
theorem checkKnownBadCerts_escape_counterexample :
    (controlCharCertificate.fingerprint = none ∧
      (∀ kv ∈ [("O", "\x0edellroot")],
        jsIncludes (jsToLowerCase kv.2) "superfish" = false ∧
        jsIncludes (jsToLowerCase kv.2) "edellroot" = false) ∧
      checkKnownBadCerts controlCharCertificate = [SSL_ERROR_CODES.KNOWN_MALWARE_CERT]) ∧
    (namedAttributeCertificate.fingerprint = none ∧
      jsIncludes (jsToLowerCase "Acme CA") "superfish" = false ∧
      jsIncludes (jsToLowerCase "Acme CA") "edellroot" = false ∧
      checkKnownBadCerts namedAttributeCertificate = [SSL_ERROR_CODES.KNOWN_MALWARE_CERT]) := by
  refine ⟨⟨rfl, by decide, by decide⟩, ⟨rfl, by decide, by decide, by decide⟩⟩

/-! ## One issue for each rule -/

/-- The `if` / `else if` chain of `checkCipherSuite` for any cipher name: the
empty name is falsy and matches no rule. -/
theorem checkCipherSuite_chain (conn : Connection) (name : String)
    (hc : conn.cipher = some name) :
    checkCipherSuite (some conn) =
      if jsIncludes (jsToUpperCase name) "NULL" then [SSL_ERROR_CODES.NULL_CIPHER]
      else if jsIncludes (jsToUpperCase name) "RC4" then [SSL_ERROR_CODES.WEAK_CIPHER_RC4]
      else if jsIncludes (jsToUpperCase name) "3DES" ||
          jsIncludes (jsToUpperCase name) "DES-CBC3" then [SSL_ERROR_CODES.WEAK_CIPHER_3DES]
      else if jsIncludes (jsToUpperCase name) "-CBC-" ||
          jsIncludes (jsToUpperCase name) "_CBC_" then [SSL_ERROR_CODES.WEAK_CIPHER_CBC]
      else [] := by
  by_cases hne : name = ""
  · subst hne
    have h : checkCipherSuite (some conn) = [] := by simp [checkCipherSuite, hc]
    rw [h]
    decide
  · exact checkCipherSuite_of_name conn name hc hne

/-- C28: `checkCipherSuite` returns at most one issue, the one of the first
rule, in the order `NULL`, `RC4`, `3DES` / `DES-CBC3`, `-CBC-` / `_CBC_`, whose
substring occurs in the upper-cased cipher name, and the empty list when no
rule matches or the cipher name is absent; so the match is case-insensitive
(`rc4-md5`) and a name containing `NULL` yields only `NULL_CIPHER`. -/
theorem checkCipherSuite_first_rule :
    (∀ connection : Option Connection, (checkCipherSuite connection).length ≤ 1) ∧
    (∀ (conn : Connection) (name : String), conn.cipher = some name →
      (jsIncludes (jsToUpperCase name) "NULL" = true →
        checkCipherSuite (some conn) = [SSL_ERROR_CODES.NULL_CIPHER]) ∧
      (jsIncludes (jsToUpperCase name) "NULL" = false →
        jsIncludes (jsToUpperCase name) "RC4" = true →
        checkCipherSuite (some conn) = [SSL_ERROR_CODES.WEAK_CIPHER_RC4]) ∧
      (jsIncludes (jsToUpperCase name) "NULL" = false →
        jsIncludes (jsToUpperCase name) "RC4" = false →
        (jsIncludes (jsToUpperCase name) "3DES" = true ∨
          jsIncludes (jsToUpperCase name) "DES-CBC3" = true) →
        checkCipherSuite (some conn) = [SSL_ERROR_CODES.WEAK_CIPHER_3DES]) ∧
      (jsIncludes (jsToUpperCase name) "NULL" = false →
        jsIncludes (jsToUpperCase name) "RC4" = false →
        jsIncludes (jsToUpperCase name) "3DES" = false →
        jsIncludes (jsToUpperCase name) "DES-CBC3" = false →
        (jsIncludes (jsToUpperCase name) "-CBC-" = true ∨
          jsIncludes (jsToUpperCase name) "_CBC_" = true) →
        checkCipherSuite (some conn) = [SSL_ERROR_CODES.WEAK_CIPHER_CBC]) ∧
      (jsIncludes (jsToUpperCase name) "NULL" = false →
        jsIncludes (jsToUpperCase name) "RC4" = false →
        jsIncludes (jsToUpperCase name) "3DES" = false →
        jsIncludes (jsToUpperCase name) "DES-CBC3" = false →
        jsIncludes (jsToUpperCase name) "-CBC-" = false →
        jsIncludes (jsToUpperCase name) "_CBC_" = false →
        checkCipherSuite (some conn) = [])) ∧
    checkCipherSuite none = [] ∧
    (∀ conn : Connection, conn.cipher = none → checkCipherSuite (some conn) = []) ∧
    checkCipherSuite (some (connectionWithCipher "NULL-RC4-SHA")) =
      [SSL_ERROR_CODES.NULL_CIPHER] ∧
    checkCipherSuite (some (connectionWithCipher "rc4-md5")) =
      [SSL_ERROR_CODES.WEAK_CIPHER_RC4] := by
  refine ⟨?_, ?_, rfl, ?_, by decide, by decide⟩
  · intro connection
    cases connection with
    | none => simp [checkCipherSuite]
    | some conn =>
      cases hc : conn.cipher with
      | none => simp [checkCipherSuite, hc]
      | some name =>
        rw [checkCipherSuite_chain conn name hc]
        split_ifs <;> simp
  · intro conn name hc
    rw [checkCipherSuite_chain conn name hc]
    refine ⟨?_, ?_, ?_, ?_, ?_⟩
    · intro h1
      simp [h1]
    · intro h1 h2
      simp [h1, h2]
    · intro h1 h2 h
      rcases h with h | h <;> simp [h1, h2, h]
    · intro h1 h2 h3 h4 h
      rcases h with h | h <;> simp [h1, h2, h3, h4, h]
    · intro h1 h2 h3 h4 h5 h6
      simp [h1, h2, h3, h4, h5, h6]
  · intro conn hc
    simp [checkCipherSuite, hc]

/-- Witness of C28: the cipher `ECDHE-RSA-DES-CBC3-SHA` falls under the third
rule. -/
theorem checkCipherSuite_first_rule_witness :
    checkCipherSuite (some (connectionWithCipher "ECDHE-RSA-DES-CBC3-SHA")) =
      [SSL_ERROR_CODES.WEAK_CIPHER_3DES] :=
  (checkCipherSuite_first_rule.2.1 (connectionWithCipher "ECDHE-RSA-DES-CBC3-SHA")
    "ECDHE-RSA-DES-CBC3-SHA" rfl).2.2.1 (by decide) (by decide) (Or.inr (by decide))

/-- C29, as the code has it: `checkKnownBadCerts` returns only
`KNOWN_MALWARE_CERT` issues, one for the fingerprint test and one for the
issuer test, so at most two; a certificate whose fingerprint is in the
deny-set and whose serialised issuer contains `superfish` or `edellroot`
yields the issue twice. -/
theorem checkKnownBadCerts_twice (cert : Certificate) :
    (∀ i ∈ checkKnownBadCerts cert, i = SSL_ERROR_CODES.KNOWN_MALWARE_CERT) ∧
    (checkKnownBadCerts cert).length ≤ 2 ∧
    (∀ (f : String) (issuer : RDN), cert.fingerprint = some f →
      jsToLowerCase (jsRemoveColons f) ∈ KNOWN_BAD_CERTS →
      cert.issuer = some issuer →
      (jsIncludes (jsToLowerCase (jsonStringify issuer)) "superfish" = true ∨
        jsIncludes (jsToLowerCase (jsonStringify issuer)) "edellroot" = true) →
      checkKnownBadCerts cert =
        [SSL_ERROR_CODES.KNOWN_MALWARE_CERT, SSL_ERROR_CODES.KNOWN_MALWARE_CERT]) := by
  have hempty : jsToLowerCase (jsRemoveColons "") ∉ KNOWN_BAD_CERTS := by decide
  refine ⟨eq_of_mem_checkKnownBadCerts cert, ?_, ?_⟩
  · unfold checkKnownBadCerts
    cases hf : cert.fingerprint <;> cases hi : cert.issuer <;> simp only [] <;>
      (try split_ifs) <;> simp
  · intro f issuer hf hmem hi hinc
    have hne : f ≠ "" := by
      rintro rfl
      exact hempty hmem
    have hc : KNOWN_BAD_CERTS.contains (jsToLowerCase (jsRemoveColons f)) = true := by
      simpa using hmem
    have hor : (jsIncludes (jsToLowerCase (jsonStringify issuer)) "superfish" ||
        jsIncludes (jsToLowerCase (jsonStringify issuer)) "edellroot") = true := by
      rcases hinc with h | h <;> simp [h]
    unfold checkKnownBadCerts
    simp only [hf, hi, bne_iff_ne, ne_eq, hne, not_false_eq_true, if_true, hc, hor]
    rfl

/-- Witness of `checkKnownBadCerts_twice`: the Superfish certificate. -/
theorem checkKnownBadCerts_twice_witness :
    checkKnownBadCerts superfishCertificate =
      [SSL_ERROR_CODES.KNOWN_MALWARE_CERT, SSL_ERROR_CODES.KNOWN_MALWARE_CERT] :=
  (checkKnownBadCerts_twice superfishCertificate).2.2
    "C8:64:48:48:69:D4:1D:2B:0D:32:31:9C:5A:62:F9:31:5A:AF:2C:BD"
    [("C", "US"), ("O", "Superfish, Inc."), ("CN", "Superfish, Inc.")]
    rfl (by decide) rfl (Or.inl (by decide))

/-- Counterexample to C29 as stated: the Superfish certificate, whose
fingerprint is in the deny-set and whose issuer contains `superfish`, yields
two issues with the code `KNOWN_MALWARE_CERT`, not one. -/
theorem checkKnownBadCerts_duplicate_counterexample :
    jsToLowerCase (jsRemoveColons "C8:64:48:48:69:D4:1D:2B:0D:32:31:9C:5A:62:F9:31:5A:AF:2C:BD") ∈
      KNOWN_BAD_CERTS ∧
    ((checkKnownBadCerts superfishCertificate).map (fun i => i.code)) =
      ["KNOWN_MALWARE_CERT", "KNOWN_MALWARE_CERT"] ∧
    (checkKnownBadCerts superfishCertificate).length ≠ 1 := by
  refine ⟨by decide, by decide, by decide⟩

/-- C25 at the failing input: the SAN entry `*.example.com` accepts
`x.badexample.com` (no `CERT_CN_MISMATCH`), a host name that does not end with
`.example.com`: the suffix tested is `example.com`, without the dot, and both
names have three labels. -/
theorem checkCertificateIdentity_wildcard_suffix_without_dot :
    checkCertificateIdentity (certWithSAN ["*.example.com"]) "x.badexample.com" = [] ∧
    jsEndsWith "x.badexample.com" ".example.com" = false ∧
    jsEndsWith "x.badexample.com" (jsSlice "*.example.com" 2) = true ∧
    jsSplitLength "x.badexample.com" '.' = jsSplitLength "*.example.com" '.' := by
  refine ⟨by decide, by decide, by decide, by decide⟩

/-! ## The trusted-CA test -/

/-- A field read as `x || ''` contains a non-empty word exactly when the field
is present and contains it. -/
theorem jsIncludes_orDefault (x : Option String) (w : String) (hw : w.data ≠ []) :
    jsIncludes (orDefault x "") w = true ↔ ∃ v, x = some v ∧ jsIncludes v w = true := by
  cases x with
  | none =>
    have h : jsIncludes (orDefault none "") w = false := by
      cases hd : w.data with
      | nil => exact absurd hd hw
      | cons a l => simp [jsIncludes, orDefault, hd, includesAux]
    simp [h]
  | some v => simp [orDefault_some_empty]

/-- A field read as `x || ''` and lower-cased contains a non-empty word exactly
when the field is present and its lower-cased value contains it. -/
theorem jsIncludes_lower_orDefault (x : Option String) (w : String) (hw : w.data ≠ []) :
    jsIncludes (jsToLowerCase (orDefault x "")) w = true ↔
      ∃ v, x = some v ∧ jsIncludes (jsToLowerCase v) w = true := by
  cases x with
  | none =>
    have h : jsIncludes (jsToLowerCase (orDefault none "")) w = false := by
      cases hd : w.data with
      | nil => exact absurd hd hw
      | cons a l => simp [jsIncludes, jsToLowerCase, orDefault, hd, includesAux]
    simp [h]
  | some v => simp [orDefault_some_empty]

/-- C21, as the code has it: `isFromTrustedGovCA` returns true exactly when the
issuer is present and one of its fields `CN`, `O`, `OU` contains
(case-sensitively) an entry of `TRUSTED_GOV_CERTIFICATE_AUTHORITIES`, or its
`CN` or `O` contains `certum` case-insensitively, or its `O` contains
`unizeto` case-insensitively; it returns false when the certificate or the
issuer is absent. -/
theorem isFromTrustedGovCA_iff (cert : Certificate) :
    (isFromTrustedGovCA (some cert) = true ↔
      ∃ issuer, cert.issuer = some issuer ∧
        ((∃ ca ∈ TRUSTED_GOV_CERTIFICATE_AUTHORITIES, ∃ v,
            (issuer.get "CN" = some v ∨ issuer.get "O" = some v ∨ issuer.get "OU" = some v) ∧
            jsIncludes v ca = true) ∨
         (∃ v, (issuer.get "CN" = some v ∨ issuer.get "O" = some v) ∧
            jsIncludes (jsToLowerCase v) "certum" = true) ∨
         (∃ v, issuer.get "O" = some v ∧ jsIncludes (jsToLowerCase v) "unizeto" = true))) ∧
    isFromTrustedGovCA none = false ∧
    isFromTrustedGovCA (some { cert with issuer := none }) = false := by
  refine ⟨?_, rfl, rfl⟩
  cases hi : cert.issuer with
  | none => simp [isFromTrustedGovCA, hi]
  | some issuer =>
    have hne : ∀ ca ∈ TRUSTED_GOV_CERTIFICATE_AUTHORITIES, ca.data ≠ [] := by decide
    have hcertum : "certum".data ≠ [] := by decide
    have hunizeto : "unizeto".data ≠ [] := by decide
    have hloop : (TRUSTED_GOV_CERTIFICATE_AUTHORITIES.any (fun trustedCA =>
          jsIncludes (orDefault (issuer.get "CN") "") trustedCA ||
          jsIncludes (orDefault (issuer.get "O") "") trustedCA ||
          jsIncludes (orDefault (issuer.get "OU") "") trustedCA) = true) ↔
        ∃ ca ∈ TRUSTED_GOV_CERTIFICATE_AUTHORITIES, ∃ v,
          (issuer.get "CN" = some v ∨ issuer.get "O" = some v ∨ issuer.get "OU" = some v) ∧
          jsIncludes v ca = true := by
      rw [List.any_eq_true]
      constructor
      · rintro ⟨ca, hca, h⟩
        simp only [Bool.or_eq_true] at h
        refine ⟨ca, hca, ?_⟩
        rcases h with (h | h) | h
        · obtain ⟨v, hv, hinc⟩ := (jsIncludes_orDefault _ ca (hne ca hca)).mp h
          exact ⟨v, Or.inl hv, hinc⟩
        · obtain ⟨v, hv, hinc⟩ := (jsIncludes_orDefault _ ca (hne ca hca)).mp h
          exact ⟨v, Or.inr (Or.inl hv), hinc⟩
        · obtain ⟨v, hv, hinc⟩ := (jsIncludes_orDefault _ ca (hne ca hca)).mp h
          exact ⟨v, Or.inr (Or.inr hv), hinc⟩
      · rintro ⟨ca, hca, v, hv, hinc⟩
        refine ⟨ca, hca, ?_⟩
        simp only [Bool.or_eq_true]
        rcases hv with hv | hv | hv
        · exact Or.inl (Or.inl ((jsIncludes_orDefault _ ca (hne ca hca)).mpr ⟨v, hv, hinc⟩))
        · exact Or.inl (Or.inr ((jsIncludes_orDefault _ ca (hne ca hca)).mpr ⟨v, hv, hinc⟩))
        · exact Or.inr ((jsIncludes_orDefault _ ca (hne ca hca)).mpr ⟨v, hv, hinc⟩)
    have hshape : isFromTrustedGovCA (some cert) = true ↔
        ((TRUSTED_GOV_CERTIFICATE_AUTHORITIES.any (fun trustedCA =>
          jsIncludes (orDefault (issuer.get "CN") "") trustedCA ||
          jsIncludes (orDefault (issuer.get "O") "") trustedCA ||
          jsIncludes (orDefault (issuer.get "OU") "") trustedCA) = true) ∨
        jsIncludes (jsToLowerCase (orDefault (issuer.get "CN") "")) "certum" = true ∨
        jsIncludes (jsToLowerCase (orDefault (issuer.get "O") "")) "certum" = true ∨
        jsIncludes (jsToLowerCase (orDefault (issuer.get "O") "")) "unizeto" = true) := by
      simp only [isFromTrustedGovCA, hi]
      split_ifs with h1 h2
      · simp [h1]
      · simp only [Bool.or_eq_true] at h2
        simp only [true_iff]
        rcases h2 with (h | h) | h
        · exact Or.inr (Or.inl h)
        · exact Or.inr (Or.inr (Or.inl h))
        · exact Or.inr (Or.inr (Or.inr h))
      · simp only [Bool.or_eq_true, not_or] at h2
        simp [h1, h2.1.1, h2.1.2, h2.2]
    rw [hshape, hloop, jsIncludes_lower_orDefault _ _ hcertum,
      jsIncludes_lower_orDefault _ _ hcertum, jsIncludes_lower_orDefault _ _ hunizeto]
    constructor
    · intro h
      refine ⟨issuer, rfl, ?_⟩
      rcases h with h | ⟨v, hv, hinc⟩ | ⟨v, hv, hinc⟩ | h
      · exact Or.inl h
      · exact Or.inr (Or.inl ⟨v, Or.inl hv, hinc⟩)
      · exact Or.inr (Or.inl ⟨v, Or.inr hv, hinc⟩)
      · exact Or.inr (Or.inr h)
    · rintro ⟨issuer2, heq, h⟩
      have : issuer2 = issuer := (Option.some.inj heq).symm
      subst this
      rcases h with h | ⟨v, hv | hv, hinc⟩ | h
      · exact Or.inl h
      · exact Or.inr (Or.inl ⟨v, hv, hinc⟩)
      · exact Or.inr (Or.inr (Or.inl ⟨v, hv, hinc⟩))
      · exact Or.inr (Or.inr (Or.inr h))

/-- Counterexample to C21 as stated: an issuer whose `OU` is `certum services`,
or whose `CN` is `unizeto root`, contains `certum` / `unizeto`
case-insensitively in one of the fields `CN`, `O`, `OU`, and
`isFromTrustedGovCA` returns false. -/
theorem isFromTrustedGovCA_special_case_counterexample :
    (jsIncludes (jsToLowerCase "certum services") "certum" = true ∧
      isFromTrustedGovCA (some (certWithIssuer none [("OU", "certum services")])) = false) ∧
    (jsIncludes (jsToLowerCase "unizeto root") "unizeto" = true ∧
      isFromTrustedGovCA (some (certWithIssuer none [("CN", "unizeto root")])) = false) := by
  refine ⟨⟨by decide, by decide⟩, ⟨by decide, by decide⟩⟩

/-! ## Catalog lookup -/

/-- C23 at the failing input: `getErrorByCode` returns the catalog record,
whose `code` is the key, for each of the 25 keys, and `null` for a name that is
neither a key nor a property of `Object.prototype`; but the unknown codes
`constructor`, `toString` and `__proto__` give the inherited, truthy value
instead of `null`. -/
theorem getErrorByCode_inherited_keys :
    SSL_ERROR_CODES.table.length = 25 ∧
    (∀ kv ∈ SSL_ERROR_CODES.table, getErrorByCode kv.1 = .record kv.2 ∧ kv.2.code = kv.1) ∧
    SSL_ERROR_CODES.table.lookup "constructor" = none ∧
    getErrorByCode "constructor" = .inherited "constructor" ∧
    getErrorByCode "toString" = .inherited "toString" ∧
    getErrorByCode "__proto__" = .inherited "__proto__" ∧
    getErrorByCode "UNKNOWN_CODE" = .null ∧
    (∀ code : String, SSL_ERROR_CODES.table.lookup code = none →
      code ∉ objectPrototypeKeys → getErrorByCode code = .null) := by
  refine ⟨rfl, by decide, by decide, by decide, by decide, by decide, by decide, ?_⟩
  intro code hnone hproto
  simp [getErrorByCode, hnone, hproto]

/-! ## Test harness -/

/-- One test keeps the counters balanced. -/
theorem runTests_test_balanced (validate : Nat → String → Except String ValidationResult)
    (s : TestSummary) (test : TestCase) (h : s.total = s.passed + s.failed + s.skipped) :
    (runTests.test validate s test).total =
      (runTests.test validate s test).passed + (runTests.test validate s test).failed +
        (runTests.test validate s test).skipped := by
  unfold runTests.test
  simp only []
  split
  · split <;> simp only [] <;> omega
  · simp only []
    omega

/-- A run of tests keeps the counters balanced. -/
theorem runTests_tests_balanced (validate : Nat → String → Except String ValidationResult)
    (tests : List TestCase) :
    ∀ s : TestSummary, s.total = s.passed + s.failed + s.skipped →
      (tests.foldl (runTests.test validate) s).total =
        (tests.foldl (runTests.test validate) s).passed +
          (tests.foldl (runTests.test validate) s).failed +
          (tests.foldl (runTests.test validate) s).skipped := by
  induction tests with
  | nil => intro s h; exact h
  | cons test rest ih =>
    intro s h
    exact ih _ (runTests_test_balanced validate s test h)

/-- The categories keep the counters balanced. -/
theorem runTests_categories_balanced
    (validate : Nat → String → Except String ValidationResult) (cases : List TestCategory) :
    ∀ s : TestSummary, s.total = s.passed + s.failed + s.skipped →
      (cases.foldl (fun s category => category.tests.foldl (runTests.test validate) s) s).total =
        (cases.foldl (fun s category =>
            category.tests.foldl (runTests.test validate) s) s).passed +
          (cases.foldl (fun s category =>
            category.tests.foldl (runTests.test validate) s) s).failed +
          (cases.foldl (fun s category =>
            category.tests.foldl (runTests.test validate) s) s).skipped := by
  induction cases with
  | nil => intro s h; exact h
  | cons category rest ih =>
    intro s h
    exact ih _ (runTests_tests_balanced validate category.tests s h)

/-- The Boolean test of `runTests` is the pass criterion of the specification. -/
theorem passCondition_iff (test : TestCase) (result : ValidationResult) :
    (result.issues.any (fun issue => issue.code == test.expectedCode) ||
        (test.expectedCode == "SSL_VALID" && result.overallSeverity == "OK")) = true ↔
      ((∃ i ∈ result.issues, i.code = test.expectedCode) ∨
        (test.expectedCode = "SSL_VALID" ∧ result.overallSeverity = "OK")) := by
  simp [List.any_eq_true]

/-- One test moves the counters by its verdict and records its flag. -/
theorem runTests_test_verdict (validate : Nat → String → Except String ValidationResult)
    (s : TestSummary) (test : TestCase) :
    (runTests.test validate s test).total = s.total + 1 ∧
    (runTests.test validate s test).passed = s.passed +
      (if specVerdict (validate s.total test.url) test = .passed then 1 else 0) ∧
    (runTests.test validate s test).failed = s.failed +
      (if specVerdict (validate s.total test.url) test = .failed then 1 else 0) ∧
    (runTests.test validate s test).skipped = s.skipped +
      (if specVerdict (validate s.total test.url) test = .skipped then 1 else 0) ∧
    (runTests.test validate s test).results.map (fun r => r.test) =
      s.results.map (fun r => r.test) ++ [test] ∧
    (runTests.test validate s test).results.map (fun r => r.passed) =
      s.results.map (fun r => r.passed) ++
        [decide (specVerdict (validate s.total test.url) test = .passed)] := by
  cases hv : validate s.total test.url with
  | error message =>
    simp [runTests.test, hv, specVerdict]
  | ok result =>
    by_cases hc : ((∃ i ∈ result.issues, i.code = test.expectedCode) ∨
        (test.expectedCode = "SSL_VALID" ∧ result.overallSeverity = "OK"))
    · have hb := (passCondition_iff test result).mpr hc
      unfold runTests.test
      simp only [hv, specVerdict]
      rw [if_pos hb]
      simp [hc, hb]
    · have hb : ¬ ((result.issues.any (fun issue => issue.code == test.expectedCode) ||
          (test.expectedCode == "SSL_VALID" && result.overallSeverity == "OK")) = true) :=
        fun hb => hc ((passCondition_iff test result).mp hb)
      unfold runTests.test
      simp only [hv, specVerdict]
      rw [if_neg hb]
      simp [hc, hb]

/-- A run of tests moves the counters by the verdicts of its tests, the call
numbers continuing from the tests already run. -/
theorem runTests_tests_verdicts (validate : Nat → String → Except String ValidationResult)
    (tests : List TestCase) :
    ∀ s : TestSummary,
      (tests.foldl (runTests.test validate) s).total = s.total + tests.length ∧
      (tests.foldl (runTests.test validate) s).passed = s.passed +
        (tests.enumFrom s.total).countP
          (fun p => decide (specVerdict (validate p.1 p.2.url) p.2 = .passed)) ∧
      (tests.foldl (runTests.test validate) s).failed = s.failed +
        (tests.enumFrom s.total).countP
          (fun p => decide (specVerdict (validate p.1 p.2.url) p.2 = .failed)) ∧
      (tests.foldl (runTests.test validate) s).skipped = s.skipped +
        (tests.enumFrom s.total).countP
          (fun p => decide (specVerdict (validate p.1 p.2.url) p.2 = .skipped)) ∧
      (tests.foldl (runTests.test validate) s).results.map (fun r => r.test) =
        s.results.map (fun r => r.test) ++ tests ∧
      (tests.foldl (runTests.test validate) s).results.map (fun r => r.passed) =
        s.results.map (fun r => r.passed) ++
          (tests.enumFrom s.total).map
            (fun p => decide (specVerdict (validate p.1 p.2.url) p.2 = .passed)) := by
  induction tests with
  | nil => intro s; simp
  | cons test rest ih =>
    intro s
    obtain ⟨h1, h2, h3, h4, h5, h6⟩ := runTests_test_verdict validate s test
    obtain ⟨i1, i2, i3, i4, i5, i6⟩ := ih (runTests.test validate s test)
    rw [h1] at i2 i3 i4 i6
    simp only [List.foldl_cons, List.enumFrom_cons, List.countP_cons, List.map_cons,
      List.length_cons, decide_eq_true_eq]
    refine ⟨by omega, by omega, by omega, by omega, ?_, ?_⟩
    · rw [i5, h5, List.append_assoc]
      rfl
    · rw [i6, h6, List.append_assoc]
      rfl

/-- The two nested loops of `runTests` visit the tests of all categories in
order. -/
theorem runTests_eq_foldl (validate : Nat → String → Except String ValidationResult)
    (cases : List TestCategory) :
    ∀ s : TestSummary,
      cases.foldl (fun s category => category.tests.foldl (runTests.test validate) s) s =
        (cases.flatMap (fun category => category.tests)).foldl (runTests.test validate) s := by
  induction cases with
  | nil => intro s; rfl
  | cons category rest ih =>
    intro s
    rw [List.foldl_cons, List.flatMap_cons, List.foldl_append, ih]

/-- C24: `runTests` calls `validateSSL` once for every test of every category,
in order, and counts each test by its verdict: a test for which the call
returns is counted as passed exactly when `expectedCode` occurs among the
codes of the issues of the result, or `expectedCode` is `SSL_VALID` and the
overall severity is `OK`, and as failed otherwise; a test whose call throws is
counted as skipped.  So `total` is the number of tests, `passed`, `failed` and
`skipped` are the numbers of tests with each verdict, `results` lists the
tests in order with their `passed` flags, and at the end
`total = passed + failed + skipped`. -/
theorem runTests_verdicts (validate : Nat → String → Except String ValidationResult)
    (cases : List TestCategory) :
    (runTests validate cases).total = (cases.flatMap (fun category => category.tests)).length ∧
    (runTests validate cases).passed =
      (cases.flatMap (fun category => category.tests)).enum.countP
        (fun p => decide (specVerdict (validate p.1 p.2.url) p.2 = .passed)) ∧
    (runTests validate cases).failed =
      (cases.flatMap (fun category => category.tests)).enum.countP
        (fun p => decide (specVerdict (validate p.1 p.2.url) p.2 = .failed)) ∧
    (runTests validate cases).skipped =
      (cases.flatMap (fun category => category.tests)).enum.countP
        (fun p => decide (specVerdict (validate p.1 p.2.url) p.2 = .skipped)) ∧
    (runTests validate cases).results.map (fun r => r.test) =
      cases.flatMap (fun category => category.tests) ∧
    (runTests validate cases).results.map (fun r => r.passed) =
      (cases.flatMap (fun category => category.tests)).enum.map
        (fun p => decide (specVerdict (validate p.1 p.2.url) p.2 = .passed)) ∧
    (runTests validate cases).total =
      (runTests validate cases).passed + (runTests validate cases).failed +
        (runTests validate cases).skipped ∧
    (∀ (outcome : Except String ValidationResult) (test : TestCase),
      (specVerdict outcome test = .passed ↔
        ∃ result, outcome = .ok result ∧
          ((∃ i ∈ result.issues, i.code = test.expectedCode) ∨
            (test.expectedCode = "SSL_VALID" ∧ result.overallSeverity = "OK"))) ∧
      (specVerdict outcome test = .failed ↔
        ∃ result, outcome = .ok result ∧
          ¬ ((∃ i ∈ result.issues, i.code = test.expectedCode) ∨
            (test.expectedCode = "SSL_VALID" ∧ result.overallSeverity = "OK"))) ∧
      (specVerdict outcome test = .skipped ↔ ∃ message, outcome = .error message)) := by
  obtain ⟨h1, h2, h3, h4, h5, h6⟩ :=
    runTests_tests_verdicts validate (cases.flatMap (fun category => category.tests))
      ⟨0, 0, 0, 0, []⟩
  have hrun : runTests validate cases =
      (cases.flatMap (fun category => category.tests)).foldl (runTests.test validate)
        ⟨0, 0, 0, 0, []⟩ := runTests_eq_foldl validate cases _
  have hbal := runTests_categories_balanced validate cases ⟨0, 0, 0, 0, []⟩ rfl
  rw [← hrun] at h1 h2 h3 h4 h5 h6
  refine ⟨by simpa using h1, by simpa [List.enum] using h2, by simpa [List.enum] using h3,
    by simpa [List.enum] using h4, by simpa using h5, by simpa [List.enum] using h6, hbal, ?_⟩
  intro outcome test
  cases outcome with
  | error message => simp [specVerdict]
  | ok result =>
    by_cases hc : ((∃ i ∈ result.issues, i.code = test.expectedCode) ∨
        (test.expectedCode = "SSL_VALID" ∧ result.overallSeverity = "OK"))
    · have hv : specVerdict (.ok result) test = .passed := by
        simp only [specVerdict]
        exact if_pos hc
      rw [hv]
      refine ⟨⟨fun _ => ⟨result, rfl, hc⟩, fun _ => rfl⟩, ⟨fun h => (by cases h), ?_⟩,
        ⟨fun h => (by cases h), ?_⟩⟩
      · rintro ⟨r, hr, hn⟩
        cases hr
        exact absurd hc hn
      · rintro ⟨m, hm⟩
        cases hm
    · have hv : specVerdict (.ok result) test = .failed := by
        simp only [specVerdict]
        exact if_neg hc
      rw [hv]
      refine ⟨⟨fun h => (by cases h), ?_⟩, ⟨fun _ => ⟨result, rfl, hc⟩, fun _ => rfl⟩,
        ⟨fun h => (by cases h), ?_⟩⟩
      · rintro ⟨r, hr, hp⟩
        cases hr
        exact absurd hp hc
      · rintro ⟨m, hm⟩
        cases hm

/-- Witness of C24: in the sample run of three tests the first, which expects
`CERT_EXPIRED` of an expired certificate, is counted as passed, the second,
which expects `CERT_REVOKED`, as failed, and the third, whose call throws, as
skipped. -/
theorem runTests_verdicts_witness :
    (runTests sampleOutcomes sampleTests).total = 3 ∧
    (runTests sampleOutcomes sampleTests).passed = 1 ∧
    (runTests sampleOutcomes sampleTests).failed = 1 ∧
    (runTests sampleOutcomes sampleTests).skipped = 1 ∧
    (runTests sampleOutcomes sampleTests).results.map (fun r => r.passed) =
      [true, false, false] :=
  ⟨(runTests_verdicts sampleOutcomes sampleTests).1.trans (by decide),
    (runTests_verdicts sampleOutcomes sampleTests).2.1.trans (by decide),
    (runTests_verdicts sampleOutcomes sampleTests).2.2.1.trans (by decide),
    (runTests_verdicts sampleOutcomes sampleTests).2.2.2.1.trans (by decide),
    (runTests_verdicts sampleOutcomes sampleTests).2.2.2.2.2.1.trans (by decide)⟩

/-! ## What the evaluators can emit -/

/-- Every issue of `checkCertificateValidity` is a catalog entry of the
certificate rules. -/
theorem checkCertificateValidity_entries (env : Env) (cert : Certificate) :
    ∀ i ∈ checkCertificateValidity env cert, i ∈ certificateRuleEntries := by
  have h : (checkCertificateValidity env cert).all
      (fun i => certificateRuleEntries.contains i) = true := by
    unfold checkCertificateValidity
    simp only []
    repeat' split
    all_goals decide
  intro i hi
  simpa using List.all_eq_true.mp h i hi

/-- Every issue of `checkCertificateIdentity` is a catalog entry of the
certificate rules. -/
theorem checkCertificateIdentity_entries (cert : Certificate) (hostname : String) :
    ∀ i ∈ checkCertificateIdentity cert hostname, i ∈ certificateRuleEntries := by
  have h : (checkCertificateIdentity cert hostname).all
      (fun i => certificateRuleEntries.contains i) = true := by
    unfold checkCertificateIdentity
    simp only []
    repeat' split
    all_goals decide
  intro i hi
  simpa using List.all_eq_true.mp h i hi

/-- Every issue of `checkChainOfTrust` is a catalog entry of the certificate
rules. -/
theorem checkChainOfTrust_entries (certInfo : CertInfo) :
    ∀ i ∈ checkChainOfTrust certInfo, i ∈ certificateRuleEntries := by
  have h : (checkChainOfTrust certInfo).all
      (fun i => certificateRuleEntries.contains i) = true := by
    unfold checkChainOfTrust
    repeat' split
    all_goals decide
  intro i hi
  simpa using List.all_eq_true.mp h i hi

/-- Every issue of `checkSignatureAlgorithm` is a catalog entry of the
certificate rules. -/
theorem checkSignatureAlgorithm_entries (cert : Certificate) :
    ∀ i ∈ checkSignatureAlgorithm cert, i ∈ certificateRuleEntries := by
  have h : (checkSignatureAlgorithm cert).all
      (fun i => certificateRuleEntries.contains i) = true := by
    unfold checkSignatureAlgorithm
    simp only []
    repeat' split
    all_goals decide
  intro i hi
  simpa using List.all_eq_true.mp h i hi

/-- Every issue of `checkKeyStrength` is a catalog entry of the certificate
rules. -/
theorem checkKeyStrength_entries (cert : Certificate) :
    ∀ i ∈ checkKeyStrength cert, i ∈ certificateRuleEntries := by
  have h : (checkKeyStrength cert).all
      (fun i => certificateRuleEntries.contains i) = true := by
    unfold checkKeyStrength
    repeat' split
    all_goals decide
  intro i hi
  simpa using List.all_eq_true.mp h i hi

/-- Every issue of `checkTLSVersion` is a catalog entry of the certificate
rules. -/
theorem checkTLSVersion_entries (connection : Option Connection) :
    ∀ i ∈ checkTLSVersion connection, i ∈ certificateRuleEntries := by
  have h : (checkTLSVersion connection).all
      (fun i => certificateRuleEntries.contains i) = true := by
    unfold checkTLSVersion
    repeat' split
    all_goals decide
  intro i hi
  simpa using List.all_eq_true.mp h i hi

/-- Every issue of `checkCipherSuite` is a catalog entry of the certificate
rules. -/
theorem checkCipherSuite_entries (connection : Option Connection) :
    ∀ i ∈ checkCipherSuite connection, i ∈ certificateRuleEntries := by
  have h : (checkCipherSuite connection).all
      (fun i => certificateRuleEntries.contains i) = true := by
    unfold checkCipherSuite
    simp only []
    repeat' split
    all_goals decide
  intro i hi
  simpa using List.all_eq_true.mp h i hi

/-- Every issue of `checkKnownBadCerts` is a catalog entry of the certificate
rules. -/
theorem checkKnownBadCerts_entries (cert : Certificate) :
    ∀ i ∈ checkKnownBadCerts cert, i ∈ certificateRuleEntries := by
  intro i hi
  rw [eq_of_mem_checkKnownBadCerts cert i hi]
  decide

/-- The result of `checkGovPlCertificate` by its two tests. -/
theorem checkGovPlCertificate_cases (cert : Certificate) (hostname : String) :
    checkGovPlCertificate cert hostname =
      if jsEndsWith hostname ".gov.pl" then
        if isFromTrustedGovCA (some cert) then
          [{ SSL_ERROR_CODES.GOV_CERT_VALID with
              technicalDesc := "Certyfikat wydany przez: " ++ issuerDisplay cert "Zaufany CA" }]
        else
          [{ SSL_ERROR_CODES.GOV_UNTRUSTED_CA with
              technicalDesc := "Certyfikat wydany przez niezaufanego CA: " ++
                issuerDisplay cert "Nieznany" }]
      else [] := by
  unfold checkGovPlCertificate
  cases h1 : jsEndsWith hostname ".gov.pl" <;> cases h2 : isFromTrustedGovCA (some cert) <;> simp

/-- Every issue of `checkGovPlCertificate` is `GOV_CERT_VALID` or
`GOV_UNTRUSTED_CA` with its `technicalDesc` replaced. -/
theorem checkGovPlCertificate_entries (cert : Certificate) (hostname : String) :
    ∀ i ∈ checkGovPlCertificate cert hostname,
      (∃ t, i = { SSL_ERROR_CODES.GOV_CERT_VALID with technicalDesc := t }) ∨
      (∃ t, i = { SSL_ERROR_CODES.GOV_UNTRUSTED_CA with technicalDesc := t }) := by
  intro i hi
  rw [checkGovPlCertificate_cases] at hi
  split_ifs at hi
  · exact Or.inl ⟨_, List.mem_singleton.mp hi⟩
  · exact Or.inr ⟨_, List.mem_singleton.mp hi⟩
  · exact absurd hi (List.not_mem_nil _)

/-- An issue of the nine evaluators comes from the first eight, hence is a
catalog entry of the certificate rules, or from `checkGovPlCertificate`. -/
theorem evaluate_entries (env : Env) (certInfo : CertInfo) (cert : Certificate)
    (hostname : String) :
    ∀ i ∈ validateSSL.evaluate env certInfo cert hostname,
      i ∈ certificateRuleEntries ∨ i ∈ checkGovPlCertificate cert hostname := by
  intro i hi
  simp only [validateSSL.evaluate, List.mem_append] at hi
  rcases hi with (((((((h | h) | h) | h) | h) | h) | h) | h) | h
  · exact Or.inl (checkCertificateValidity_entries env cert i h)
  · exact Or.inl (checkCertificateIdentity_entries cert hostname i h)
  · exact Or.inl (checkChainOfTrust_entries certInfo i h)
  · exact Or.inl (checkSignatureAlgorithm_entries cert i h)
  · exact Or.inl (checkKeyStrength_entries cert i h)
  · exact Or.inl (checkTLSVersion_entries certInfo.connection i h)
  · exact Or.inl (checkCipherSuite_entries certInfo.connection i h)
  · exact Or.inl (checkKnownBadCerts_entries cert i h)
  · exact Or.inr h

/-- The three shapes of a result of `validateSSL`: the single
`SSL_CONNECTION_FAILED` issue (caught exception or connection error), the
single `NO_ENCRYPTION` issue, or the evaluated snapshot. -/
theorem validateSSL_shapes (env : Env) (url : String) :
    (∃ m, (validateSSL env url).issues =
        [{ SSL_ERROR_CODES.SSL_CONNECTION_FAILED with technicalDesc := m }] ∧
      (validateSSL env url).overallSeverity = "CRITICAL" ∧
      (validateSSL env url).valid = false) ∨
    ((validateSSL env url).issues = [SSL_ERROR_CODES.NO_ENCRYPTION] ∧
      (validateSSL env url).overallSeverity = "CRITICAL" ∧
      (validateSSL env url).valid = false) ∨
    (∃ (u : URLObj) (certInfo : CertInfo) (cert : Certificate),
      (validateSSL env url).issues =
        (if validateSSL.evaluate env certInfo cert u.hostname = [] then
          [SSL_ERROR_CODES.SSL_VALID]
        else validateSSL.evaluate env certInfo cert u.hostname) ∧
      (validateSSL env url).overallSeverity =
        calculateOverallSeverity (validateSSL.evaluate env certInfo cert u.hostname) ∧
      (validateSSL env url).valid =
        (calculateOverallSeverity (validateSSL.evaluate env certInfo cert u.hostname) == "OK" ||
         calculateOverallSeverity (validateSSL.evaluate env certInfo cert u.hostname) ==
           "LOW")) := by
  cases hparse : env.parseURL url with
  | error message =>
    rw [validateSSL_of_parse_error env url message hparse]
    exact Or.inl ⟨message, rfl, rfl, rfl⟩
  | ok u =>
    by_cases hp : u.protocol = "https:"
    · cases hf : getCertificateInfo (env.socket u.hostname (validateSSL.port u)) with
      | error message =>
        rw [validateSSL_of_fetch_rejected env url u message hparse hp hf]
        exact Or.inl ⟨message, rfl, rfl, rfl⟩
      | ok certInfo =>
        cases ht : truthy certInfo.error with
        | false =>
          rw [validateSSL_of_no_error env url u certInfo hparse hp hf ht]
          cases hc : certInfo.certificate with
          | none =>
            refine Or.inl ⟨undefinedCertificateMessage, ?_, ?_, ?_⟩ <;>
              simp [validateSSL.inspect, hc, validateSSL.catchBlock, validateSSL.located,
                validateSSL.initial]
          | some cert =>
            exact Or.inr (Or.inr ⟨u, certInfo, cert, inspect_of_snapshot env u certInfo cert hc⟩)
        | true =>
          cases hce : certInfo.error with
          | none => simp [truthy, hce] at ht
          | some e =>
            have hne : e ≠ "" := by simpa [truthy, hce] using ht
            rw [validateSSL_of_fetch_error env url u certInfo e hparse hp hf hce hne]
            exact Or.inl ⟨e, rfl, rfl, rfl⟩
    · rw [validateSSL_of_not_https env url u hparse hp]
      exact Or.inr (Or.inl ⟨rfl, rfl, rfl⟩)

/-- The fields `isGovPl` and `isTrustedGovCA` that `validateSSL` records for
an evaluated snapshot. -/
theorem inspect_details (env : Env) (u : URLObj) (certInfo : CertInfo) (cert : Certificate)
    (hc : certInfo.certificate = some cert) :
    (validateSSL.inspect env (validateSSL.located env u) certInfo u.hostname).details.isGovPl =
      some (jsEndsWith u.hostname ".gov.pl") ∧
    (validateSSL.inspect env (validateSSL.located env u) certInfo
      u.hostname).details.isTrustedGovCA = some (isFromTrustedGovCA (some cert)) := by
  simp only [validateSSL.inspect, hc]
  split <;> exact ⟨rfl, rfl⟩

/-! ## Invariants of the result -/

/-- C22: every issue in a result of `validateSSL` has a code that is a key of
`SSL_ERROR_CODES`, and its severity, user message and icon are those of the
record stored under that key; only `technicalDesc` may differ.  The keys of
the catalog are pairwise distinct, so that record is unique. -/
theorem validateSSL_issues_from_catalog (env : Env) (url : String) :
    (∀ i ∈ (validateSSL env url).issues,
      ∃ kv ∈ SSL_ERROR_CODES.table, kv.1 = i.code ∧ kv.2.code = i.code ∧
        kv.2.severity = i.severity ∧ kv.2.userMessage = i.userMessage ∧
        kv.2.icon = i.icon) ∧
    (SSL_ERROR_CODES.table.map (fun kv => kv.1)).Nodup := by
  have hrules : ∀ e ∈ certificateRuleEntries, (e.code, e) ∈ SSL_ERROR_CODES.table := by decide
  have hgov : ∀ i ∈ (validateSSL env url).issues, ∀ (cert : Certificate) (hostname : String),
      i ∈ checkGovPlCertificate cert hostname →
      ∃ kv ∈ SSL_ERROR_CODES.table, kv.1 = i.code ∧ kv.2.code = i.code ∧
        kv.2.severity = i.severity ∧ kv.2.userMessage = i.userMessage ∧
        kv.2.icon = i.icon := by
    intro i _ cert hostname hi
    rcases checkGovPlCertificate_entries cert hostname i hi with ⟨t, rfl⟩ | ⟨t, rfl⟩
    · exact ⟨("GOV_CERT_VALID", SSL_ERROR_CODES.GOV_CERT_VALID), by decide, rfl, rfl, rfl, rfl,
        rfl⟩
    · exact ⟨("GOV_UNTRUSTED_CA", SSL_ERROR_CODES.GOV_UNTRUSTED_CA), by decide, rfl, rfl, rfl,
        rfl, rfl⟩
  refine ⟨?_, by decide⟩
  intro i hi
  rcases validateSSL_shapes env url with ⟨m, hiss, _, _⟩ | ⟨hiss, _, _⟩ |
    ⟨u, certInfo, cert, hiss, _, _⟩
  · rw [hiss, List.mem_singleton] at hi
    subst hi
    exact ⟨("SSL_CONNECTION_FAILED", SSL_ERROR_CODES.SSL_CONNECTION_FAILED), by decide, rfl,
      rfl, rfl, rfl, rfl⟩
  · rw [hiss, List.mem_singleton] at hi
    subst hi
    exact ⟨("NO_ENCRYPTION", SSL_ERROR_CODES.NO_ENCRYPTION), by decide, rfl, rfl, rfl, rfl, rfl⟩
  · have hi0 := hi
    rw [hiss] at hi
    split_ifs at hi with hout
    · rw [List.mem_singleton] at hi
      subst hi
      exact ⟨("SSL_VALID", SSL_ERROR_CODES.SSL_VALID), by decide, rfl, rfl, rfl, rfl, rfl⟩
    · rcases evaluate_entries env certInfo cert u.hostname i hi with h | h
      · exact ⟨(i.code, i), hrules i h, rfl, rfl, rfl, rfl, rfl⟩
      · exact hgov i hi0 cert u.hostname h

/-- C26: the issues of a result of `validateSSL` are never empty, and an issue
with the code `SSL_VALID` occurs only as the sole issue, the catalog entry
`SSL_VALID`, in which case the overall severity is `OK` and `valid` is true. -/
theorem validateSSL_issues_nonempty (env : Env) (url : String) :
    (validateSSL env url).issues ≠ [] ∧
    ((∃ i ∈ (validateSSL env url).issues, i.code = "SSL_VALID") →
      (validateSSL env url).issues = [SSL_ERROR_CODES.SSL_VALID] ∧
      (validateSSL env url).overallSeverity = "OK" ∧
      (validateSSL env url).valid = true) := by
  have hrules : ∀ e ∈ certificateRuleEntries, e.code ≠ "SSL_VALID" := by decide
  have hfailed : SSL_ERROR_CODES.SSL_CONNECTION_FAILED.code ≠ "SSL_VALID" := by decide
  have hgovValid : SSL_ERROR_CODES.GOV_CERT_VALID.code ≠ "SSL_VALID" := by decide
  have hgovUntrusted : SSL_ERROR_CODES.GOV_UNTRUSTED_CA.code ≠ "SSL_VALID" := by decide
  rcases validateSSL_shapes env url with ⟨m, hiss, _, _⟩ | ⟨hiss, _, _⟩ |
    ⟨u, certInfo, cert, hiss, hsev, hval⟩
  · refine ⟨by rw [hiss]; simp, ?_⟩
    rintro ⟨i, hi, hcode⟩
    rw [hiss, List.mem_singleton] at hi
    subst hi
    exact absurd hcode hfailed
  · refine ⟨by rw [hiss]; simp, ?_⟩
    rintro ⟨i, hi, hcode⟩
    rw [hiss, List.mem_singleton] at hi
    subst hi
    exact absurd hcode (by decide)
  · by_cases hout : validateSSL.evaluate env certInfo cert u.hostname = []
    · rw [hout] at hiss hsev hval
      refine ⟨by rw [hiss]; simp, ?_⟩
      intro _
      refine ⟨by rw [hiss]; rfl, by rw [hsev]; rfl, by rw [hval]; rfl⟩
    · rw [if_neg hout] at hiss
      refine ⟨by rw [hiss]; exact hout, ?_⟩
      rintro ⟨i, hi, hcode⟩
      rw [hiss] at hi
      exfalso
      rcases evaluate_entries env certInfo cert u.hostname i hi with h | h
      · exact hrules i h hcode
      · rcases checkGovPlCertificate_entries cert u.hostname i h with ⟨t, rfl⟩ | ⟨t, rfl⟩
        · exact hgovValid hcode
        · exact hgovUntrusted hcode

/-- C27: in every result of `validateSSL` the field `overallSeverity` equals
`calculateOverallSeverity` of the issues of that result, also where the field
is assigned directly (scheme other than https, connection error, caught
exception) and where `SSL_VALID` is appended after the computation. -/
theorem validateSSL_severity_consistent (env : Env) (url : String) :
    (validateSSL env url).overallSeverity =
      calculateOverallSeverity (validateSSL env url).issues := by
  rcases validateSSL_shapes env url with ⟨m, hiss, hsev, _⟩ | ⟨hiss, hsev, _⟩ |
    ⟨u, certInfo, cert, hiss, hsev, _⟩
  · rw [hiss, hsev]
    exact (calculateOverallSeverity_critical _ ⟨_, List.mem_singleton.mpr rfl, rfl⟩).symm
  · rw [hiss, hsev]
    exact (calculateOverallSeverity_critical _ ⟨_, List.mem_singleton.mpr rfl, rfl⟩).symm
  · rw [hiss, hsev]
    by_cases hout : validateSSL.evaluate env certInfo cert u.hostname = []
    · rw [if_pos hout, hout]
      decide
    · rw [if_neg hout]

/-- The evaluators' output when the first eight return nothing: the output of
`checkGovPlCertificate` alone. -/
theorem evaluate_of_rules_silent (env : Env) (cert : Certificate) (conn : Connection)
    (hostname : String)
    (h1 : checkCertificateValidity env cert = [])
    (h2 : checkCertificateIdentity cert hostname = [])
    (h3 : checkChainOfTrust ⟨none, some cert, some conn⟩ = [])
    (h4 : checkSignatureAlgorithm cert = [])
    (h5 : checkKeyStrength cert = [])
    (h6 : checkTLSVersion (some conn) = [])
    (h7 : checkCipherSuite (some conn) = [])
    (h8 : checkKnownBadCerts cert = []) :
    validateSSL.evaluate env ⟨none, some cert, some conn⟩ cert hostname =
      checkGovPlCertificate cert hostname := by
  simp [validateSSL.evaluate, h1, h2, h3, h4, h5, h6, h7, h8]

/-- C30: for an https URL whose fetch delivers a snapshot.  If the host name
ends with `.gov.pl`, no issue has the code `SSL_VALID`; an issue with the code
`GOV_CERT_VALID` is present exactly when `details.isGovPl` and
`details.isTrustedGovCA` are both true; and when the other eight evaluators
return nothing, a trusted issuer gives exactly one issue, `GOV_CERT_VALID`,
with overall severity `OK` and `valid = true` (an untrusted one gives exactly
`GOV_UNTRUSTED_CA`, `CRITICAL`, `valid = false`).  The bare host name `gov.pl`
is not a government host: `details.isGovPl` is false and no issue has the code
`GOV_CERT_VALID` or `GOV_UNTRUSTED_CA`. -/
theorem validateSSL_gov_host (env : Env) (url : String) (u : URLObj)
    (cert : Certificate) (conn : Connection)
    (h : env.parseURL url = .ok u) (hp : u.protocol = "https:")
    (hf : env.socket u.hostname (validateSSL.port u) = .secureConnect cert conn) :
    (jsEndsWith u.hostname ".gov.pl" = true →
      (∀ i ∈ (validateSSL env url).issues, i.code ≠ "SSL_VALID") ∧
      ((∃ i ∈ (validateSSL env url).issues, i.code = "GOV_CERT_VALID") ↔
        ((validateSSL env url).details.isGovPl = some true ∧
          (validateSSL env url).details.isTrustedGovCA = some true)) ∧
      (checkCertificateValidity env cert = [] →
        checkCertificateIdentity cert u.hostname = [] →
        checkChainOfTrust ⟨none, some cert, some conn⟩ = [] →
        checkSignatureAlgorithm cert = [] → checkKeyStrength cert = [] →
        checkTLSVersion (some conn) = [] → checkCipherSuite (some conn) = [] →
        checkKnownBadCerts cert = [] →
        (isFromTrustedGovCA (some cert) = true →
          (∃ i : Issue, (validateSSL env url).issues = [i] ∧ i.code = "GOV_CERT_VALID") ∧
          (validateSSL env url).overallSeverity = "OK" ∧
          (validateSSL env url).valid = true) ∧
        (isFromTrustedGovCA (some cert) = false →
          (∃ i : Issue, (validateSSL env url).issues = [i] ∧ i.code = "GOV_UNTRUSTED_CA") ∧
          (validateSSL env url).overallSeverity = "CRITICAL" ∧
          (validateSSL env url).valid = false))) ∧
    (u.hostname = "gov.pl" →
      (validateSSL env url).details.isGovPl = some false ∧
      (∀ i ∈ (validateSSL env url).issues,
        i.code ≠ "GOV_CERT_VALID" ∧ i.code ≠ "GOV_UNTRUSTED_CA")) := by
  have hrules : ∀ e ∈ certificateRuleEntries,
      e.code ≠ "SSL_VALID" ∧ e.code ≠ "GOV_CERT_VALID" ∧ e.code ≠ "GOV_UNTRUSTED_CA" := by
    decide
  have hvalidCode : SSL_ERROR_CODES.GOV_CERT_VALID.code ≠ "SSL_VALID" := by decide
  have huntrustedCode : SSL_ERROR_CODES.GOV_UNTRUSTED_CA.code ≠ "SSL_VALID" ∧
      SSL_ERROR_CODES.GOV_UNTRUSTED_CA.code ≠ "GOV_CERT_VALID" := by decide
  have hsslValid : SSL_ERROR_CODES.SSL_VALID.code ≠ "GOV_CERT_VALID" ∧
      SSL_ERROR_CODES.SSL_VALID.code ≠ "GOV_UNTRUSTED_CA" := by decide
  obtain ⟨hiss, hsev, hval⟩ := inspect_of_snapshot env u ⟨none, some cert, some conn⟩ cert rfl
  obtain ⟨hgovField, htrustField⟩ :=
    inspect_details env u ⟨none, some cert, some conn⟩ cert rfl
  rw [← validateSSL_of_snapshot env url u cert conn h hp hf] at hiss hsev hval
  rw [← validateSSL_of_snapshot env url u cert conn h hp hf] at hgovField htrustField
  constructor
  · intro hgov
    have hcases := checkGovPlCertificate_cases cert u.hostname
    rw [hgov, if_pos rfl] at hcases
    have hne : validateSSL.evaluate env ⟨none, some cert, some conn⟩ cert u.hostname ≠ [] := by
      intro hnil
      have hsub : checkGovPlCertificate cert u.hostname = [] := by
        have := congrArg List.length hnil
        simp only [validateSSL.evaluate, List.length_append, List.length_nil] at this
        exact List.length_eq_zero.mp (by omega)
      rw [hcases] at hsub
      split_ifs at hsub
    rw [if_neg hne] at hiss
    refine ⟨?_, ?_, ?_⟩
    · intro i hi hcode
      rw [hiss] at hi
      rcases evaluate_entries env _ cert u.hostname i hi with hr | hg
      · exact (hrules i hr).1 hcode
      · rcases checkGovPlCertificate_entries cert u.hostname i hg with ⟨t, rfl⟩ | ⟨t, rfl⟩
        · exact hvalidCode hcode
        · exact huntrustedCode.1 hcode
    · rw [hgovField, htrustField, hgov]
      constructor
      · rintro ⟨i, hi, hcode⟩
        refine ⟨rfl, ?_⟩
        rw [hiss] at hi
        rcases evaluate_entries env _ cert u.hostname i hi with hr | hg
        · exact absurd hcode (hrules i hr).2.1
        · rw [hcases] at hg
          split_ifs at hg with ht
          · rw [ht]
          · rw [List.mem_singleton] at hg
            subst hg
            exact absurd hcode huntrustedCode.2
      · rintro ⟨_, ht⟩
        have ht2 : isFromTrustedGovCA (some cert) = true := Option.some.inj ht
        refine ⟨{ SSL_ERROR_CODES.GOV_CERT_VALID with
          technicalDesc := "Certyfikat wydany przez: " ++ issuerDisplay cert "Zaufany CA" },
          ?_, rfl⟩
        rw [hiss]
        simp only [validateSSL.evaluate, List.mem_append]
        refine Or.inr ?_
        rw [hcases, if_pos ht2]
        exact List.mem_singleton.mpr rfl
    · intro h1 h2 h3 h4 h5 h6 h7 h8
      have hout := evaluate_of_rules_silent env cert conn u.hostname h1 h2 h3 h4 h5 h6 h7 h8
      rw [hout, hcases] at hiss hsev hval
      constructor
      · intro ht
        rw [if_pos ht] at hiss hsev hval
        exact ⟨⟨_, hiss, rfl⟩, by rw [hsev]; rfl, by rw [hval]; rfl⟩
      · intro ht
        rw [ht] at hiss hsev hval
        simp only [Bool.false_eq_true, if_false] at hiss hsev hval
        exact ⟨⟨_, hiss, rfl⟩, by rw [hsev]; rfl, by rw [hval]; rfl⟩
  · intro hhost
    have hbare : jsEndsWith u.hostname ".gov.pl" = false := by rw [hhost]; decide
    have hnone : checkGovPlCertificate cert u.hostname = [] := by
      rw [checkGovPlCertificate_cases, hbare]
      rfl
    refine ⟨by rw [hgovField, hbare], ?_⟩
    intro i hi
    rw [hiss] at hi
    split_ifs at hi with hout
    · rw [List.mem_singleton] at hi
      subst hi
      exact hsslValid
    · rcases evaluate_entries env _ cert u.hostname i hi with hr | hg
      · exact ⟨(hrules i hr).2.1, (hrules i hr).2.2⟩
      · rw [hnone] at hg
        exact absurd hg (List.not_mem_nil _)

/-- Witness of C30: `https://www.gov.pl/` with a sound certificate issued by
Certum is valid, its only issue being `GOV_CERT_VALID`. -/
theorem validateSSL_gov_host_witness :
    (validateSSL govEnv "https://www.gov.pl/").valid = true :=
  ((((validateSSL_gov_host govEnv "https://www.gov.pl/" ⟨"www.gov.pl", "", "https:"⟩
      govCertificate sampleConnection rfl (by decide) rfl).1 (by decide)).2.2
    (by decide) (by decide) (by decide) (by decide) (by decide) (by decide) (by decide)
    (by decide)).1 (by decide)).2.2

/-- Witness of C26: the sound sample certificate yields `SSL_VALID`, hence a
valid result. -/
theorem validateSSL_issues_nonempty_witness :
    (validateSSL (sampleEnv (.secureConnect sampleCertificate sampleConnection) midYear)
      "https://example.com/").valid = true :=
  ((validateSSL_issues_nonempty
      (sampleEnv (.secureConnect sampleCertificate sampleConnection) midYear)
      "https://example.com/").2 ⟨SSL_ERROR_CODES.SSL_VALID, by decide, rfl⟩).2.2

end UkrytaPrawda
